import Mathlib

/-!
# GT-511C1R fingerprint sensor driver: embedding of `finger.c`

The driver in `src/finger.c` is embedded function by function.

* C integers are natural numbers; every store into a `uint8_t`, `uint16_t` or
  `uint32_t` object is reduced modulo `2^8`, `2^16` or `2^32` at the store.
* A `uint8_t*` buffer is a list of natural numbers; `buff[i]` is
  `buff.getD i 0` and `buff[i] = v` is `buff.set i v`.
* The four `fingerHal_*` functions are `extern` in `src/fingerhal.h`; the
  driver takes them as a parameter (`FingerHal`), a record of state
  transformers over an arbitrary transport state.
* The two busy-wait loops of `finger_getResponse` take a fuel argument; a run
  that exhausts its fuel yields `none`.
-/

/-! ## Constants and types (`finger.c` lines 14-40, `finger.h`) -/

/-- Length of a frame in bytes, `FINGER_PKT_LEN`. -/
def FINGER_PKT_LEN : Nat := 12

/-- Size of the local buffer of an exchange, `FINGER_BUFF_LEN`. -/
def FINGER_BUFF_LEN : Nat := FINGER_PKT_LEN * 4

/-- Time budget of one exchange in milliseconds, `FINGER_RESPONSE_TIMEOUT`. -/
def FINGER_RESPONSE_TIMEOUT : Nat := 1000

def FINGER_CMD_OPEN : Nat := 0x01
def FINGER_CMD_CLOSE : Nat := 0x02
def FINGER_CMD_CMOS_LED : Nat := 0x12
def FINGER_CMD_GET_ENROLL_COUNT : Nat := 0x20
def FINGER_CMD_CHECK_ENROLLED : Nat := 0x21
def FINGER_CMD_ENROLL_START : Nat := 0x22
def FINGER_CMD_ENROLL_1 : Nat := 0x23
def FINGER_CMD_ENROLL_2 : Nat := 0x24
def FINGER_CMD_ENROLL_3 : Nat := 0x25
def FINGER_CMD_IS_PRESS_FINGER : Nat := 0x26
def FINGER_CMD_DELETE_ID : Nat := 0x40
def FINGER_CMD_DELETE_ALL : Nat := 0x41
def FINGER_CMD_VERIFY_1_1 : Nat := 0x50
def FINGER_CMD_VERIFY_1_N : Nat := 0x51
def FINGER_CMD_CAPTURE_FINGER : Nat := 0x60
def FINGER_CMD_START_CODE_1 : Nat := 0x55
def FINGER_CMD_START_CODE_2 : Nat := 0xAA
def FINGER_CMD_DEVICE_ID_1 : Nat := 0x01
def FINGER_CMD_DEVICE_ID_2 : Nat := 0x00

/-- The return codes of the library, `finger_err_t` of `finger.h`, in the
order of the C enumeration (`FINGER_ERROR_NONE = 0`). -/
inductive finger_err_t where
  | FINGER_ERROR_NONE
  | FINGER_ERROR_INVALID
  | FINGER_ERROR_TIMEOUT
  | FINGER_ERROR_PARSING
  | FINGER_ERROR_CHECKSUM
  | FINGER_ERROR_NACK
  | FINGER_ERROR_NOFINGER
  | FINGER_ERROR_BADFINGER
  | FINGER_ERROR_WRONGFINGER
  | FINGER_ERROR_OTHER
  deriving DecidableEq, Repr

open finger_err_t

/-- The response record `finger_resp_t` of `finger.h`: `param` is a
`uint32_t`, `resp` and `error` are `uint16_t`. -/
structure finger_resp_t where
  param : Nat
  resp : Nat
  error : Nat
  deriving DecidableEq, Repr

def FINGER_ERRCODE_NONE : Nat := 0x0000
def FINGER_ERRCODE_TIMEOUT : Nat := 0x1001
def FINGER_ERRCODE_INVALID_BAUDRATE : Nat := 0x1002
def FINGER_ERRCODE_INVALID_POS : Nat := 0x1003
def FINGER_ERRCODE_IS_NOT_USED : Nat := 0x1004
def FINGER_ERRCODE_IS_ALREADY_USED : Nat := 0x1005
def FINGER_ERRCODE_COMM_ERR : Nat := 0x1006
def FINGER_ERRCODE_VERIFY_FAILED : Nat := 0x1007
def FINGER_ERRCODE_IDENTIFY_FAILED : Nat := 0x1008
def FINGER_ERRCODE_DB_IS_FULL : Nat := 0x1009
def FINGER_ERRCODE_DB_IS_EMPTY : Nat := 0x100A
def FINGER_ERRCODE_TURN_ERR : Nat := 0x100B
def FINGER_ERRCODE_BAD_FINGER : Nat := 0x100C
def FINGER_ERRCODE_ENROLL_FAILED : Nat := 0x100D
def FINGER_ERRCODE_IS_NOT_SUPPORTED : Nat := 0x100E
def FINGER_ERRCODE_DEV_ERR : Nat := 0x100F
def FINGER_ERRCODE_CAPTURE_CANCELED : Nat := 0x1010
def FINGER_ERRCODE_INVALID_PARAM : Nat := 0x1011
def FINGER_ERRCODE_FINGER_IS_NOT_PRESSED : Nat := 0x1012

/-- A `uint8_t*` buffer: the cells from the pointer onwards. -/
abbrev Buffer := List Nat

/-- A buffer that holds a frame: at least `FINGER_PKT_LEN` cells, each a
`uint8_t` value. -/
def IsPacketBuffer (buff : Buffer) : Prop :=
  FINGER_PKT_LEN ≤ buff.length ∧ ∀ b ∈ buff, b < 256

instance (buff : Buffer) : Decidable (IsPacketBuffer buff) := by
  unfold IsPacketBuffer
  exact inferInstance

/-! ## Packet construction and checksum (`finger.c` lines 227-256) -/

/-- The checksum of a frame, `finger_calcChecksum`: the loop runs `i` over
`0 .. FINGER_PKT_LEN - sizeof(uint16_t) - 1` and adds `buff[i]` into the
`uint16_t` accumulator `cs`. -/
def finger_calcChecksum (buff : Buffer) : Nat :=
  (List.range (FINGER_PKT_LEN - 2)).foldl (fun cs i => (cs + buff.getD i 0) % 65536) 0

/-- The frame builder `finger_makePacket`: writes cells 0 to 11 of `buff`. -/
def finger_makePacket (buff : Buffer) (cmd param : Nat) : Buffer :=
  let buff := buff.set 0 FINGER_CMD_START_CODE_1
  let buff := buff.set 1 FINGER_CMD_START_CODE_2
  let buff := buff.set 2 FINGER_CMD_DEVICE_ID_1
  let buff := buff.set 3 FINGER_CMD_DEVICE_ID_2
  let buff := buff.set 4 (((param &&& 0x000000FF) >>> (8 * 0)) % 256)
  let buff := buff.set 5 (((param &&& 0x0000FF00) >>> (8 * 1)) % 256)
  let buff := buff.set 6 (((param &&& 0x00FF0000) >>> (8 * 2)) % 256)
  let buff := buff.set 7 (((param &&& 0xFF000000) >>> (8 * 3)) % 256)
  let buff := buff.set 8 (((cmd &&& 0x00FF) >>> (8 * 0)) % 256)
  let buff := buff.set 9 (((cmd &&& 0xFF00) >>> (8 * 1)) % 256)
  let cs := finger_calcChecksum buff
  let buff := buff.set 10 (((cs &&& 0x00FF) >>> (8 * 0)) % 256)
  buff.set 11 (((cs &&& 0xFF00) >>> (8 * 1)) % 256)

/-! ## Response parsing and error translation (`finger.c` lines 258-326) -/

/-- The frame validator `finger_parseResponse`. The result pairs the returned
code with the response record as the call leaves it. The C function returns
the code as a `char` and its caller keeps it in an `int8_t`; both conversions
preserve the values 0 to 9 of the enumeration. -/
def finger_parseResponse (buff : Buffer) (resp : finger_resp_t) : finger_err_t × finger_resp_t :=
  if buff.getD 0 0 ≠ FINGER_CMD_START_CODE_1
      ∨ buff.getD 1 0 ≠ FINGER_CMD_START_CODE_2
      ∨ buff.getD 2 0 ≠ FINGER_CMD_DEVICE_ID_1
      ∨ buff.getD 3 0 ≠ FINGER_CMD_DEVICE_ID_2 then
    (FINGER_ERROR_PARSING, resp)
  else if buff.getD 9 0 ≠ 0 then
    (FINGER_ERROR_PARSING, resp)
  else if buff.getD 8 0 ≠ 0x30 ∧ buff.getD 8 0 ≠ 0x31 then
    (FINGER_ERROR_PARSING, resp)
  else
    let cs := finger_calcChecksum buff
    if buff.getD 10 0 ≠ ((cs &&& 0x00FF) >>> (8 * 0)) % 256
        ∨ buff.getD 11 0 ≠ ((cs &&& 0xFF00) >>> (8 * 1)) % 256 then
      (FINGER_ERROR_CHECKSUM, resp)
    else
      let resp := { resp with param := (buff.getD 4 0 <<< (8 * 0)) % 2 ^ 32 }
      let resp := { resp with param := (resp.param + (buff.getD 5 0 <<< (8 * 1)) % 2 ^ 32) % 2 ^ 32 }
      let resp := { resp with param := (resp.param + (buff.getD 6 0 <<< (8 * 2)) % 2 ^ 32) % 2 ^ 32 }
      let resp := { resp with param := (resp.param + (buff.getD 7 0 <<< (8 * 3)) % 2 ^ 32) % 2 ^ 32 }
      let resp := { resp with resp := (buff.getD 8 0 <<< (8 * 0)) % 2 ^ 16 }
      let resp := { resp with resp := (resp.resp + (buff.getD 9 0 <<< (8 * 1))) % 2 ^ 16 }
      if buff.getD 8 0 = 0x31 ∧ buff.getD 5 0 ≠ 0 then
        if buff.getD 6 0 = 0 then
          (FINGER_ERROR_NONE, resp)
        else if buff.getD 6 0 > 0x12 then
          (FINGER_ERROR_PARSING, resp)
        else
          (FINGER_ERROR_NACK, { resp with error := resp.param % 2 ^ 16 })
      else
        (FINGER_ERROR_NONE, resp)

/-- The shared translation `finger_xlateVerifyError`. -/
def finger_xlateVerifyError (r : finger_err_t) (resp : finger_resp_t) : finger_err_t :=
  if r = FINGER_ERROR_NACK then
    if resp.error = FINGER_ERRCODE_VERIFY_FAILED ∨ resp.error = FINGER_ERRCODE_IDENTIFY_FAILED then
      FINGER_ERROR_WRONGFINGER
    else if resp.error = FINGER_ERRCODE_FINGER_IS_NOT_PRESSED then
      FINGER_ERROR_NOFINGER
    else if resp.error = FINGER_ERRCODE_BAD_FINGER then
      FINGER_ERROR_BADFINGER
    else
      r
  else
    r

/-! ## The hardware abstraction (`fingerhal.h`) -/

/-- The four functions the integrator supplies, as transformers of a
transport state `σ`, and the width of `unsigned long` on the platform (at
least 32 bits in C). A result is reduced to its C type where the driver
receives it. -/
structure FingerHal (σ : Type) where
  ulongBits : Nat
  hbits : 32 ≤ ulongBits
  sendPacket : Buffer → Nat → σ → σ
  millis : σ → Nat × σ
  serAvail : σ → Nat × σ
  serRead : σ → Int × σ

/-- The test `(fingerHal_millis() - stopwatch)` of both wait loops:
subtraction of `unsigned long` values. -/
def finger_elapsed {σ : Type} (hal : FingerHal σ) (t stopwatch : Nat) : Nat :=
  (t % 2 ^ hal.ulongBits + 2 ^ hal.ulongBits - stopwatch % 2 ^ hal.ulongBits) % 2 ^ hal.ulongBits

/-! ## The exchange (`finger.c` lines 212-225 and 328-359) -/

/-- First loop of `finger_getResponse` (lines 336-344). Every iteration is
entered with `hasSync == 0`; the result is `(hasSync, first, state)`. -/
def finger_getResponse_sync {σ : Type} (hal : FingerHal σ) (stopwatch : Nat) :
    Nat → Nat → σ → Option (Nat × Nat × σ)
  | 0, _, _ => none
  | fuel + 1, first, s =>
    let t := (hal.millis s).1
    let s1 := (hal.millis s).2
    if finger_elapsed hal t stopwatch < FINGER_RESPONSE_TIMEOUT then
      let n := (hal.serAvail s1).1
      let s2 := (hal.serAvail s1).2
      if n % 256 > 0 then
        let v := (hal.serRead s2).1
        let s3 := (hal.serRead s2).2
        let first := (v % 256).toNat
        if first = FINGER_CMD_START_CODE_1 then
          some (1, first, s3)
        else
          finger_getResponse_sync hal stopwatch fuel first s3
      else
        finger_getResponse_sync hal stopwatch fuel first s2
    else
      some (0, first, s1)

/-- Second loop of `finger_getResponse` (lines 350-357); the result is
`(i, buff, state)` at loop exit. -/
def finger_getResponse_rest {σ : Type} (hal : FingerHal σ) (stopwatch : Nat) :
    Nat → Nat → Buffer → σ → Option (Nat × Buffer × σ)
  | 0, _, _, _ => none
  | fuel + 1, i, buff, s =>
    if i < FINGER_PKT_LEN then
      let t := (hal.millis s).1
      let s1 := (hal.millis s).2
      if finger_elapsed hal t stopwatch < FINGER_RESPONSE_TIMEOUT then
        let n := (hal.serAvail s1).1
        let s2 := (hal.serAvail s1).2
        if n % 256 > 0 then
          let v := (hal.serRead s2).1
          let s3 := (hal.serRead s2).2
          finger_getResponse_rest hal stopwatch fuel (i + 1) (buff.set i (v % 256).toNat) s3
        else
          finger_getResponse_rest hal stopwatch fuel i buff s2
      else
        some (i, buff, s1)
    else
      some (i, buff, s)

/-- The receiver `finger_getResponse`: the result is the returned flag (1 for
a whole frame, 0 for a timeout), the buffer and the transport state; `none`
when a loop is still running after `fuel` iterations. The local `first` is
written before it is read. -/
def finger_getResponse {σ : Type} (hal : FingerHal σ) (fuel : Nat) (buff : Buffer) (s : σ) :
    Option (Nat × Buffer × σ) :=
  let stopwatch := (hal.millis s).1 % 2 ^ hal.ulongBits
  let s0 := (hal.millis s).2
  match finger_getResponse_sync hal stopwatch fuel 0 s0 with
  | none => none
  | some (hasSync, first, s1) =>
    if hasSync = 0 then
      some (0, buff, s1)
    else
      match finger_getResponse_rest hal stopwatch fuel 1 (buff.set 0 first) s1 with
      | none => none
      | some (i, buff1, s2) => some (if i = FINGER_PKT_LEN then 1 else 0, buff1, s2)

/-- The exchange `finger_sendCommandGetResponse`. The local array
`buff[FINGER_BUFF_LEN]` starts zero-filled here; in C it is uninitialised,
and every cell the code reads or transmits has been written before. -/
def finger_sendCommandGetResponse {σ : Type} (hal : FingerHal σ) (fuel : Nat)
    (cmd param : Nat) (resp : finger_resp_t) (s : σ) :
    Option (finger_err_t × finger_resp_t × σ) :=
  let buff := finger_makePacket (List.replicate FINGER_BUFF_LEN 0) cmd param
  let s1 := hal.sendPacket buff FINGER_PKT_LEN s
  match finger_getResponse hal fuel buff s1 with
  | none => none
  | some (ret, buff1, s2) =>
    if ret = 0 then
      some (FINGER_ERROR_TIMEOUT, resp, s2)
    else
      some ((finger_parseResponse buff1 resp).1, (finger_parseResponse buff1 resp).2, s2)

/-! ## Public operations (`finger.c` lines 51-210) -/

/-- Session open, `finger_open`. -/
def finger_open {σ : Type} (hal : FingerHal σ) (fuel : Nat) (baud : Nat)
    (resp : finger_resp_t) (s : σ) : Option (finger_err_t × finger_resp_t × σ) :=
  finger_sendCommandGetResponse hal fuel FINGER_CMD_OPEN baud resp s

/-- Session close, `finger_close`. -/
def finger_close {σ : Type} (hal : FingerHal σ) (fuel : Nat)
    (resp : finger_resp_t) (s : σ) : Option (finger_err_t × finger_resp_t × σ) :=
  finger_sendCommandGetResponse hal fuel FINGER_CMD_CLOSE 0 resp s

/-- Image capture, `finger_captureFinger`; `hq` is a `char`. -/
def finger_captureFinger {σ : Type} (hal : FingerHal σ) (fuel : Nat) (hq : Int)
    (resp : finger_resp_t) (s : σ) : Option (finger_err_t × finger_resp_t × σ) :=
  match finger_sendCommandGetResponse hal fuel FINGER_CMD_CAPTURE_FINGER
      (if hq ≠ 0 then 1 else 0) resp s with
  | none => none
  | some (r, resp1, s1) =>
    if (r = FINGER_ERROR_NONE ∧ resp1.param ≠ 0)
        ∨ (r = FINGER_ERROR_NACK ∧ resp1.error = FINGER_ERRCODE_FINGER_IS_NOT_PRESSED) then
      some (FINGER_ERROR_NOFINGER, resp1, s1)
    else if (r = FINGER_ERROR_NONE ∧ resp1.param ≠ 0)
        ∨ (r = FINGER_ERROR_NACK ∧ resp1.error = FINGER_ERRCODE_BAD_FINGER) then
      some (FINGER_ERROR_BADFINGER, resp1, s1)
    else
      some (r, resp1, s1)

/-- LED control, `finger_setLed`; `led` is a `char`. -/
def finger_setLed {σ : Type} (hal : FingerHal σ) (fuel : Nat) (led : Int)
    (resp : finger_resp_t) (s : σ) : Option (finger_err_t × finger_resp_t × σ) :=
  finger_sendCommandGetResponse hal fuel FINGER_CMD_CMOS_LED (if led ≠ 0 then 1 else 0) resp s

/-- Enrollment count, `finger_getEnrollCount`. -/
def finger_getEnrollCount {σ : Type} (hal : FingerHal σ) (fuel : Nat)
    (resp : finger_resp_t) (s : σ) : Option (finger_err_t × finger_resp_t × σ) :=
  finger_sendCommandGetResponse hal fuel FINGER_CMD_GET_ENROLL_COUNT 0 resp s

/-- Database membership of an identifier, `finger_checkEnrolled`. -/
def finger_checkEnrolled {σ : Type} (hal : FingerHal σ) (fuel : Nat) (id : Nat)
    (resp : finger_resp_t) (s : σ) : Option (finger_err_t × finger_resp_t × σ) :=
  match finger_sendCommandGetResponse hal fuel FINGER_CMD_CHECK_ENROLLED id resp s with
  | none => none
  | some (r, resp1, s1) =>
    if r = FINGER_ERROR_NONE
        ∨ (r = FINGER_ERROR_NACK ∧ (resp1.resp &&& 0x00FF) = 0x30)
        ∨ (r = FINGER_ERROR_NACK ∧ resp1.error = FINGER_ERRCODE_IS_ALREADY_USED) then
      some (FINGER_ERROR_NONE, resp1, s1)
    else if r = FINGER_ERROR_NACK ∧ resp1.error = FINGER_ERRCODE_IS_NOT_USED then
      some (FINGER_ERROR_NOFINGER, resp1, s1)
    else
      some (r, resp1, s1)

/-- Start of an enrollment, `finger_enrollStart`. -/
def finger_enrollStart {σ : Type} (hal : FingerHal σ) (fuel : Nat) (id : Nat)
    (resp : finger_resp_t) (s : σ) : Option (finger_err_t × finger_resp_t × σ) :=
  finger_sendCommandGetResponse hal fuel FINGER_CMD_ENROLL_START id resp s

/-- One of the three enrollment stages, `finger_enrollStage`. -/
def finger_enrollStage {σ : Type} (hal : FingerHal σ) (fuel : Nat) (stage : Nat)
    (resp : finger_resp_t) (s : σ) : Option (finger_err_t × finger_resp_t × σ) :=
  if stage ≥ 3 then
    some (FINGER_ERROR_INVALID, resp, s)
  else
    match stage with
    | 0 => finger_sendCommandGetResponse hal fuel FINGER_CMD_ENROLL_1 0 resp s
    | 1 => finger_sendCommandGetResponse hal fuel FINGER_CMD_ENROLL_2 0 resp s
    | 2 => finger_sendCommandGetResponse hal fuel FINGER_CMD_ENROLL_3 0 resp s
    | _ => some (FINGER_ERROR_INVALID, resp, s)

/-- Finger presence, `finger_isFingerPressed`. -/
def finger_isFingerPressed {σ : Type} (hal : FingerHal σ) (fuel : Nat)
    (resp : finger_resp_t) (s : σ) : Option (finger_err_t × finger_resp_t × σ) :=
  match finger_sendCommandGetResponse hal fuel FINGER_CMD_IS_PRESS_FINGER 0 resp s with
  | none => none
  | some (r, resp1, s1) =>
    if (r = FINGER_ERROR_NONE ∧ resp1.param ≠ 0)
        ∨ (r = FINGER_ERROR_NACK ∧ resp1.error = FINGER_ERRCODE_FINGER_IS_NOT_PRESSED) then
      some (FINGER_ERROR_NOFINGER, resp1, s1)
    else
      some (r, resp1, s1)

/-- Deletion of one identifier, `finger_deleteId`. -/
def finger_deleteId {σ : Type} (hal : FingerHal σ) (fuel : Nat) (id : Nat)
    (resp : finger_resp_t) (s : σ) : Option (finger_err_t × finger_resp_t × σ) :=
  finger_sendCommandGetResponse hal fuel FINGER_CMD_DELETE_ID id resp s

/-- Deletion of the whole database, `finger_deleteAll`. -/
def finger_deleteAll {σ : Type} (hal : FingerHal σ) (fuel : Nat)
    (resp : finger_resp_t) (s : σ) : Option (finger_err_t × finger_resp_t × σ) :=
  finger_sendCommandGetResponse hal fuel FINGER_CMD_DELETE_ALL 0 resp s

/-- One-to-one verification, `finger_verify_1_1`. -/
def finger_verify_1_1 {σ : Type} (hal : FingerHal σ) (fuel : Nat) (id : Nat)
    (resp : finger_resp_t) (s : σ) : Option (finger_err_t × finger_resp_t × σ) :=
  match finger_sendCommandGetResponse hal fuel FINGER_CMD_VERIFY_1_1 id resp s with
  | none => none
  | some (r, resp1, s1) => some (finger_xlateVerifyError r resp1, resp1, s1)

/-- One-to-many identification, `finger_identify_1_N`. -/
def finger_identify_1_N {σ : Type} (hal : FingerHal σ) (fuel : Nat)
    (resp : finger_resp_t) (s : σ) : Option (finger_err_t × finger_resp_t × σ) :=
  match finger_sendCommandGetResponse hal fuel FINGER_CMD_VERIFY_1_N 0 resp s with
  | none => none
  | some (r, resp1, s1) =>
    if r = FINGER_ERROR_NONE ∧ resp1.param ≥ 200 then
      some (FINGER_ERROR_WRONGFINGER, resp1, s1)
    else
      some (finger_xlateVerifyError r resp1, resp1, s1)

/-! ## Instruments for stating properties of the exchange -/

/-- A transport that behaves as `hal` and keeps, next to the state of `hal`,
the list of the transmissions requested so far: each entry is the first `len`
cells of the buffer handed to `fingerHal_sendPacket`. -/
def FingerHal.recording {σ : Type} (hal : FingerHal σ) : FingerHal (σ × List (List Nat)) where
  ulongBits := hal.ulongBits
  hbits := hal.hbits
  sendPacket := fun buff len s => (hal.sendPacket buff len s.1, s.2 ++ [buff.take len])
  millis := fun s => ((hal.millis s.1).1, ((hal.millis s.1).2, s.2))
  serAvail := fun s => ((hal.serAvail s.1).1, ((hal.serAvail s.1).2, s.2))
  serRead := fun s => ((hal.serRead s.1).1, ((hal.serRead s.1).2, s.2))

/-- A call of one of the thirteen public operations with its arguments. -/
inductive PublicCall where
  | Open (baud : Nat)
  | Close
  | CaptureFinger (hq : Int)
  | SetLed (led : Int)
  | GetEnrollCount
  | CheckEnrolled (id : Nat)
  | EnrollStart (id : Nat)
  | EnrollStage (stage : Nat)
  | IsFingerPressed
  | DeleteId (id : Nat)
  | DeleteAll
  | Verify_1_1 (id : Nat)
  | Identify_1_N
  deriving DecidableEq, Repr

/-- Execution of a public call by the function of `finger.c` it names. -/
def PublicCall.run {σ : Type} (hal : FingerHal σ) (fuel : Nat) :
    PublicCall → finger_resp_t → σ → Option (finger_err_t × finger_resp_t × σ)
  | .Open baud => finger_open hal fuel baud
  | .Close => finger_close hal fuel
  | .CaptureFinger hq => finger_captureFinger hal fuel hq
  | .SetLed led => finger_setLed hal fuel led
  | .GetEnrollCount => finger_getEnrollCount hal fuel
  | .CheckEnrolled id => finger_checkEnrolled hal fuel id
  | .EnrollStart id => finger_enrollStart hal fuel id
  | .EnrollStage stage => finger_enrollStage hal fuel stage
  | .IsFingerPressed => finger_isFingerPressed hal fuel
  | .DeleteId id => finger_deleteId hal fuel id
  | .DeleteAll => finger_deleteAll hal fuel
  | .Verify_1_1 id => finger_verify_1_1 hal fuel id
  | .Identify_1_N => finger_identify_1_N hal fuel

/-- The command table of the specification: the command code and parameter a
public call puts on the wire, `none` for a call that does not reach the
exchange (an enrollment stage outside 0, 1, 2). -/
def PublicCall.wireCommand : PublicCall → Option (Nat × Nat)
  | .Open baud => some (0x01, baud)
  | .Close => some (0x02, 0)
  | .CaptureFinger hq => some (0x60, if hq ≠ 0 then 1 else 0)
  | .SetLed led => some (0x12, if led ≠ 0 then 1 else 0)
  | .GetEnrollCount => some (0x20, 0)
  | .CheckEnrolled id => some (0x21, id)
  | .EnrollStart id => some (0x22, id)
  | .EnrollStage stage => if stage ≤ 2 then some (0x23 + stage, 0) else none
  | .IsFingerPressed => some (0x26, 0)
  | .DeleteId id => some (0x40, id)
  | .DeleteAll => some (0x41, 0)
  | .Verify_1_1 id => some (0x50, id)
  | .Identify_1_N => some (0x51, 0)

/-- State of a simulated transport: the clock value and the inbound bytes not
yet read. -/
structure SimState where
  now : Nat
  rx : List Int
  deriving DecidableEq, Repr

/-- A simulated transport on a 32-bit platform: an inbound byte queue and a
clock that advances by `tick` milliseconds at every reading. Transmissions
are dropped; `fingerHal_serRead` on an empty queue answers `-1`. -/
def simHal (tick : Nat) : FingerHal SimState where
  ulongBits := 32
  hbits := Nat.le_refl 32
  sendPacket := fun _ _ s => s
  millis := fun s => (s.now, { s with now := s.now + tick })
  serAvail := fun s => (min s.rx.length 255, s)
  serRead := fun s =>
    match s.rx with
    | [] => (-1, s)
    | b :: rest => (b, { s with rx := rest })

/-! ## Vocabulary of the frame claims -/

/-- A structurally valid inbound frame: sync bytes `55 AA`, device identifier
`01 00`, status high byte 0 and status low byte `0x30` (ACK) or `0x31` (NACK). -/
def StructurallyValid (buff : Buffer) : Prop :=
  buff.getD 0 0 = 0x55 ∧ buff.getD 1 0 = 0xAA ∧ buff.getD 2 0 = 0x01 ∧ buff.getD 3 0 = 0x00
    ∧ buff.getD 9 0 = 0 ∧ (buff.getD 8 0 = 0x30 ∨ buff.getD 8 0 = 0x31)

instance (buff : Buffer) : Decidable (StructurallyValid buff) := by
  unfold StructurallyValid
  exact inferInstance

/-- The checksum of the wire format: the sum of the bytes 0 to 9, modulo 65536. -/
def wireChecksum (buff : Buffer) : Nat :=
  (buff.take 10).sum % 65536

/-- A checksum-correct frame: the bytes 10 and 11 are the low and the high byte
of the checksum of the bytes 0 to 9. -/
def ChecksumCorrect (buff : Buffer) : Prop :=
  buff.getD 10 0 = wireChecksum buff % 256 ∧ buff.getD 11 0 = wireChecksum buff / 256

instance (buff : Buffer) : Decidable (ChecksumCorrect buff) := by
  unfold ChecksumCorrect
  exact inferInstance

/-- The device error codes of `finger.h` (`FINGER_ERRCODE_*`), in the order of
the enumeration. -/
def FINGER_ERRCODES : List Nat :=
  [FINGER_ERRCODE_NONE, FINGER_ERRCODE_TIMEOUT, FINGER_ERRCODE_INVALID_BAUDRATE,
   FINGER_ERRCODE_INVALID_POS, FINGER_ERRCODE_IS_NOT_USED, FINGER_ERRCODE_IS_ALREADY_USED,
   FINGER_ERRCODE_COMM_ERR, FINGER_ERRCODE_VERIFY_FAILED, FINGER_ERRCODE_IDENTIFY_FAILED,
   FINGER_ERRCODE_DB_IS_FULL, FINGER_ERRCODE_DB_IS_EMPTY, FINGER_ERRCODE_TURN_ERR,
   FINGER_ERRCODE_BAD_FINGER, FINGER_ERRCODE_ENROLL_FAILED, FINGER_ERRCODE_IS_NOT_SUPPORTED,
   FINGER_ERRCODE_DEV_ERR, FINGER_ERRCODE_CAPTURE_CANCELED, FINGER_ERRCODE_INVALID_PARAM,
   FINGER_ERRCODE_FINGER_IS_NOT_PRESSED]

/-! ## Further instruments: call counting, and a transport of clock and byte queue -/

/-- A transport that behaves as `hal` and keeps, next to the state of `hal`,
the number of calls of the four `fingerHal_*` functions made so far. -/
def FingerHal.counting {σ : Type} (hal : FingerHal σ) : FingerHal (σ × Nat) where
  ulongBits := hal.ulongBits
  hbits := hal.hbits
  sendPacket := fun buff len s => (hal.sendPacket buff len s.1, s.2 + 1)
  millis := fun s => ((hal.millis s.1).1, ((hal.millis s.1).2, s.2 + 1))
  serAvail := fun s => ((hal.serAvail s.1).1, ((hal.serAvail s.1).2, s.2 + 1))
  serRead := fun s => ((hal.serRead s.1).1, ((hal.serRead s.1).2, s.2 + 1))

/-- State of the transport of clock and byte queue: the number of clock
readings taken so far and the inbound bytes not yet read, in order. -/
structure WireState where
  reads : Nat
  rx : List Int
  deriving DecidableEq, Repr

/-- A transport with an explicit clock and an inbound byte queue, on a
platform whose `unsigned long` has `bits` bits. The reading number `k` of
`fingerHal_millis` answers `clock k`. `fingerHal_serAvail` answers the number
of queued bytes, at most 255 as the result is a `uint8_t`, when `ready k`
holds for the number `k` of clock readings taken so far, and 0 otherwise (the
bytes are still in flight). `fingerHal_serRead` takes the first queued byte
and answers `-1` on an empty queue. Transmissions are dropped. -/
def wireHal (bits : Nat) (hbits : 32 ≤ bits) (clock : Nat → Nat) (ready : Nat → Bool) :
    FingerHal WireState where
  ulongBits := bits
  hbits := hbits
  sendPacket := fun _ _ s => s
  millis := fun s => (clock s.reads, { s with reads := s.reads + 1 })
  serAvail := fun s => (if ready s.reads then min s.rx.length 255 else 0, s)
  serRead := fun s =>
    match s.rx with
    | [] => (-1, s)
    | b :: rest => (b, { s with rx := rest })

/-- The byte a `uint8_t` object holds after the `int16_t` result `v` of
`fingerHal_serRead` is stored into it. -/
def wireByte (v : Int) : Nat :=
  (v % 256).toNat

/-! # Properties of the driver -/

/-! ## Arithmetic of the byte masks -/

theorem and_shiftRight_distrib (a b k : Nat) : (a &&& b) >>> k = (a >>> k) &&& (b >>> k) := by
  apply Nat.eq_of_testBit_eq
  intro i
  simp [Nat.testBit_shiftRight, Nat.testBit_and]

theorem and_FF (x : Nat) : x &&& 0xFF = x % 256 := Nat.and_pow_two_sub_one_eq_mod x 8

theorem mask_byte0 (p : Nat) : ((p &&& 0xFF) >>> (8 * 0)) % 256 = p % 256 := by
  simp [and_FF]

theorem mask_byte1 (p : Nat) : ((p &&& 0xFF00) >>> (8 * 1)) % 256 = p / 2 ^ 8 % 256 := by
  have e : (0xFF00 : Nat) >>> (8 * 1) = 0xFF := by decide
  rw [and_shiftRight_distrib, e, and_FF, Nat.shiftRight_eq_div_pow]; simp

theorem mask_byte2 (p : Nat) : ((p &&& 0xFF0000) >>> (8 * 2)) % 256 = p / 2 ^ 16 % 256 := by
  have e : (0xFF0000 : Nat) >>> (8 * 2) = 0xFF := by decide
  rw [and_shiftRight_distrib, e, and_FF, Nat.shiftRight_eq_div_pow]; simp

theorem mask_byte3 (p : Nat) : ((p &&& 0xFF000000) >>> (8 * 3)) % 256 = p / 2 ^ 24 % 256 := by
  have e : (0xFF000000 : Nat) >>> (8 * 3) = 0xFF := by decide
  rw [and_shiftRight_distrib, e, and_FF, Nat.shiftRight_eq_div_pow]; simp

/-! ## Buffers cell by cell -/

theorem buffer_cells (buff : Buffer) (h : FINGER_PKT_LEN ≤ buff.length) :
    ∃ b0 b1 b2 b3 b4 b5 b6 b7 b8 b9 b10 b11 rest,
      buff = b0 :: b1 :: b2 :: b3 :: b4 :: b5 :: b6 :: b7 :: b8 :: b9 :: b10 :: b11 :: rest := by
  match buff, h with
  | b0 :: b1 :: b2 :: b3 :: b4 :: b5 :: b6 :: b7 :: b8 :: b9 :: b10 :: b11 :: rest, _ =>
    exact ⟨b0, b1, b2, b3, b4, b5, b6, b7, b8, b9, b10, b11, rest, rfl⟩

theorem calcChecksum_cells (b0 b1 b2 b3 b4 b5 b6 b7 b8 b9 : Nat) (rest : List Nat) :
    finger_calcChecksum (b0 :: b1 :: b2 :: b3 :: b4 :: b5 :: b6 :: b7 :: b8 :: b9 :: rest)
      = (b0 + b1 + b2 + b3 + b4 + b5 + b6 + b7 + b8 + b9) % 65536 := by
  have hr : List.range (FINGER_PKT_LEN - 2) = [0, 1, 2, 3, 4, 5, 6, 7, 8, 9] := by decide
  simp only [finger_calcChecksum, hr, List.foldl, List.getD_cons_zero, List.getD_cons_succ]
  omega

theorem makePacket_cells (b0 b1 b2 b3 b4 b5 b6 b7 b8 b9 b10 b11 : Nat) (rest : List Nat)
    (cmd param : Nat) :
    finger_makePacket (b0 :: b1 :: b2 :: b3 :: b4 :: b5 :: b6 :: b7 :: b8 :: b9 :: b10 :: b11 :: rest)
        cmd param
      = 0x55 :: 0xAA :: 0x01 :: 0x00 :: param % 256 :: param / 2 ^ 8 % 256 :: param / 2 ^ 16 % 256
          :: param / 2 ^ 24 % 256 :: cmd % 256 :: cmd / 2 ^ 8 % 256
          :: (0x55 + 0xAA + 0x01 + 0x00 + param % 256 + param / 2 ^ 8 % 256 + param / 2 ^ 16 % 256
                + param / 2 ^ 24 % 256 + cmd % 256 + cmd / 2 ^ 8 % 256) % 256
          :: (0x55 + 0xAA + 0x01 + 0x00 + param % 256 + param / 2 ^ 8 % 256 + param / 2 ^ 16 % 256
                + param / 2 ^ 24 % 256 + cmd % 256 + cmd / 2 ^ 8 % 256) / 256
          :: rest := by
  simp only [finger_makePacket, List.set_cons_zero, List.set_cons_succ, calcChecksum_cells,
    mask_byte0, mask_byte1, mask_byte2, mask_byte3, FINGER_CMD_START_CODE_1,
    FINGER_CMD_START_CODE_2, FINGER_CMD_DEVICE_ID_1, FINGER_CMD_DEVICE_ID_2]
  have h0 := Nat.mod_lt param (show 0 < 256 by decide)
  have h1 := Nat.mod_lt (param / 2 ^ 8) (show 0 < 256 by decide)
  have h2 := Nat.mod_lt (param / 2 ^ 16) (show 0 < 256 by decide)
  have h3 := Nat.mod_lt (param / 2 ^ 24) (show 0 < 256 by decide)
  have h4 := Nat.mod_lt cmd (show 0 < 256 by decide)
  have h5 := Nat.mod_lt (cmd / 2 ^ 8) (show 0 < 256 by decide)
  generalize param % 256 = p0 at *
  generalize param / 2 ^ 8 % 256 = p1 at *
  generalize param / 2 ^ 16 % 256 = p2 at *
  generalize param / 2 ^ 24 % 256 = p3 at *
  generalize cmd % 256 = c0 at *
  generalize cmd / 2 ^ 8 % 256 = c1 at *
  have e1 : (85 + 170 + 1 + 0 + p0 + p1 + p2 + p3 + c0 + c1) % 65536
      = 85 + 170 + 1 + 0 + p0 + p1 + p2 + p3 + c0 + c1 := by omega
  have e2 : (85 + 170 + 1 + 0 + p0 + p1 + p2 + p3 + c0 + c1) / 2 ^ 8 % 256
      = (85 + 170 + 1 + 0 + p0 + p1 + p2 + p3 + c0 + c1) / 256 := by omega
  rw [e1, e2]

/-! ## Packet construction -/

/-- C1: for a command code `C ≤ 255` and a 32-bit parameter `P`,
`finger_makePacket` writes the frame `55 AA 01 00`, `P` in little-endian
order, `C`, `0`, and the little-endian encoding of `finger_calcChecksum`,
which is the sum of the bytes 0 to 9 modulo 65536; every byte written is a
`uint8_t` value and the cells after the frame are left as they were. -/
theorem finger_makePacket_frame (buff : Buffer) (C P : Nat)
    (hlen : FINGER_PKT_LEN ≤ buff.length) (hC : C ≤ 255) (hP : P < 2 ^ 32) :
    (finger_makePacket buff C P).take 12 =
      [0x55, 0xAA, 0x01, 0x00, P % 256, P / 2 ^ 8 % 256, P / 2 ^ 16 % 256, P / 2 ^ 24, C, 0,
       finger_calcChecksum (finger_makePacket buff C P) % 256,
       finger_calcChecksum (finger_makePacket buff C P) / 256]
    ∧ finger_calcChecksum (finger_makePacket buff C P)
        = ((finger_makePacket buff C P).take 10).sum % 65536
    ∧ (∀ b ∈ (finger_makePacket buff C P).take 12, b < 256)
    ∧ (finger_makePacket buff C P).drop 12 = buff.drop 12 := by
  obtain ⟨b0, b1, b2, b3, b4, b5, b6, b7, b8, b9, b10, b11, rest, rfl⟩ := buffer_cells buff hlen
  have hC0 : C % 256 = C := by omega
  have hC1 : C / 2 ^ 8 % 256 = 0 := by omega
  have hP3 : P / 2 ^ 24 % 256 = P / 2 ^ 24 := by omega
  rw [makePacket_cells, calcChecksum_cells, hC0, hC1, hP3]
  have h0 := Nat.mod_lt P (show 0 < 256 by decide)
  have h1 := Nat.mod_lt (P / 2 ^ 8) (show 0 < 256 by decide)
  have h2 := Nat.mod_lt (P / 2 ^ 16) (show 0 < 256 by decide)
  have h3 : P / 2 ^ 24 < 256 := by omega
  generalize P % 256 = p0 at *
  generalize P / 2 ^ 8 % 256 = p1 at *
  generalize P / 2 ^ 16 % 256 = p2 at *
  generalize P / 2 ^ 24 = p3 at *
  have e : (85 + 170 + 1 + 0 + p0 + p1 + p2 + p3 + C + 0) % 65536
      = 85 + 170 + 1 + 0 + p0 + p1 + p2 + p3 + C + 0 := by omega
  refine ⟨?_, ?_, ?_, ?_⟩
  · simp only [List.take_succ_cons, List.take_zero, e]
  · simp only [List.take_succ_cons, List.take_zero, List.sum_cons, List.sum_nil, e]
    omega
  · intro b hb
    simp only [List.take_succ_cons, List.take_zero, List.mem_cons, List.mem_nil_iff,
      or_false] at hb
    rcases hb with h | h | h | h | h | h | h | h | h | h | h | h <;> omega
  · simp only [List.drop_succ_cons, List.drop_zero]

/-- Witness of C1 at `C = 0x01` (Open), `P = 0`, on a 12-cell buffer: the
frame is `55 AA 01 00 00 00 00 00 01 00 01 01`. -/
theorem finger_makePacket_frame_witness :
    finger_makePacket (List.replicate 12 0) 0x01 0
        = [0x55, 0xAA, 0x01, 0x00, 0x00, 0x00, 0x00, 0x00, 0x01, 0x00, 0x01, 0x01]
    ∧ ((finger_makePacket (List.replicate 12 0) 0x01 0).take 12 =
        [0x55, 0xAA, 0x01, 0x00, 0 % 256, 0 / 2 ^ 8 % 256, 0 / 2 ^ 16 % 256, 0 / 2 ^ 24, 0x01, 0,
         finger_calcChecksum (finger_makePacket (List.replicate 12 0) 0x01 0) % 256,
         finger_calcChecksum (finger_makePacket (List.replicate 12 0) 0x01 0) / 256]
      ∧ finger_calcChecksum (finger_makePacket (List.replicate 12 0) 0x01 0)
          = ((finger_makePacket (List.replicate 12 0) 0x01 0).take 10).sum % 65536
      ∧ (∀ b ∈ (finger_makePacket (List.replicate 12 0) 0x01 0).take 12, b < 256)
      ∧ (finger_makePacket (List.replicate 12 0) 0x01 0).drop 12
          = (List.replicate 12 0).drop 12) :=
  ⟨by decide,
   finger_makePacket_frame (List.replicate 12 0) 0x01 0 (by decide) (by decide) (by decide)⟩

/-! ## Response parsing -/

theorem packetBuffer_cells (buff : Buffer) (h : IsPacketBuffer buff) :
    ∃ b0 b1 b2 b3 b4 b5 b6 b7 b8 b9 b10 b11 rest,
      buff = b0 :: b1 :: b2 :: b3 :: b4 :: b5 :: b6 :: b7 :: b8 :: b9 :: b10 :: b11 :: rest
      ∧ b0 < 256 ∧ b1 < 256 ∧ b2 < 256 ∧ b3 < 256 ∧ b4 < 256 ∧ b5 < 256 ∧ b6 < 256
      ∧ b7 < 256 ∧ b8 < 256 ∧ b9 < 256 ∧ b10 < 256 ∧ b11 < 256 := by
  obtain ⟨b0, b1, b2, b3, b4, b5, b6, b7, b8, b9, b10, b11, rest, rfl⟩ := buffer_cells buff h.1
  have hb := h.2
  refine ⟨b0, b1, b2, b3, b4, b5, b6, b7, b8, b9, b10, b11, rest, rfl, ?_, ?_, ?_, ?_, ?_, ?_,
    ?_, ?_, ?_, ?_, ?_, ?_⟩ <;> exact hb _ (by simp)

theorem wireChecksum_cells (b0 b1 b2 b3 b4 b5 b6 b7 b8 b9 : Nat) (rest : List Nat) :
    wireChecksum (b0 :: b1 :: b2 :: b3 :: b4 :: b5 :: b6 :: b7 :: b8 :: b9 :: rest)
      = (b0 + b1 + b2 + b3 + b4 + b5 + b6 + b7 + b8 + b9) % 65536 := by
  simp only [wireChecksum, List.take_succ_cons, List.take_zero, List.sum_cons, List.sum_nil]
  congr 1
  omega

/-- The code's checksum loop computes the checksum of the wire format. -/
theorem finger_calcChecksum_eq_wireChecksum (buff : Buffer) (h : FINGER_PKT_LEN ≤ buff.length) :
    finger_calcChecksum buff = wireChecksum buff := by
  obtain ⟨b0, b1, b2, b3, b4, b5, b6, b7, b8, b9, b10, b11, rest, rfl⟩ := buffer_cells buff h
  rw [calcChecksum_cells, wireChecksum_cells]

/-- The checksum comparison of `finger_parseResponse` (line 282) fails exactly
on the frames that are not checksum-correct. -/
theorem checksum_test_iff (buff : Buffer) (h : FINGER_PKT_LEN ≤ buff.length) :
    (buff.getD 10 0 ≠ ((finger_calcChecksum buff &&& 0x00FF) >>> (8 * 0)) % 256
        ∨ buff.getD 11 0 ≠ ((finger_calcChecksum buff &&& 0xFF00) >>> (8 * 1)) % 256)
      ↔ ¬ ChecksumCorrect buff := by
  have hlt : wireChecksum buff < 65536 := Nat.mod_lt _ (by decide)
  have e : wireChecksum buff / 2 ^ 8 % 256 = wireChecksum buff / 256 := by omega
  rw [finger_calcChecksum_eq_wireChecksum buff h, mask_byte0, mask_byte1, e]
  unfold ChecksumCorrect
  tauto

theorem finger_parseResponse_of_malformed (buff : Buffer) (resp : finger_resp_t)
    (hbad : buff.getD 0 0 ≠ 0x55 ∨ buff.getD 1 0 ≠ 0xAA ∨ buff.getD 2 0 ≠ 0x01
      ∨ buff.getD 3 0 ≠ 0x00 ∨ buff.getD 9 0 ≠ 0
      ∨ (buff.getD 8 0 ≠ 0x30 ∧ buff.getD 8 0 ≠ 0x31)) :
    finger_parseResponse buff resp = (FINGER_ERROR_PARSING, resp) := by
  unfold finger_parseResponse
  simp only [FINGER_CMD_START_CODE_1, FINGER_CMD_START_CODE_2, FINGER_CMD_DEVICE_ID_1,
    FINGER_CMD_DEVICE_ID_2]
  by_cases hs : buff.getD 0 0 ≠ 0x55 ∨ buff.getD 1 0 ≠ 0xAA ∨ buff.getD 2 0 ≠ 0x01
      ∨ buff.getD 3 0 ≠ 0x00
  · rw [if_pos hs]
  · rw [if_neg hs]
    by_cases h9 : buff.getD 9 0 ≠ 0
    · rw [if_pos h9]
    · rw [if_neg h9]
      have h8 : buff.getD 8 0 ≠ 0x30 ∧ buff.getD 8 0 ≠ 0x31 := by tauto
      rw [if_pos h8]

/-- C3: a 12-byte buffer with a wrong sync byte, a wrong device identifier
byte, a nonzero byte 9, or a byte 8 that is neither `0x30` nor `0x31` is
answered with `Parsing`, whatever its parameter and checksum bytes are. -/
theorem finger_parseResponse_malformed (buff : Buffer) (resp : finger_resp_t)
    (_hbuf : IsPacketBuffer buff)
    (hbad : buff.getD 0 0 ≠ 0x55 ∨ buff.getD 1 0 ≠ 0xAA ∨ buff.getD 2 0 ≠ 0x01
      ∨ buff.getD 3 0 ≠ 0x00 ∨ buff.getD 9 0 ≠ 0
      ∨ (buff.getD 8 0 ≠ 0x30 ∧ buff.getD 8 0 ≠ 0x31)) :
    (finger_parseResponse buff resp).1 = FINGER_ERROR_PARSING := by
  rw [finger_parseResponse_of_malformed buff resp hbad]

/-- Witness of C3: the frame `54 AA 01 00 00 00 00 00 30 00 2F 01`, correct
but for its first byte. -/
theorem finger_parseResponse_malformed_witness :
    IsPacketBuffer [0x54, 0xAA, 0x01, 0x00, 0, 0, 0, 0, 0x30, 0, 0x2F, 0x01]
    ∧ (finger_parseResponse [0x54, 0xAA, 0x01, 0x00, 0, 0, 0, 0, 0x30, 0, 0x2F, 0x01]
        ⟨0, 0, 0⟩).1 = FINGER_ERROR_PARSING :=
  ⟨by decide,
   finger_parseResponse_malformed [0x54, 0xAA, 0x01, 0x00, 0, 0, 0, 0, 0x30, 0, 0x2F, 0x01]
     ⟨0, 0, 0⟩ (by decide) (by decide)⟩

/-- The code of `finger_parseResponse` on a structurally valid frame, after
the three structure tests. -/
theorem finger_parseResponse_valid (buff : Buffer) (resp : finger_resp_t)
    (hlen : FINGER_PKT_LEN ≤ buff.length) (hv : StructurallyValid buff) :
    finger_parseResponse buff resp =
      if ¬ ChecksumCorrect buff then (FINGER_ERROR_CHECKSUM, resp)
      else if buff.getD 8 0 = 0x31 ∧ buff.getD 5 0 ≠ 0 then
        if buff.getD 6 0 = 0 then
          (FINGER_ERROR_NONE,
            { resp with
              param := (buff.getD 4 0 + 2 ^ 8 * buff.getD 5 0 + 2 ^ 16 * buff.getD 6 0
                          + 2 ^ 24 * buff.getD 7 0) % 2 ^ 32
              resp := buff.getD 8 0 % 2 ^ 16 })
        else if buff.getD 6 0 > 0x12 then
          (FINGER_ERROR_PARSING,
            { resp with
              param := (buff.getD 4 0 + 2 ^ 8 * buff.getD 5 0 + 2 ^ 16 * buff.getD 6 0
                          + 2 ^ 24 * buff.getD 7 0) % 2 ^ 32
              resp := buff.getD 8 0 % 2 ^ 16 })
        else
          (FINGER_ERROR_NACK,
            { param := (buff.getD 4 0 + 2 ^ 8 * buff.getD 5 0 + 2 ^ 16 * buff.getD 6 0
                          + 2 ^ 24 * buff.getD 7 0) % 2 ^ 32
              resp := buff.getD 8 0 % 2 ^ 16
              error := (buff.getD 4 0 + 2 ^ 8 * buff.getD 5 0 + 2 ^ 16 * buff.getD 6 0
                          + 2 ^ 24 * buff.getD 7 0) % 2 ^ 32 % 2 ^ 16 })
      else
        (FINGER_ERROR_NONE,
          { resp with
            param := (buff.getD 4 0 + 2 ^ 8 * buff.getD 5 0 + 2 ^ 16 * buff.getD 6 0
                        + 2 ^ 24 * buff.getD 7 0) % 2 ^ 32
            resp := buff.getD 8 0 % 2 ^ 16 }) := by
  obtain ⟨h0, h1, h2, h3, h9, h8⟩ := hv
  have hs : ¬ (buff.getD 0 0 ≠ FINGER_CMD_START_CODE_1 ∨ buff.getD 1 0 ≠ FINGER_CMD_START_CODE_2
      ∨ buff.getD 2 0 ≠ FINGER_CMD_DEVICE_ID_1 ∨ buff.getD 3 0 ≠ FINGER_CMD_DEVICE_ID_2) := by
    simp only [FINGER_CMD_START_CODE_1, FINGER_CMD_START_CODE_2, FINGER_CMD_DEVICE_ID_1,
      FINGER_CMD_DEVICE_ID_2]
    omega
  have h9n : ¬ buff.getD 9 0 ≠ 0 := by omega
  have h8n : ¬ (buff.getD 8 0 ≠ 0x30 ∧ buff.getD 8 0 ≠ 0x31) := by tauto
  have hp : ((((buff.getD 4 0 <<< (8 * 0)) % 2 ^ 32 + (buff.getD 5 0 <<< (8 * 1)) % 2 ^ 32) % 2 ^ 32
        + (buff.getD 6 0 <<< (8 * 2)) % 2 ^ 32) % 2 ^ 32
        + (buff.getD 7 0 <<< (8 * 3)) % 2 ^ 32) % 2 ^ 32
      = (buff.getD 4 0 + 2 ^ 8 * buff.getD 5 0 + 2 ^ 16 * buff.getD 6 0
          + 2 ^ 24 * buff.getD 7 0) % 2 ^ 32 := by
    simp only [Nat.shiftLeft_eq]
    omega
  have hr : ((buff.getD 8 0 <<< (8 * 0)) % 2 ^ 16 + (buff.getD 9 0 <<< (8 * 1))) % 2 ^ 16
      = buff.getD 8 0 % 2 ^ 16 := by
    simp only [Nat.shiftLeft_eq, h9]
    omega
  unfold finger_parseResponse
  rw [if_neg hs, if_neg h9n, if_neg h8n]
  simp only [checksum_test_iff buff hlen, hp, hr]

/-- C4: a structurally valid frame (status byte `0x30` or `0x31`, any
parameter bytes) whose bytes 10 and 11 are not the little-endian checksum of
the bytes 0 to 9 is answered with `Checksum`. -/
theorem finger_parseResponse_bad_checksum (buff : Buffer) (resp : finger_resp_t)
    (hbuf : IsPacketBuffer buff) (hv : StructurallyValid buff)
    (hcs : buff.getD 10 0 ≠ wireChecksum buff % 256 ∨ buff.getD 11 0 ≠ wireChecksum buff / 256) :
    (finger_parseResponse buff resp).1 = FINGER_ERROR_CHECKSUM := by
  have hc : ¬ ChecksumCorrect buff := by
    unfold ChecksumCorrect
    tauto
  rw [finger_parseResponse_valid buff resp hbuf.1 hv, if_pos hc]

/-- Witness of C4: the ACK and the NACK frame with checksum bytes `00 00`. -/
theorem finger_parseResponse_bad_checksum_witness :
    (finger_parseResponse [0x55, 0xAA, 0x01, 0x00, 1, 2, 3, 4, 0x30, 0, 0, 0] ⟨0, 0, 0⟩).1
        = FINGER_ERROR_CHECKSUM
    ∧ (finger_parseResponse [0x55, 0xAA, 0x01, 0x00, 1, 2, 3, 4, 0x31, 0, 0, 0] ⟨0, 0, 0⟩).1
        = FINGER_ERROR_CHECKSUM :=
  ⟨finger_parseResponse_bad_checksum [0x55, 0xAA, 0x01, 0x00, 1, 2, 3, 4, 0x30, 0, 0, 0]
      ⟨0, 0, 0⟩ (by decide) (by decide) (by decide),
   finger_parseResponse_bad_checksum [0x55, 0xAA, 0x01, 0x00, 1, 2, 3, 4, 0x31, 0, 0, 0]
      ⟨0, 0, 0⟩ (by decide) (by decide) (by decide)⟩

/-- C5: a structurally valid, checksum-correct frame with status byte `0x30`
is answered with `None`, and the record then holds the little-endian
parameter of the bytes 4 to 7 and the status word `0x0030`. -/
theorem finger_parseResponse_ack (buff : Buffer) (resp : finger_resp_t)
    (hbuf : IsPacketBuffer buff) (hv : StructurallyValid buff) (hc : ChecksumCorrect buff)
    (h8 : buff.getD 8 0 = 0x30) :
    (finger_parseResponse buff resp).1 = FINGER_ERROR_NONE
    ∧ (finger_parseResponse buff resp).2.param
        = buff.getD 4 0 + 2 ^ 8 * buff.getD 5 0 + 2 ^ 16 * buff.getD 6 0 + 2 ^ 24 * buff.getD 7 0
    ∧ (finger_parseResponse buff resp).2.resp = 0x0030 := by
  have hn : ¬ (buff.getD 8 0 = 0x31 ∧ buff.getD 5 0 ≠ 0) := by omega
  rw [finger_parseResponse_valid buff resp hbuf.1 hv, if_neg (not_not.mpr hc), if_neg hn]
  obtain ⟨b0, b1, b2, b3, b4, b5, b6, b7, b8, b9, b10, b11, rest, rfl, -, -, -, -, h4, h5, h6,
    h7, -, -, -, -⟩ := packetBuffer_cells buff hbuf
  simp only [List.getD_cons_zero, List.getD_cons_succ] at h8 ⊢
  refine ⟨trivial, ?_, ?_⟩ <;> omega

/-- Witness of C5: the ACK frame with parameter bytes `01 02 03 04`. -/
theorem finger_parseResponse_ack_witness :
    (finger_parseResponse [0x55, 0xAA, 0x01, 0x00, 1, 2, 3, 4, 0x30, 0, 0x3A, 0x01] ⟨0, 0, 0⟩).1
        = FINGER_ERROR_NONE
    ∧ (finger_parseResponse [0x55, 0xAA, 0x01, 0x00, 1, 2, 3, 4, 0x30, 0, 0x3A, 0x01]
        ⟨0, 0, 0⟩).2.param
        = [0x55, 0xAA, 0x01, 0x00, 1, 2, 3, 4, 0x30, 0, 0x3A, 0x01].getD 4 0
          + 2 ^ 8 * [0x55, 0xAA, 0x01, 0x00, 1, 2, 3, 4, 0x30, 0, 0x3A, 0x01].getD 5 0
          + 2 ^ 16 * [0x55, 0xAA, 0x01, 0x00, 1, 2, 3, 4, 0x30, 0, 0x3A, 0x01].getD 6 0
          + 2 ^ 24 * [0x55, 0xAA, 0x01, 0x00, 1, 2, 3, 4, 0x30, 0, 0x3A, 0x01].getD 7 0
    ∧ (finger_parseResponse [0x55, 0xAA, 0x01, 0x00, 1, 2, 3, 4, 0x30, 0, 0x3A, 0x01]
        ⟨0, 0, 0⟩).2.resp = 0x0030 :=
  finger_parseResponse_ack [0x55, 0xAA, 0x01, 0x00, 1, 2, 3, 4, 0x30, 0, 0x3A, 0x01] ⟨0, 0, 0⟩
    (by decide) (by decide) (by decide) (by decide)

/-- C6: on a structurally valid, checksum-correct frame with status byte
`0x31` the answer is `None` when byte 5 is zero, `None` when byte 5 is
nonzero and byte 6 is zero, `Parsing` when byte 5 is nonzero and byte 6
exceeds `0x12`, and `Nack` when byte 5 is nonzero and byte 6 lies in
`1 .. 0x12`; and `Nack` is the answer on exactly the frames of the last kind. -/
theorem finger_parseResponse_nack (buff : Buffer) (resp : finger_resp_t)
    (hbuf : IsPacketBuffer buff) :
    (StructurallyValid buff → ChecksumCorrect buff → buff.getD 8 0 = 0x31 →
      (buff.getD 5 0 = 0 → (finger_parseResponse buff resp).1 = FINGER_ERROR_NONE)
      ∧ (buff.getD 5 0 ≠ 0 → buff.getD 6 0 = 0 →
          (finger_parseResponse buff resp).1 = FINGER_ERROR_NONE)
      ∧ (buff.getD 5 0 ≠ 0 → buff.getD 6 0 > 0x12 →
          (finger_parseResponse buff resp).1 = FINGER_ERROR_PARSING)
      ∧ (buff.getD 5 0 ≠ 0 → 1 ≤ buff.getD 6 0 → buff.getD 6 0 ≤ 0x12 →
          (finger_parseResponse buff resp).1 = FINGER_ERROR_NACK))
    ∧ ((finger_parseResponse buff resp).1 = FINGER_ERROR_NACK ↔
        StructurallyValid buff ∧ ChecksumCorrect buff ∧ buff.getD 8 0 = 0x31
          ∧ buff.getD 5 0 ≠ 0 ∧ 1 ≤ buff.getD 6 0 ∧ buff.getD 6 0 ≤ 0x12) := by
  have key : ∀ (_ : StructurallyValid buff) (_ : ChecksumCorrect buff)
      (_ : buff.getD 8 0 = 0x31),
      (buff.getD 5 0 = 0 → (finger_parseResponse buff resp).1 = FINGER_ERROR_NONE)
      ∧ (buff.getD 5 0 ≠ 0 → buff.getD 6 0 = 0 →
          (finger_parseResponse buff resp).1 = FINGER_ERROR_NONE)
      ∧ (buff.getD 5 0 ≠ 0 → buff.getD 6 0 > 0x12 →
          (finger_parseResponse buff resp).1 = FINGER_ERROR_PARSING)
      ∧ (buff.getD 5 0 ≠ 0 → 1 ≤ buff.getD 6 0 → buff.getD 6 0 ≤ 0x12 →
          (finger_parseResponse buff resp).1 = FINGER_ERROR_NACK) := by
    intro hv hc h8
    rw [finger_parseResponse_valid buff resp hbuf.1 hv, if_neg (not_not.mpr hc)]
    refine ⟨?_, ?_, ?_, ?_⟩
    · intro h5
      have hn : ¬ (buff.getD 8 0 = 0x31 ∧ buff.getD 5 0 ≠ 0) := by omega
      rw [if_neg hn]
    · intro h5 h6
      rw [if_pos ⟨h8, h5⟩, if_pos h6]
    · intro h5 h6
      have h6n : ¬ buff.getD 6 0 = 0 := by omega
      rw [if_pos ⟨h8, h5⟩, if_neg h6n, if_pos h6]
    · intro h5 h6 h6b
      have h6n : ¬ buff.getD 6 0 = 0 := by omega
      have h6m : ¬ buff.getD 6 0 > 0x12 := by omega
      rw [if_pos ⟨h8, h5⟩, if_neg h6n, if_neg h6m]
  refine ⟨key, ?_, ?_⟩
  · intro hn
    by_cases hv : StructurallyValid buff
    · rw [finger_parseResponse_valid buff resp hbuf.1 hv] at hn
      by_cases hc : ChecksumCorrect buff
      · rw [if_neg (not_not.mpr hc)] at hn
        by_cases h85 : buff.getD 8 0 = 0x31 ∧ buff.getD 5 0 ≠ 0
        · rw [if_pos h85] at hn
          by_cases h6 : buff.getD 6 0 = 0
          · rw [if_pos h6] at hn
            cases hn
          · rw [if_neg h6] at hn
            by_cases h6m : buff.getD 6 0 > 0x12
            · rw [if_pos h6m] at hn
              cases hn
            · exact ⟨hv, hc, h85.1, h85.2, by omega, by omega⟩
        · rw [if_neg h85] at hn
          cases hn
      · rw [if_pos hc] at hn
        cases hn
    · have hbad : buff.getD 0 0 ≠ 0x55 ∨ buff.getD 1 0 ≠ 0xAA ∨ buff.getD 2 0 ≠ 0x01
          ∨ buff.getD 3 0 ≠ 0x00 ∨ buff.getD 9 0 ≠ 0
          ∨ (buff.getD 8 0 ≠ 0x30 ∧ buff.getD 8 0 ≠ 0x31) := by
        unfold StructurallyValid at hv
        omega
      rw [finger_parseResponse_of_malformed buff resp hbad] at hn
      cases hn
  · rintro ⟨hv, hc, h8, h5, h6, h6b⟩
    exact (key hv hc h8).2.2.2 h5 h6 h6b

/-- Witness of C6: the NACK frame `55 AA 01 00 12 10 01 00 31 00 54 01`, with
byte 5 nonzero and byte 6 equal to 1, is answered with `Nack`. -/
theorem finger_parseResponse_nack_witness :
    (finger_parseResponse
        [0x55, 0xAA, 0x01, 0x00, 0x12, 0x10, 0x01, 0x00, 0x31, 0x00, 0x54, 0x01] ⟨0, 0, 0⟩).1
      = FINGER_ERROR_NACK :=
  ((finger_parseResponse_nack
      [0x55, 0xAA, 0x01, 0x00, 0x12, 0x10, 0x01, 0x00, 0x31, 0x00, 0x54, 0x01] ⟨0, 0, 0⟩
      (by decide)).1 (by decide) (by decide) (by decide)).2.2.2 (by decide) (by decide)
    (by decide)

/-! ## The exchange over a recording transport -/

theorem finger_elapsed_recording {σ : Type} (hal : FingerHal σ) (t sw : Nat) :
    finger_elapsed hal.recording t sw = finger_elapsed hal t sw := rfl

theorem recording_millis {σ : Type} (hal : FingerHal σ) (s : σ) (log : List (List Nat)) :
    hal.recording.millis (s, log) = ((hal.millis s).1, ((hal.millis s).2, log)) := rfl

theorem recording_serAvail {σ : Type} (hal : FingerHal σ) (s : σ) (log : List (List Nat)) :
    hal.recording.serAvail (s, log) = ((hal.serAvail s).1, ((hal.serAvail s).2, log)) := rfl

theorem recording_serRead {σ : Type} (hal : FingerHal σ) (s : σ) (log : List (List Nat)) :
    hal.recording.serRead (s, log) = ((hal.serRead s).1, ((hal.serRead s).2, log)) := rfl

theorem finger_getResponse_sync_recording {σ : Type} (hal : FingerHal σ) (sw : Nat)
    (log : List (List Nat)) (fuel : Nat) :
    ∀ (first : Nat) (s : σ),
      finger_getResponse_sync hal.recording sw fuel first (s, log)
        = (finger_getResponse_sync hal sw fuel first s).map
            (fun x => (x.1, x.2.1, (x.2.2, log))) := by
  induction fuel with
  | zero => intro first s; rfl
  | succ n ih =>
    intro first s
    simp only [finger_getResponse_sync, finger_elapsed_recording, recording_millis,
      recording_serAvail, recording_serRead]
    split_ifs <;> first | rfl | exact ih _ _

theorem finger_getResponse_rest_recording {σ : Type} (hal : FingerHal σ) (sw : Nat)
    (log : List (List Nat)) (fuel : Nat) :
    ∀ (i : Nat) (buff : Buffer) (s : σ),
      finger_getResponse_rest hal.recording sw fuel i buff (s, log)
        = (finger_getResponse_rest hal sw fuel i buff s).map
            (fun x => (x.1, x.2.1, (x.2.2, log))) := by
  induction fuel with
  | zero => intro i buff s; rfl
  | succ n ih =>
    intro i buff s
    simp only [finger_getResponse_rest, finger_elapsed_recording, recording_millis,
      recording_serAvail, recording_serRead]
    split_ifs <;> first | rfl | exact ih _ _ _

theorem finger_getResponse_recording {σ : Type} (hal : FingerHal σ) (fuel : Nat)
    (buff : Buffer) (s : σ) (log : List (List Nat)) :
    finger_getResponse hal.recording fuel buff (s, log)
      = (finger_getResponse hal fuel buff s).map (fun x => (x.1, x.2.1, (x.2.2, log))) := by
  unfold finger_getResponse
  have e1 : (hal.recording.millis (s, log)).1 = (hal.millis s).1 := rfl
  have e2 : (hal.recording.millis (s, log)).2 = ((hal.millis s).2, log) := rfl
  have e3 : hal.recording.ulongBits = hal.ulongBits := rfl
  simp only [e1, e2, e3, finger_getResponse_sync_recording]
  cases h1 : finger_getResponse_sync hal ((hal.millis s).1 % 2 ^ hal.ulongBits) fuel 0
      (hal.millis s).2 with
  | none => rfl
  | some x =>
    obtain ⟨hasSync, first, s1⟩ := x
    simp only [Option.map_some']
    split_ifs
    · rfl
    · simp only [finger_getResponse_rest_recording]
      cases h2 : finger_getResponse_rest hal ((hal.millis s).1 % 2 ^ hal.ulongBits) fuel 1
          (buff.set 0 first) s1 with
      | none => rfl
      | some y => rfl

/-- The exchange over the recording transport is the exchange over the
transport itself, with one entry added to the record: the first 12 cells of
the frame built by `finger_makePacket`. -/
theorem finger_sendCommandGetResponse_recording {σ : Type} (hal : FingerHal σ) (fuel : Nat)
    (cmd param : Nat) (resp : finger_resp_t) (s : σ) (log : List (List Nat)) :
    finger_sendCommandGetResponse hal.recording fuel cmd param resp (s, log)
      = (finger_sendCommandGetResponse hal fuel cmd param resp s).map
          (fun x => (x.1, x.2.1, (x.2.2,
            log ++ [(finger_makePacket (List.replicate FINGER_BUFF_LEN 0) cmd param).take
              FINGER_PKT_LEN]))) := by
  unfold finger_sendCommandGetResponse
  have e : hal.recording.sendPacket
      (finger_makePacket (List.replicate FINGER_BUFF_LEN 0) cmd param) FINGER_PKT_LEN (s, log)
      = (hal.sendPacket (finger_makePacket (List.replicate FINGER_BUFF_LEN 0) cmd param)
          FINGER_PKT_LEN s,
         log ++ [(finger_makePacket (List.replicate FINGER_BUFF_LEN 0) cmd param).take
              FINGER_PKT_LEN]) := rfl
  simp only [e, finger_getResponse_recording]
  cases h : finger_getResponse hal fuel
      (finger_makePacket (List.replicate FINGER_BUFF_LEN 0) cmd param)
      (hal.sendPacket (finger_makePacket (List.replicate FINGER_BUFF_LEN 0) cmd param)
          FINGER_PKT_LEN s) with
  | none => rfl
  | some x =>
    obtain ⟨ret, buff1, s2⟩ := x
    simp only [Option.map_some']
    split_ifs <;> rfl

theorem finger_sendCommandGetResponse_log {σ : Type} (hal : FingerHal σ) (fuel : Nat)
    (cmd param : Nat) (resp resp1 : finger_resp_t) (s s1 : σ) (log log1 : List (List Nat))
    (r : finger_err_t)
    (h : finger_sendCommandGetResponse hal.recording fuel cmd param resp (s, log)
      = some (r, resp1, (s1, log1))) :
    log1 = log ++ [(finger_makePacket (List.replicate FINGER_BUFF_LEN 0) cmd param).take
              FINGER_PKT_LEN] := by
  rw [finger_sendCommandGetResponse_recording] at h
  cases hx : finger_sendCommandGetResponse hal fuel cmd param resp s with
  | none => rw [hx] at h; cases h
  | some x =>
    rw [hx] at h
    simp only [Option.map_some', Option.some.injEq, Prod.mk.injEq] at h
    exact h.2.2.2.symm

/-- The first 12 cells written by `finger_makePacket` do not depend on the
buffer written into. -/
theorem finger_makePacket_take (buff buff1 : Buffer) (cmd param : Nat)
    (h : FINGER_PKT_LEN ≤ buff.length) (h1 : FINGER_PKT_LEN ≤ buff1.length) :
    (finger_makePacket buff cmd param).take FINGER_PKT_LEN
      = (finger_makePacket buff1 cmd param).take FINGER_PKT_LEN := by
  obtain ⟨b0, b1, b2, b3, b4, b5, b6, b7, b8, b9, b10, b11, rest, rfl⟩ := buffer_cells buff h
  obtain ⟨c0, c1, c2, c3, c4, c5, c6, c7, c8, c9, c10, c11, rest1, rfl⟩ := buffer_cells buff1 h1
  rw [makePacket_cells, makePacket_cells]
  simp only [FINGER_PKT_LEN, List.take_succ_cons, List.take_zero]

theorem finger_makePacket_length (buff : Buffer) (cmd param : Nat) :
    (finger_makePacket buff cmd param).length = buff.length := by
  simp only [finger_makePacket, List.length_set]

/-! ## Public operations and the raw exchange -/

theorem finger_captureFinger_raw {σ : Type} (hal : FingerHal σ) (fuel : Nat) (hq : Int)
    (resp resp1 : finger_resp_t) (s s1 : σ) (r : finger_err_t)
    (h : finger_captureFinger hal fuel hq resp s = some (r, resp1, s1)) :
    ∃ r0, finger_sendCommandGetResponse hal fuel FINGER_CMD_CAPTURE_FINGER
      (if hq ≠ 0 then 1 else 0) resp s = some (r0, resp1, s1) := by
  unfold finger_captureFinger at h
  cases hx : finger_sendCommandGetResponse hal fuel FINGER_CMD_CAPTURE_FINGER
      (if hq ≠ 0 then 1 else 0) resp s with
  | none => rw [hx] at h; cases h
  | some x =>
    obtain ⟨r0, resp0, s0⟩ := x
    rw [hx] at h
    simp only at h
    split_ifs at h <;>
      (simp only [Option.some.injEq, Prod.mk.injEq] at h
       obtain ⟨-, rfl, rfl⟩ := h
       exact ⟨r0, rfl⟩)

theorem finger_checkEnrolled_raw {σ : Type} (hal : FingerHal σ) (fuel : Nat) (id : Nat)
    (resp resp1 : finger_resp_t) (s s1 : σ) (r : finger_err_t)
    (h : finger_checkEnrolled hal fuel id resp s = some (r, resp1, s1)) :
    ∃ r0, finger_sendCommandGetResponse hal fuel FINGER_CMD_CHECK_ENROLLED id resp s
      = some (r0, resp1, s1) := by
  unfold finger_checkEnrolled at h
  cases hx : finger_sendCommandGetResponse hal fuel FINGER_CMD_CHECK_ENROLLED id resp s with
  | none => rw [hx] at h; cases h
  | some x =>
    obtain ⟨r0, resp0, s0⟩ := x
    rw [hx] at h
    simp only at h
    split_ifs at h <;>
      (simp only [Option.some.injEq, Prod.mk.injEq] at h
       obtain ⟨-, rfl, rfl⟩ := h
       exact ⟨r0, rfl⟩)

theorem finger_isFingerPressed_raw {σ : Type} (hal : FingerHal σ) (fuel : Nat)
    (resp resp1 : finger_resp_t) (s s1 : σ) (r : finger_err_t)
    (h : finger_isFingerPressed hal fuel resp s = some (r, resp1, s1)) :
    ∃ r0, finger_sendCommandGetResponse hal fuel FINGER_CMD_IS_PRESS_FINGER 0 resp s
      = some (r0, resp1, s1) := by
  unfold finger_isFingerPressed at h
  cases hx : finger_sendCommandGetResponse hal fuel FINGER_CMD_IS_PRESS_FINGER 0 resp s with
  | none => rw [hx] at h; cases h
  | some x =>
    obtain ⟨r0, resp0, s0⟩ := x
    rw [hx] at h
    simp only at h
    split_ifs at h <;>
      (simp only [Option.some.injEq, Prod.mk.injEq] at h
       obtain ⟨-, rfl, rfl⟩ := h
       exact ⟨r0, rfl⟩)

theorem finger_verify_1_1_raw {σ : Type} (hal : FingerHal σ) (fuel : Nat) (id : Nat)
    (resp resp1 : finger_resp_t) (s s1 : σ) (r : finger_err_t)
    (h : finger_verify_1_1 hal fuel id resp s = some (r, resp1, s1)) :
    ∃ r0, finger_sendCommandGetResponse hal fuel FINGER_CMD_VERIFY_1_1 id resp s
      = some (r0, resp1, s1) := by
  unfold finger_verify_1_1 at h
  cases hx : finger_sendCommandGetResponse hal fuel FINGER_CMD_VERIFY_1_1 id resp s with
  | none => rw [hx] at h; cases h
  | some x =>
    obtain ⟨r0, resp0, s0⟩ := x
    rw [hx] at h
    simp only [Option.some.injEq, Prod.mk.injEq] at h
    obtain ⟨-, rfl, rfl⟩ := h
    exact ⟨r0, rfl⟩

theorem finger_identify_1_N_raw {σ : Type} (hal : FingerHal σ) (fuel : Nat)
    (resp resp1 : finger_resp_t) (s s1 : σ) (r : finger_err_t)
    (h : finger_identify_1_N hal fuel resp s = some (r, resp1, s1)) :
    ∃ r0, finger_sendCommandGetResponse hal fuel FINGER_CMD_VERIFY_1_N 0 resp s
      = some (r0, resp1, s1) := by
  unfold finger_identify_1_N at h
  cases hx : finger_sendCommandGetResponse hal fuel FINGER_CMD_VERIFY_1_N 0 resp s with
  | none => rw [hx] at h; cases h
  | some x =>
    obtain ⟨r0, resp0, s0⟩ := x
    rw [hx] at h
    simp only at h
    split_ifs at h <;>
      (simp only [Option.some.injEq, Prod.mk.injEq] at h
       obtain ⟨-, rfl, rfl⟩ := h
       exact ⟨r0, rfl⟩)

/-- Whenever a public call of the command table returns over a recording
transport, the record has grown by one entry: the 12 bytes `finger_makePacket`
builds for the command code and parameter of the table. -/
theorem public_call_log_of_result {σ : Type} (hal : FingerHal σ) (fuel : Nat)
    (call : PublicCall) (cmd param : Nat) (resp resp1 : finger_resp_t) (s s1 : σ)
    (log log1 : List (List Nat)) (r : finger_err_t)
    (hcmd : call.wireCommand = some (cmd, param))
    (hrun : call.run hal.recording fuel resp (s, log) = some (r, resp1, (s1, log1))) :
    ∀ buff : Buffer, FINGER_PKT_LEN ≤ buff.length →
      log1 = log ++ [(finger_makePacket buff cmd param).take 12]
      ∧ ((finger_makePacket buff cmd param).take 12).length = 12 := by
  intro buff hbuff
  have hlen : ((finger_makePacket buff cmd param).take 12).length = 12 := by
    rw [List.length_take, finger_makePacket_length]
    exact Nat.min_eq_left hbuff
  have hframe : (finger_makePacket (List.replicate FINGER_BUFF_LEN 0) cmd param).take
      FINGER_PKT_LEN = (finger_makePacket buff cmd param).take 12 :=
    finger_makePacket_take _ _ cmd param (by decide) hbuff
  refine ⟨?_, hlen⟩
  rw [← hframe]
  have raw : ∀ r0, finger_sendCommandGetResponse hal.recording fuel cmd param resp (s, log)
      = some (r0, resp1, (s1, log1)) →
      log1 = log ++ [(finger_makePacket (List.replicate FINGER_BUFF_LEN 0) cmd param).take
        FINGER_PKT_LEN] :=
    fun r0 h => finger_sendCommandGetResponse_log hal fuel cmd param resp resp1 s s1 log log1 r0 h
  cases call with
  | Open baud =>
    simp only [PublicCall.wireCommand, Option.some.injEq, Prod.mk.injEq] at hcmd
    obtain ⟨rfl, rfl⟩ := hcmd
    exact raw r hrun
  | Close =>
    simp only [PublicCall.wireCommand, Option.some.injEq, Prod.mk.injEq] at hcmd
    obtain ⟨rfl, rfl⟩ := hcmd
    exact raw r hrun
  | CaptureFinger hq =>
    simp only [PublicCall.wireCommand, Option.some.injEq, Prod.mk.injEq] at hcmd
    obtain ⟨rfl, rfl⟩ := hcmd
    obtain ⟨r0, h0⟩ := finger_captureFinger_raw _ _ _ _ _ _ _ _ hrun
    exact raw r0 h0
  | SetLed led =>
    simp only [PublicCall.wireCommand, Option.some.injEq, Prod.mk.injEq] at hcmd
    obtain ⟨rfl, rfl⟩ := hcmd
    exact raw r hrun
  | GetEnrollCount =>
    simp only [PublicCall.wireCommand, Option.some.injEq, Prod.mk.injEq] at hcmd
    obtain ⟨rfl, rfl⟩ := hcmd
    exact raw r hrun
  | CheckEnrolled id =>
    simp only [PublicCall.wireCommand, Option.some.injEq, Prod.mk.injEq] at hcmd
    obtain ⟨rfl, rfl⟩ := hcmd
    obtain ⟨r0, h0⟩ := finger_checkEnrolled_raw _ _ _ _ _ _ _ _ hrun
    exact raw r0 h0
  | EnrollStart id =>
    simp only [PublicCall.wireCommand, Option.some.injEq, Prod.mk.injEq] at hcmd
    obtain ⟨rfl, rfl⟩ := hcmd
    exact raw r hrun
  | EnrollStage stage =>
    simp only [PublicCall.wireCommand] at hcmd
    split_ifs at hcmd with hst
    simp only [Option.some.injEq, Prod.mk.injEq] at hcmd
    obtain ⟨rfl, rfl⟩ := hcmd
    have h3 : ¬ stage ≥ 3 := by omega
    simp only [PublicCall.run, finger_enrollStage, if_neg h3] at hrun
    match stage, hst, hrun with
    | 0, _, hrun => exact raw r hrun
    | 1, _, hrun => exact raw r hrun
    | 2, _, hrun => exact raw r hrun
  | IsFingerPressed =>
    simp only [PublicCall.wireCommand, Option.some.injEq, Prod.mk.injEq] at hcmd
    obtain ⟨rfl, rfl⟩ := hcmd
    obtain ⟨r0, h0⟩ := finger_isFingerPressed_raw _ _ _ _ _ _ _ hrun
    exact raw r0 h0
  | DeleteId id =>
    simp only [PublicCall.wireCommand, Option.some.injEq, Prod.mk.injEq] at hcmd
    obtain ⟨rfl, rfl⟩ := hcmd
    exact raw r hrun
  | DeleteAll =>
    simp only [PublicCall.wireCommand, Option.some.injEq, Prod.mk.injEq] at hcmd
    obtain ⟨rfl, rfl⟩ := hcmd
    exact raw r hrun
  | Verify_1_1 id =>
    simp only [PublicCall.wireCommand, Option.some.injEq, Prod.mk.injEq] at hcmd
    obtain ⟨rfl, rfl⟩ := hcmd
    obtain ⟨r0, h0⟩ := finger_verify_1_1_raw _ _ _ _ _ _ _ _ hrun
    exact raw r0 h0
  | Identify_1_N =>
    simp only [PublicCall.wireCommand, Option.some.injEq, Prod.mk.injEq] at hcmd
    obtain ⟨rfl, rfl⟩ := hcmd
    obtain ⟨r0, h0⟩ := finger_identify_1_N_raw _ _ _ _ _ _ _ hrun
    exact raw r0 h0

/-! ## Verification and identification -/

/-- The exchange, once the receiver has stored a whole frame. -/
theorem finger_sendCommandGetResponse_of_frame {σ : Type} (hal : FingerHal σ) (fuel : Nat)
    (cmd param : Nat) (resp : finger_resp_t) (s s2 : σ) (buff1 : Buffer)
    (h : finger_getResponse hal fuel
        (finger_makePacket (List.replicate FINGER_BUFF_LEN 0) cmd param)
        (hal.sendPacket (finger_makePacket (List.replicate FINGER_BUFF_LEN 0) cmd param)
          FINGER_PKT_LEN s) = some (1, buff1, s2)) :
    finger_sendCommandGetResponse hal fuel cmd param resp s
      = some ((finger_parseResponse buff1 resp).1, (finger_parseResponse buff1 resp).2, s2) := by
  unfold finger_sendCommandGetResponse
  simp only [h]
  rfl

theorem finger_verify_1_1_of_raw {σ : Type} (hal : FingerHal σ) (fuel : Nat) (id : Nat)
    (resp resp1 : finger_resp_t) (s s1 : σ) (r : finger_err_t)
    (h : finger_sendCommandGetResponse hal fuel FINGER_CMD_VERIFY_1_1 id resp s
      = some (r, resp1, s1)) :
    finger_verify_1_1 hal fuel id resp s = some (finger_xlateVerifyError r resp1, resp1, s1) := by
  unfold finger_verify_1_1
  rw [h]

theorem simHal_sendPacket (tick : Nat) (buff : Buffer) (len : Nat) (s : SimState) :
    (simHal tick).sendPacket buff len s = s := rfl

theorem finger_getResponse_sim_cells
    (c0 c1 c2 c3 c4 c5 c6 c7 c8 c9 c10 c11 : Nat) (rest : List Nat) :
    finger_getResponse (simHal 1) 40
        (c0 :: c1 :: c2 :: c3 :: c4 :: c5 :: c6 :: c7 :: c8 :: c9 :: c10 :: c11 :: rest)
        ⟨0, [0x55, 0xAA, 0x01, 0x00, 0x07, 0x10, 0x00, 0x00, 0x31, 0x00, 0x48, 0x01]⟩
      = some (1, 0x55 :: 0xAA :: 0x01 :: 0x00 :: 0x07 :: 0x10 :: 0x00 :: 0x00 :: 0x31 :: 0x00
                  :: 0x48 :: 0x01 :: rest, ⟨13, []⟩) := by
  rfl

/-- The receiver over the simulated transport that holds the NACK frame
`55 AA 01 00 07 10 00 00 31 00 48 01`: the frame is stored in the cells 0 to 11. -/
theorem finger_getResponse_sim_verify_failed (buff : Buffer) (h : FINGER_PKT_LEN ≤ buff.length) :
    finger_getResponse (simHal 1) 40 buff
        ⟨0, [0x55, 0xAA, 0x01, 0x00, 0x07, 0x10, 0x00, 0x00, 0x31, 0x00, 0x48, 0x01]⟩
      = some (1, 0x55 :: 0xAA :: 0x01 :: 0x00 :: 0x07 :: 0x10 :: 0x00 :: 0x00 :: 0x31 :: 0x00
                  :: 0x48 :: 0x01 :: buff.drop 12, ⟨13, []⟩) := by
  obtain ⟨b0, b1, b2, b3, b4, b5, b6, b7, b8, b9, b10, b11, rest, rfl⟩ := buffer_cells buff h
  exact finger_getResponse_sim_cells b0 b1 b2 b3 b4 b5 b6 b7 b8 b9 b10 b11 rest

theorem finger_parseResponse_verify_failed (rest : List Nat) (resp : finger_resp_t) :
    finger_parseResponse (0x55 :: 0xAA :: 0x01 :: 0x00 :: 0x07 :: 0x10 :: 0x00 :: 0x00 :: 0x31
        :: 0x00 :: 0x48 :: 0x01 :: rest) resp
      = (FINGER_ERROR_NONE, { resp with param := 0x1007, resp := 0x0031 }) := by
  simp [finger_parseResponse, calcChecksum_cells, FINGER_CMD_START_CODE_1,
    FINGER_CMD_START_CODE_2, FINGER_CMD_DEVICE_ID_1, FINGER_CMD_DEVICE_ID_2]
  decide

/-- C7 (evaluation of the code): for every identifier, when the simulated
device answers `finger_verify_1_1` with the well-formed NACK frame
`55 AA 01 00 07 10 00 00 31 00 48 01`, whose parameter is the device error code
VerifyFailed (`0x1007`), the call returns `FINGER_ERROR_NONE`, with the
parameter `0x1007` and the status word `0x0031` in the record and the device
error field untouched. -/
theorem finger_verify_1_1_verify_failed_frame (id : Nat) (resp : finger_resp_t) :
    finger_verify_1_1 (simHal 1) 40 id resp
        ⟨0, [0x55, 0xAA, 0x01, 0x00, 0x07, 0x10, 0x00, 0x00, 0x31, 0x00, 0x48, 0x01]⟩
      = some (FINGER_ERROR_NONE, { resp with param := 0x1007, resp := 0x0031 }, ⟨13, []⟩) := by
  have hb : FINGER_PKT_LEN
      ≤ (finger_makePacket (List.replicate FINGER_BUFF_LEN 0) FINGER_CMD_VERIFY_1_1 id).length := by
    rw [finger_makePacket_length]
    decide
  have hg := finger_getResponse_sim_verify_failed _ hb
  have hraw := finger_sendCommandGetResponse_of_frame (simHal 1) 40 FINGER_CMD_VERIFY_1_1 id resp
    ⟨0, [0x55, 0xAA, 0x01, 0x00, 0x07, 0x10, 0x00, 0x00, 0x31, 0x00, 0x48, 0x01]⟩ ⟨13, []⟩ _
    (by rw [simHal_sendPacket]; exact hg)
  rw [finger_parseResponse_verify_failed] at hraw
  rw [finger_verify_1_1_of_raw _ _ _ _ _ _ _ _ hraw]
  rfl

/-- C8: `finger_xlateVerifyError` maps `Nack` with device error VerifyFailed
(`0x1007`) or IdentifyFailed (`0x1008`) to `WrongFinger`, `Nack` with
FingerIsNotPressed (`0x1012`) to `NoFinger`, `Nack` with BadFinger (`0x100C`)
to `BadFinger`, and returns every other outcome unchanged; and
`finger_verify_1_1` returns it applied to the outcome and record of its raw
exchange. -/
theorem finger_xlateVerifyError_table :
    (∀ resp : finger_resp_t, resp.error = 0x1007 ∨ resp.error = 0x1008 →
        finger_xlateVerifyError FINGER_ERROR_NACK resp = FINGER_ERROR_WRONGFINGER)
    ∧ (∀ resp : finger_resp_t, resp.error = 0x1012 →
        finger_xlateVerifyError FINGER_ERROR_NACK resp = FINGER_ERROR_NOFINGER)
    ∧ (∀ resp : finger_resp_t, resp.error = 0x100C →
        finger_xlateVerifyError FINGER_ERROR_NACK resp = FINGER_ERROR_BADFINGER)
    ∧ (∀ (r : finger_err_t) (resp : finger_resp_t),
        r ≠ FINGER_ERROR_NACK
          ∨ (resp.error ≠ 0x1007 ∧ resp.error ≠ 0x1008 ∧ resp.error ≠ 0x1012
              ∧ resp.error ≠ 0x100C) →
        finger_xlateVerifyError r resp = r)
    ∧ (∀ (σ : Type) (hal : FingerHal σ) (fuel id : Nat) (resp : finger_resp_t) (s : σ),
        finger_verify_1_1 hal fuel id resp s
          = (finger_sendCommandGetResponse hal fuel 0x50 id resp s).map
              (fun x => (finger_xlateVerifyError x.1 x.2.1, x.2.1, x.2.2))) := by
  refine ⟨?_, ?_, ?_, ?_, ?_⟩
  · intro resp h
    simp only [finger_xlateVerifyError, FINGER_ERRCODE_VERIFY_FAILED,
      FINGER_ERRCODE_IDENTIFY_FAILED, if_true, if_pos h]
  · intro resp h
    have h1 : ¬ (resp.error = 0x1007 ∨ resp.error = 0x1008) := by omega
    simp only [finger_xlateVerifyError, FINGER_ERRCODE_VERIFY_FAILED,
      FINGER_ERRCODE_IDENTIFY_FAILED, FINGER_ERRCODE_FINGER_IS_NOT_PRESSED, if_true, if_neg h1,
      if_pos h]
  · intro resp h
    have h1 : ¬ (resp.error = 0x1007 ∨ resp.error = 0x1008) := by omega
    have h2 : ¬ resp.error = 0x1012 := by omega
    simp only [finger_xlateVerifyError, FINGER_ERRCODE_VERIFY_FAILED,
      FINGER_ERRCODE_IDENTIFY_FAILED, FINGER_ERRCODE_FINGER_IS_NOT_PRESSED,
      FINGER_ERRCODE_BAD_FINGER, if_true, if_neg h1, if_neg h2, if_pos h]
  · intro r resp h
    unfold finger_xlateVerifyError
    by_cases hr : r = FINGER_ERROR_NACK
    · have h' : resp.error ≠ 0x1007 ∧ resp.error ≠ 0x1008 ∧ resp.error ≠ 0x1012
          ∧ resp.error ≠ 0x100C := by tauto
      have h1 : ¬ (resp.error = 0x1007 ∨ resp.error = 0x1008) := by omega
      have h2 : ¬ resp.error = 0x1012 := by omega
      have h3 : ¬ resp.error = 0x100C := by omega
      simp only [FINGER_ERRCODE_VERIFY_FAILED, FINGER_ERRCODE_IDENTIFY_FAILED,
        FINGER_ERRCODE_FINGER_IS_NOT_PRESSED, FINGER_ERRCODE_BAD_FINGER, if_pos hr, if_neg h1,
        if_neg h2, if_neg h3]
    · rw [if_neg hr]
  · intro σ hal fuel id resp s
    unfold finger_verify_1_1
    have e : FINGER_CMD_VERIFY_1_1 = 0x50 := rfl
    rw [e]
    cases finger_sendCommandGetResponse hal fuel 0x50 id resp s with
    | none => rfl
    | some x => rfl

theorem finger_isFingerPressed_of_raw {σ : Type} (hal : FingerHal σ) (fuel : Nat)
    (resp resp1 : finger_resp_t) (s s1 : σ) (r : finger_err_t)
    (h : finger_sendCommandGetResponse hal fuel FINGER_CMD_IS_PRESS_FINGER 0 resp s
      = some (r, resp1, s1)) :
    finger_isFingerPressed hal fuel resp s
      = if (r = FINGER_ERROR_NONE ∧ resp1.param ≠ 0)
          ∨ (r = FINGER_ERROR_NACK ∧ resp1.error = FINGER_ERRCODE_FINGER_IS_NOT_PRESSED) then
          some (FINGER_ERROR_NOFINGER, resp1, s1)
        else some (r, resp1, s1) := by
  unfold finger_isFingerPressed
  rw [h]

theorem finger_captureFinger_of_raw {σ : Type} (hal : FingerHal σ) (fuel : Nat) (hq : Int)
    (resp resp1 : finger_resp_t) (s s1 : σ) (r : finger_err_t)
    (h : finger_sendCommandGetResponse hal fuel FINGER_CMD_CAPTURE_FINGER
      (if hq ≠ 0 then 1 else 0) resp s = some (r, resp1, s1)) :
    finger_captureFinger hal fuel hq resp s
      = if (r = FINGER_ERROR_NONE ∧ resp1.param ≠ 0)
          ∨ (r = FINGER_ERROR_NACK ∧ resp1.error = FINGER_ERRCODE_FINGER_IS_NOT_PRESSED) then
          some (FINGER_ERROR_NOFINGER, resp1, s1)
        else if (r = FINGER_ERROR_NONE ∧ resp1.param ≠ 0)
          ∨ (r = FINGER_ERROR_NACK ∧ resp1.error = FINGER_ERRCODE_BAD_FINGER) then
          some (FINGER_ERROR_BADFINGER, resp1, s1)
        else some (r, resp1, s1) := by
  unfold finger_captureFinger
  rw [h]

theorem finger_identify_1_N_of_raw {σ : Type} (hal : FingerHal σ) (fuel : Nat)
    (resp resp1 : finger_resp_t) (s s1 : σ) (r : finger_err_t)
    (h : finger_sendCommandGetResponse hal fuel FINGER_CMD_VERIFY_1_N 0 resp s
      = some (r, resp1, s1)) :
    finger_identify_1_N hal fuel resp s
      = if r = FINGER_ERROR_NONE ∧ resp1.param ≥ 200 then
          some (FINGER_ERROR_WRONGFINGER, resp1, s1)
        else some (finger_xlateVerifyError r resp1, resp1, s1) := by
  unfold finger_identify_1_N
  rw [h]

theorem finger_xlateVerifyError_not_pressed (resp : finger_resp_t) (h : resp.error = 0x1012) :
    finger_xlateVerifyError FINGER_ERROR_NACK resp = FINGER_ERROR_NOFINGER := by
  have h1 : ¬ (resp.error = 0x1007 ∨ resp.error = 0x1008) := by omega
  simp only [finger_xlateVerifyError, FINGER_ERRCODE_VERIFY_FAILED,
    FINGER_ERRCODE_IDENTIFY_FAILED, FINGER_ERRCODE_FINGER_IS_NOT_PRESSED, if_true, if_neg h1,
    if_pos h]

/-- C9: when the raw exchange ends in `Nack` with the device error field equal
to FingerIsNotPressed (`0x1012`), each of `finger_isFingerPressed`,
`finger_captureFinger` (any `hq`), `finger_verify_1_1` (any `id`) and
`finger_identify_1_N` returns `NoFinger`. -/
theorem nack_finger_not_pressed_is_nofinger {σ : Type} (hal : FingerHal σ) (fuel : Nat)
    (hq : Int) (id : Nat) (resp resp1 : finger_resp_t) (s s1 : σ)
    (herr : resp1.error = 0x1012) :
    (finger_sendCommandGetResponse hal fuel 0x26 0 resp s = some (FINGER_ERROR_NACK, resp1, s1) →
      finger_isFingerPressed hal fuel resp s = some (FINGER_ERROR_NOFINGER, resp1, s1))
    ∧ (finger_sendCommandGetResponse hal fuel 0x60 (if hq ≠ 0 then 1 else 0) resp s
          = some (FINGER_ERROR_NACK, resp1, s1) →
      finger_captureFinger hal fuel hq resp s = some (FINGER_ERROR_NOFINGER, resp1, s1))
    ∧ (finger_sendCommandGetResponse hal fuel 0x50 id resp s
          = some (FINGER_ERROR_NACK, resp1, s1) →
      finger_verify_1_1 hal fuel id resp s = some (FINGER_ERROR_NOFINGER, resp1, s1))
    ∧ (finger_sendCommandGetResponse hal fuel 0x51 0 resp s
          = some (FINGER_ERROR_NACK, resp1, s1) →
      finger_identify_1_N hal fuel resp s = some (FINGER_ERROR_NOFINGER, resp1, s1)) := by
  have hc : (FINGER_ERROR_NACK = FINGER_ERROR_NONE ∧ resp1.param ≠ 0)
      ∨ (FINGER_ERROR_NACK = FINGER_ERROR_NACK
          ∧ resp1.error = FINGER_ERRCODE_FINGER_IS_NOT_PRESSED) := Or.inr ⟨rfl, herr⟩
  refine ⟨?_, ?_, ?_, ?_⟩
  · intro h
    rw [finger_isFingerPressed_of_raw hal fuel resp resp1 s s1 _ h, if_pos hc]
  · intro h
    rw [finger_captureFinger_of_raw hal fuel hq resp resp1 s s1 _ h, if_pos hc]
  · intro h
    rw [finger_verify_1_1_of_raw hal fuel id resp resp1 s s1 _ h,
      finger_xlateVerifyError_not_pressed resp1 herr]
  · intro h
    have hn : ¬ (FINGER_ERROR_NACK = FINGER_ERROR_NONE ∧ resp1.param ≥ 200) := by
      intro hx
      cases hx.1
    rw [finger_identify_1_N_of_raw hal fuel resp resp1 s s1 _ h, if_neg hn,
      finger_xlateVerifyError_not_pressed resp1 herr]

/-- Witness of C9: the four operations over the simulated transport, with the
device answering the NACK frame `55 AA 01 00 12 10 01 00 31 00 54 01`, which
`finger_parseResponse` turns into `Nack` with device error field `0x1012`. -/
theorem nack_finger_not_pressed_is_nofinger_witness :
    finger_isFingerPressed (simHal 1) 40 ⟨0, 0, 0⟩
        ⟨0, [0x55, 0xAA, 0x01, 0x00, 0x12, 0x10, 0x01, 0x00, 0x31, 0x00, 0x54, 0x01]⟩
      = some (FINGER_ERROR_NOFINGER, ⟨0x11012, 0x31, 0x1012⟩, ⟨13, []⟩)
    ∧ finger_captureFinger (simHal 1) 40 1 ⟨0, 0, 0⟩
        ⟨0, [0x55, 0xAA, 0x01, 0x00, 0x12, 0x10, 0x01, 0x00, 0x31, 0x00, 0x54, 0x01]⟩
      = some (FINGER_ERROR_NOFINGER, ⟨0x11012, 0x31, 0x1012⟩, ⟨13, []⟩)
    ∧ finger_verify_1_1 (simHal 1) 40 7 ⟨0, 0, 0⟩
        ⟨0, [0x55, 0xAA, 0x01, 0x00, 0x12, 0x10, 0x01, 0x00, 0x31, 0x00, 0x54, 0x01]⟩
      = some (FINGER_ERROR_NOFINGER, ⟨0x11012, 0x31, 0x1012⟩, ⟨13, []⟩)
    ∧ finger_identify_1_N (simHal 1) 40 ⟨0, 0, 0⟩
        ⟨0, [0x55, 0xAA, 0x01, 0x00, 0x12, 0x10, 0x01, 0x00, 0x31, 0x00, 0x54, 0x01]⟩
      = some (FINGER_ERROR_NOFINGER, ⟨0x11012, 0x31, 0x1012⟩, ⟨13, []⟩) :=
  have h := nack_finger_not_pressed_is_nofinger (simHal 1) 40 1 7 ⟨0, 0, 0⟩
    ⟨0x11012, 0x31, 0x1012⟩
    ⟨0, [0x55, 0xAA, 0x01, 0x00, 0x12, 0x10, 0x01, 0x00, 0x31, 0x00, 0x54, 0x01]⟩ ⟨13, []⟩
    (by decide)
  ⟨h.1 (by decide), h.2.1 (by decide), h.2.2.1 (by decide), h.2.2.2 (by decide)⟩

/-- C10: when the raw exchange of `finger_identify_1_N` ends in `None`, the
call returns `WrongFinger` if the response parameter is at least 200 and
`None` if it is below 200. -/
theorem finger_identify_1_N_range_guard {σ : Type} (hal : FingerHal σ) (fuel : Nat)
    (resp resp1 : finger_resp_t) (s s1 : σ)
    (hraw : finger_sendCommandGetResponse hal fuel 0x51 0 resp s
      = some (FINGER_ERROR_NONE, resp1, s1)) :
    (resp1.param ≥ 200 →
      finger_identify_1_N hal fuel resp s = some (FINGER_ERROR_WRONGFINGER, resp1, s1))
    ∧ (resp1.param < 200 →
      finger_identify_1_N hal fuel resp s = some (FINGER_ERROR_NONE, resp1, s1)) := by
  rw [finger_identify_1_N_of_raw hal fuel resp resp1 s s1 _ hraw]
  constructor
  · intro h
    rw [if_pos ⟨rfl, h⟩]
  · intro h
    have hn : ¬ (FINGER_ERROR_NONE = FINGER_ERROR_NONE ∧ resp1.param ≥ 200) := by omega
    rw [if_neg hn]
    rfl

/-- Witness of C10: the identification over the simulated transport, with the
device answering an ACK frame of parameter 200 and one of parameter 199. -/
theorem finger_identify_1_N_range_guard_witness :
    finger_identify_1_N (simHal 1) 40 ⟨0, 0, 0⟩
        ⟨0, [0x55, 0xAA, 0x01, 0x00, 0xC8, 0x00, 0x00, 0x00, 0x30, 0x00, 0xF8, 0x01]⟩
      = some (FINGER_ERROR_WRONGFINGER, ⟨200, 0x30, 0⟩, ⟨13, []⟩)
    ∧ finger_identify_1_N (simHal 1) 40 ⟨0, 0, 0⟩
        ⟨0, [0x55, 0xAA, 0x01, 0x00, 0xC7, 0x00, 0x00, 0x00, 0x30, 0x00, 0xF7, 0x01]⟩
      = some (FINGER_ERROR_NONE, ⟨199, 0x30, 0⟩, ⟨13, []⟩) :=
  ⟨(finger_identify_1_N_range_guard (simHal 1) 40 ⟨0, 0, 0⟩ ⟨200, 0x30, 0⟩
      ⟨0, [0x55, 0xAA, 0x01, 0x00, 0xC8, 0x00, 0x00, 0x00, 0x30, 0x00, 0xF8, 0x01]⟩ ⟨13, []⟩
      (by decide)).1 (by decide),
   (finger_identify_1_N_range_guard (simHal 1) 40 ⟨0, 0, 0⟩ ⟨199, 0x30, 0⟩
      ⟨0, [0x55, 0xAA, 0x01, 0x00, 0xC7, 0x00, 0x00, 0x00, 0x30, 0x00, 0xF7, 0x01]⟩ ⟨13, []⟩
      (by decide)).2 (by decide)⟩

/-! ## Outcomes of the parser and of the raw exchange -/

/-- The code of `finger_parseResponse` on a structurally valid buffer of any
length, with the checksum comparison of line 282 as the code writes it. -/
theorem finger_parseResponse_struct (buff : Buffer) (resp : finger_resp_t)
    (hv : StructurallyValid buff) :
    finger_parseResponse buff resp =
      if buff.getD 10 0 ≠ ((finger_calcChecksum buff &&& 0x00FF) >>> (8 * 0)) % 256
          ∨ buff.getD 11 0 ≠ ((finger_calcChecksum buff &&& 0xFF00) >>> (8 * 1)) % 256 then
        (FINGER_ERROR_CHECKSUM, resp)
      else if buff.getD 8 0 = 0x31 ∧ buff.getD 5 0 ≠ 0 then
        if buff.getD 6 0 = 0 then
          (FINGER_ERROR_NONE,
            { resp with
              param := (buff.getD 4 0 + 2 ^ 8 * buff.getD 5 0 + 2 ^ 16 * buff.getD 6 0
                          + 2 ^ 24 * buff.getD 7 0) % 2 ^ 32
              resp := buff.getD 8 0 % 2 ^ 16 })
        else if buff.getD 6 0 > 0x12 then
          (FINGER_ERROR_PARSING,
            { resp with
              param := (buff.getD 4 0 + 2 ^ 8 * buff.getD 5 0 + 2 ^ 16 * buff.getD 6 0
                          + 2 ^ 24 * buff.getD 7 0) % 2 ^ 32
              resp := buff.getD 8 0 % 2 ^ 16 })
        else
          (FINGER_ERROR_NACK,
            { param := (buff.getD 4 0 + 2 ^ 8 * buff.getD 5 0 + 2 ^ 16 * buff.getD 6 0
                          + 2 ^ 24 * buff.getD 7 0) % 2 ^ 32
              resp := buff.getD 8 0 % 2 ^ 16
              error := (buff.getD 4 0 + 2 ^ 8 * buff.getD 5 0 + 2 ^ 16 * buff.getD 6 0
                          + 2 ^ 24 * buff.getD 7 0) % 2 ^ 32 % 2 ^ 16 })
      else
        (FINGER_ERROR_NONE,
          { resp with
            param := (buff.getD 4 0 + 2 ^ 8 * buff.getD 5 0 + 2 ^ 16 * buff.getD 6 0
                        + 2 ^ 24 * buff.getD 7 0) % 2 ^ 32
            resp := buff.getD 8 0 % 2 ^ 16 }) := by
  obtain ⟨h0, h1, h2, h3, h9, h8⟩ := hv
  have hs : ¬ (buff.getD 0 0 ≠ FINGER_CMD_START_CODE_1 ∨ buff.getD 1 0 ≠ FINGER_CMD_START_CODE_2
      ∨ buff.getD 2 0 ≠ FINGER_CMD_DEVICE_ID_1 ∨ buff.getD 3 0 ≠ FINGER_CMD_DEVICE_ID_2) := by
    simp only [FINGER_CMD_START_CODE_1, FINGER_CMD_START_CODE_2, FINGER_CMD_DEVICE_ID_1,
      FINGER_CMD_DEVICE_ID_2]
    omega
  have h9n : ¬ buff.getD 9 0 ≠ 0 := by omega
  have h8n : ¬ (buff.getD 8 0 ≠ 0x30 ∧ buff.getD 8 0 ≠ 0x31) := by tauto
  have hp : ((((buff.getD 4 0 <<< (8 * 0)) % 2 ^ 32 + (buff.getD 5 0 <<< (8 * 1)) % 2 ^ 32) % 2 ^ 32
        + (buff.getD 6 0 <<< (8 * 2)) % 2 ^ 32) % 2 ^ 32
        + (buff.getD 7 0 <<< (8 * 3)) % 2 ^ 32) % 2 ^ 32
      = (buff.getD 4 0 + 2 ^ 8 * buff.getD 5 0 + 2 ^ 16 * buff.getD 6 0
          + 2 ^ 24 * buff.getD 7 0) % 2 ^ 32 := by
    simp only [Nat.shiftLeft_eq]
    omega
  have hr : ((buff.getD 8 0 <<< (8 * 0)) % 2 ^ 16 + (buff.getD 9 0 <<< (8 * 1))) % 2 ^ 16
      = buff.getD 8 0 % 2 ^ 16 := by
    simp only [Nat.shiftLeft_eq, h9]
    omega
  unfold finger_parseResponse
  rw [if_neg hs, if_neg h9n, if_neg h8n]
  simp only [hp, hr]

theorem not_structurallyValid (buff : Buffer) (hv : ¬ StructurallyValid buff) :
    buff.getD 0 0 ≠ 0x55 ∨ buff.getD 1 0 ≠ 0xAA ∨ buff.getD 2 0 ≠ 0x01
      ∨ buff.getD 3 0 ≠ 0x00 ∨ buff.getD 9 0 ≠ 0
      ∨ (buff.getD 8 0 ≠ 0x30 ∧ buff.getD 8 0 ≠ 0x31) := by
  unfold StructurallyValid at hv
  omega

/-- The four codes `finger_parseResponse` can return. -/
theorem finger_parseResponse_outcome (buff : Buffer) (resp : finger_resp_t) :
    (finger_parseResponse buff resp).1 = FINGER_ERROR_PARSING
    ∨ (finger_parseResponse buff resp).1 = FINGER_ERROR_CHECKSUM
    ∨ (finger_parseResponse buff resp).1 = FINGER_ERROR_NONE
    ∨ (finger_parseResponse buff resp).1 = FINGER_ERROR_NACK := by
  by_cases hv : StructurallyValid buff
  · rw [finger_parseResponse_struct buff resp hv]
    split_ifs <;> simp only [true_or, or_true]
  · rw [finger_parseResponse_of_malformed buff resp (not_structurallyValid buff hv)]
    exact Or.inl rfl

/-- The device error field is written on the `Nack` path only. -/
theorem finger_parseResponse_error_frame (buff : Buffer) (resp : finger_resp_t)
    (h : (finger_parseResponse buff resp).1 ≠ FINGER_ERROR_NACK) :
    (finger_parseResponse buff resp).2.error = resp.error := by
  by_cases hv : StructurallyValid buff
  · rw [finger_parseResponse_struct buff resp hv] at h ⊢
    split_ifs at h ⊢ <;> first | rfl | exact absurd rfl h
  · rw [finger_parseResponse_of_malformed buff resp (not_structurallyValid buff hv)]

/-- On the `Nack` path the buffer is structurally valid with status byte
`0x31`, byte 5 nonzero and byte 6 in `1 .. 0x12`; the status word stored is
`0x0031`, the parameter is the little-endian value of the bytes 4 to 7 reduced
to 32 bits, and the device error field is the parameter reduced to 16 bits. -/
theorem finger_parseResponse_nack_record (buff : Buffer) (resp : finger_resp_t)
    (h : (finger_parseResponse buff resp).1 = FINGER_ERROR_NACK) :
    StructurallyValid buff ∧ buff.getD 8 0 = 0x31 ∧ buff.getD 5 0 ≠ 0
    ∧ 1 ≤ buff.getD 6 0 ∧ buff.getD 6 0 ≤ 0x12
    ∧ (finger_parseResponse buff resp).2.resp = 0x31
    ∧ (finger_parseResponse buff resp).2.param
        = (buff.getD 4 0 + 2 ^ 8 * buff.getD 5 0 + 2 ^ 16 * buff.getD 6 0
            + 2 ^ 24 * buff.getD 7 0) % 2 ^ 32
    ∧ (finger_parseResponse buff resp).2.error
        = (finger_parseResponse buff resp).2.param % 2 ^ 16 := by
  by_cases hv : StructurallyValid buff
  · rw [finger_parseResponse_struct buff resp hv] at h ⊢
    split_ifs at h ⊢ with h1 h2 h3 h4
    refine ⟨hv, h2.1, h2.2, by omega, by omega, ?_, rfl, rfl⟩
    show buff.getD 8 0 % 2 ^ 16 = 0x31
    rw [h2.1]
    decide
  · rw [finger_parseResponse_of_malformed buff resp (not_structurallyValid buff hv)] at h
    cases h

/-- The raw exchange ends in `Timeout` with the record untouched, or in the
code and record of `finger_parseResponse` on some buffer. -/
theorem finger_sendCommandGetResponse_cases {σ : Type} (hal : FingerHal σ) (fuel : Nat)
    (cmd param : Nat) (resp resp1 : finger_resp_t) (s s1 : σ) (r : finger_err_t)
    (h : finger_sendCommandGetResponse hal fuel cmd param resp s = some (r, resp1, s1)) :
    (r = FINGER_ERROR_TIMEOUT ∧ resp1 = resp)
    ∨ ∃ buff1, r = (finger_parseResponse buff1 resp).1
        ∧ resp1 = (finger_parseResponse buff1 resp).2 := by
  unfold finger_sendCommandGetResponse at h
  cases hg : finger_getResponse hal fuel
      (finger_makePacket (List.replicate FINGER_BUFF_LEN 0) cmd param)
      (hal.sendPacket (finger_makePacket (List.replicate FINGER_BUFF_LEN 0) cmd param)
        FINGER_PKT_LEN s) with
  | none => simp only [hg] at h; cases h
  | some x =>
    obtain ⟨ret, buff1, s2⟩ := x
    simp only [hg] at h
    split_ifs at h
    · simp only [Option.some.injEq, Prod.mk.injEq] at h
      exact Or.inl ⟨h.1.symm, h.2.1.symm⟩
    · simp only [Option.some.injEq, Prod.mk.injEq] at h
      exact Or.inr ⟨buff1, h.1.symm, h.2.1.symm⟩

/-- The five codes the raw exchange can return. -/
theorem finger_sendCommandGetResponse_outcome {σ : Type} (hal : FingerHal σ) (fuel : Nat)
    (cmd param : Nat) (resp resp1 : finger_resp_t) (s s1 : σ) (r : finger_err_t)
    (h : finger_sendCommandGetResponse hal fuel cmd param resp s = some (r, resp1, s1)) :
    r = FINGER_ERROR_TIMEOUT ∨ r = FINGER_ERROR_PARSING ∨ r = FINGER_ERROR_CHECKSUM
    ∨ r = FINGER_ERROR_NONE ∨ r = FINGER_ERROR_NACK := by
  rcases finger_sendCommandGetResponse_cases hal fuel cmd param resp resp1 s s1 r h with
    ⟨ht, -⟩ | ⟨buff1, hr, -⟩
  · exact Or.inl ht
  · rw [hr]
    exact Or.inr (finger_parseResponse_outcome buff1 resp)

/-- A raw exchange that ends in `Nack` leaves the status word `0x0031`. -/
theorem finger_sendCommandGetResponse_nack_resp {σ : Type} (hal : FingerHal σ) (fuel : Nat)
    (cmd param : Nat) (resp resp1 : finger_resp_t) (s s1 : σ)
    (h : finger_sendCommandGetResponse hal fuel cmd param resp s
      = some (FINGER_ERROR_NACK, resp1, s1)) :
    resp1.resp = 0x31 := by
  rcases finger_sendCommandGetResponse_cases hal fuel cmd param resp resp1 s s1 _ h with
    ⟨ht, -⟩ | ⟨buff1, hr, hresp⟩
  · cases ht
  · rw [hresp]
    exact (finger_parseResponse_nack_record buff1 resp hr.symm).2.2.2.2.2.1

/-! ## Enrollment checks -/

theorem finger_checkEnrolled_of_raw {σ : Type} (hal : FingerHal σ) (fuel : Nat) (id : Nat)
    (resp resp1 : finger_resp_t) (s s1 : σ) (r : finger_err_t)
    (h : finger_sendCommandGetResponse hal fuel FINGER_CMD_CHECK_ENROLLED id resp s
      = some (r, resp1, s1)) :
    finger_checkEnrolled hal fuel id resp s
      = if r = FINGER_ERROR_NONE
            ∨ (r = FINGER_ERROR_NACK ∧ (resp1.resp &&& 0x00FF) = 0x30)
            ∨ (r = FINGER_ERROR_NACK ∧ resp1.error = FINGER_ERRCODE_IS_ALREADY_USED) then
          some (FINGER_ERROR_NONE, resp1, s1)
        else if r = FINGER_ERROR_NACK ∧ resp1.error = FINGER_ERRCODE_IS_NOT_USED then
          some (FINGER_ERROR_NOFINGER, resp1, s1)
        else some (r, resp1, s1) := by
  unfold finger_checkEnrolled
  rw [h]

/-- C11: `finger_checkEnrolled` maps the outcome `r` and record of its raw
exchange as follows: `None` if `r` is `None`, or `r` is `Nack` and the low byte
of the status word is `0x30` or the device error field is IsAlreadyUsed
(`0x1005`); `NoFinger` if `r` is `Nack` and the device error field is IsNotUsed
(`0x1004`); `r` unchanged in every other case. -/
theorem finger_checkEnrolled_mapping {σ : Type} (hal : FingerHal σ) (fuel : Nat) (id : Nat)
    (resp resp1 : finger_resp_t) (s s1 : σ) (r : finger_err_t)
    (hraw : finger_sendCommandGetResponse hal fuel 0x21 id resp s = some (r, resp1, s1)) :
    ((r = FINGER_ERROR_NONE
        ∨ (r = FINGER_ERROR_NACK ∧ (resp1.resp % 256 = 0x30 ∨ resp1.error = 0x1005))) →
      finger_checkEnrolled hal fuel id resp s = some (FINGER_ERROR_NONE, resp1, s1))
    ∧ ((r = FINGER_ERROR_NACK ∧ resp1.error = 0x1004) →
      finger_checkEnrolled hal fuel id resp s = some (FINGER_ERROR_NOFINGER, resp1, s1))
    ∧ (¬ (r = FINGER_ERROR_NONE
          ∨ (r = FINGER_ERROR_NACK ∧ (resp1.resp % 256 = 0x30 ∨ resp1.error = 0x1005))) →
        ¬ (r = FINGER_ERROR_NACK ∧ resp1.error = 0x1004) →
      finger_checkEnrolled hal fuel id resp s = some (r, resp1, s1)) := by
  rw [finger_checkEnrolled_of_raw hal fuel id resp resp1 s s1 r hraw, and_FF]
  simp only [FINGER_ERRCODE_IS_ALREADY_USED, FINGER_ERRCODE_IS_NOT_USED]
  refine ⟨?_, ?_, ?_⟩
  · intro h
    have hc : r = FINGER_ERROR_NONE ∨ (r = FINGER_ERROR_NACK ∧ resp1.resp % 256 = 0x30)
        ∨ (r = FINGER_ERROR_NACK ∧ resp1.error = 0x1005) := by tauto
    rw [if_pos hc]
  · intro h
    obtain ⟨hr, he⟩ := h
    subst hr
    have h31 : resp1.resp = 0x31 :=
      finger_sendCommandGetResponse_nack_resp hal fuel 0x21 id resp resp1 s s1 hraw
    have hc : ¬ (FINGER_ERROR_NACK = FINGER_ERROR_NONE
        ∨ (FINGER_ERROR_NACK = FINGER_ERROR_NACK ∧ resp1.resp % 256 = 0x30)
        ∨ (FINGER_ERROR_NACK = FINGER_ERROR_NACK ∧ resp1.error = 0x1005)) := by
      rw [h31, he]
      decide
    rw [if_neg hc, if_pos ⟨rfl, he⟩]
  · intro h1 h2
    have hc : ¬ (r = FINGER_ERROR_NONE ∨ (r = FINGER_ERROR_NACK ∧ resp1.resp % 256 = 0x30)
        ∨ (r = FINGER_ERROR_NACK ∧ resp1.error = 0x1005)) := by tauto
    rw [if_neg hc, if_neg h2]

/-- Witness of C11: the check over the simulated transport, with the device
answering the NACK frame `55 AA 01 00 04 10 01 00 31 00 46 01`, which
`finger_parseResponse` turns into `Nack` with device error field `0x1004`. -/
theorem finger_checkEnrolled_mapping_witness :
    finger_checkEnrolled (simHal 1) 40 9 ⟨0, 0, 0⟩
        ⟨0, [0x55, 0xAA, 0x01, 0x00, 0x04, 0x10, 0x01, 0x00, 0x31, 0x00, 0x46, 0x01]⟩
      = some (FINGER_ERROR_NOFINGER, ⟨0x11004, 0x31, 0x1004⟩, ⟨13, []⟩) :=
  (finger_checkEnrolled_mapping (simHal 1) 40 9 ⟨0, 0, 0⟩ ⟨0x11004, 0x31, 0x1004⟩
    ⟨0, [0x55, 0xAA, 0x01, 0x00, 0x04, 0x10, 0x01, 0x00, 0x31, 0x00, 0x46, 0x01]⟩ ⟨13, []⟩
    FINGER_ERROR_NACK (by decide)).2.1 (by decide)

/-- C12: `finger_enrollStage` returns `Invalid` exactly when `stage ≥ 3`,
for every transport; for `stage ≥ 3` it returns at once, with the response
record and the transport state unchanged, so that over a recording transport
no transmission is added and over a counting transport no call is counted. -/
theorem finger_enrollStage_invalid {σ : Type} (hal : FingerHal σ) (fuel : Nat) (stage : Nat)
    (resp : finger_resp_t) (s : σ) :
    (3 ≤ stage → finger_enrollStage hal fuel stage resp s = some (FINGER_ERROR_INVALID, resp, s))
    ∧ (∀ log : List (List Nat), 3 ≤ stage →
        finger_enrollStage hal.recording fuel stage resp (s, log)
          = some (FINGER_ERROR_INVALID, resp, (s, log)))
    ∧ (∀ n : Nat, 3 ≤ stage →
        finger_enrollStage hal.counting fuel stage resp (s, n)
          = some (FINGER_ERROR_INVALID, resp, (s, n)))
    ∧ (∀ (r : finger_err_t) (resp1 : finger_resp_t) (s1 : σ),
        finger_enrollStage hal fuel stage resp s = some (r, resp1, s1) →
        (r = FINGER_ERROR_INVALID ↔ 3 ≤ stage)) := by
  have key : ∀ (τ : Type) (h : FingerHal τ) (t : τ), 3 ≤ stage →
      finger_enrollStage h fuel stage resp t = some (FINGER_ERROR_INVALID, resp, t) := by
    intro τ h t h3
    unfold finger_enrollStage
    rw [if_pos h3]
  refine ⟨key σ hal s, fun log => key _ hal.recording (s, log),
    fun n => key _ hal.counting (s, n), ?_⟩
  intro r resp1 s1 h
  constructor
  · intro hr
    by_contra h3
    have h3' : ¬ stage ≥ 3 := h3
    unfold finger_enrollStage at h
    rw [if_neg h3'] at h
    subst hr
    have hout : ∀ cmd, finger_sendCommandGetResponse hal fuel cmd 0 resp s
        = some (FINGER_ERROR_INVALID, resp1, s1) → False := by
      intro cmd hc
      have ho := finger_sendCommandGetResponse_outcome hal fuel cmd 0 resp resp1 s s1 _ hc
      rcases ho with ho | ho | ho | ho | ho <;> cases ho
    match stage, h3, h with
    | 0, _, h => exact hout _ h
    | 1, _, h => exact hout _ h
    | 2, _, h => exact hout _ h
    | n + 3, h3, _ => exact h3 (Nat.le_add_left 3 n)
  · intro h3
    rw [key σ hal s h3] at h
    simp only [Option.some.injEq, Prod.mk.injEq] at h
    exact h.1.symm

/-- Witness of C12: stage 3 over a counting simulated transport, with no fuel
at all: `Invalid`, record and state unchanged, no call counted. -/
theorem finger_enrollStage_invalid_witness :
    finger_enrollStage (simHal 1).counting 0 3 ⟨1, 2, 3⟩ (⟨0, []⟩, 0)
      = some (FINGER_ERROR_INVALID, ⟨1, 2, 3⟩, (⟨0, []⟩, 0)) :=
  (finger_enrollStage_invalid (simHal 1) 0 3 ⟨1, 2, 3⟩ ⟨0, []⟩).2.2.1 0 (by decide)

/-! ## The device error field -/

/-- C14 (evaluation of the code): the well-formed NACK frame
`55 AA 01 00 13 10 01 00 31 00 55 01` is answered with `Nack`, and the device
error field then holds `0x1013`, which is none of the device error codes of
`finger.h`. -/
theorem finger_parseResponse_nack_unknown_code :
    finger_parseResponse
        [0x55, 0xAA, 0x01, 0x00, 0x13, 0x10, 0x01, 0x00, 0x31, 0x00, 0x55, 0x01] ⟨0, 0, 0⟩
      = (FINGER_ERROR_NACK, ⟨0x11013, 0x31, 0x1013⟩)
    ∧ 0x1013 ∉ FINGER_ERRCODES := by
  decide

/-- C15: when `finger_parseResponse` returns a code other than `Nack`, the
device error field of the record is as it was before the call; and when the
raw exchange returns `Timeout`, the whole record is as it was before. -/
theorem finger_resp_error_only_on_nack :
    (∀ (buff : Buffer) (resp : finger_resp_t), IsPacketBuffer buff →
        (finger_parseResponse buff resp).1 ≠ FINGER_ERROR_NACK →
        (finger_parseResponse buff resp).2.error = resp.error)
    ∧ (∀ (σ : Type) (hal : FingerHal σ) (fuel cmd param : Nat) (resp resp1 : finger_resp_t)
        (s s1 : σ),
        finger_sendCommandGetResponse hal fuel cmd param resp s
          = some (FINGER_ERROR_TIMEOUT, resp1, s1) →
        resp1 = resp) := by
  constructor
  · intro buff resp _ h
    exact finger_parseResponse_error_frame buff resp h
  · intro σ hal fuel cmd param resp resp1 s s1 h
    rcases finger_sendCommandGetResponse_cases hal fuel cmd param resp resp1 s s1 _ h with
      ⟨-, hr⟩ | ⟨buff1, hr, -⟩
    · exact hr
    · rcases finger_parseResponse_outcome buff1 resp with ho | ho | ho | ho <;>
        (rw [ho] at hr; cases hr)

/-- Witness of C15: a frame with a wrong checksum leaves the device error field
7 in place, and an exchange over a silent simulated transport, whose clock
advances by 100 ms at every reading, ends in `Timeout` with the record
`⟨5, 6, 7⟩` unchanged. -/
theorem finger_resp_error_only_on_nack_witness :
    (finger_parseResponse [0x55, 0xAA, 0x01, 0x00, 1, 2, 3, 4, 0x31, 0, 0, 0] ⟨5, 6, 7⟩).2.error
        = 7
    ∧ finger_sendCommandGetResponse (simHal 100) 40 0x01 0 ⟨5, 6, 7⟩ ⟨0, []⟩
        = some (FINGER_ERROR_TIMEOUT, ⟨5, 6, 7⟩, ⟨1100, []⟩) :=
  ⟨finger_resp_error_only_on_nack.1 [0x55, 0xAA, 0x01, 0x00, 1, 2, 3, 4, 0x31, 0, 0, 0]
      ⟨5, 6, 7⟩ (by decide) (by decide),
   by
    have h : finger_sendCommandGetResponse (simHal 100) 40 0x01 0 ⟨5, 6, 7⟩ ⟨0, []⟩
        = some (FINGER_ERROR_TIMEOUT, ⟨5, 6, 7⟩, ⟨1100, []⟩) := by decide
    have e := finger_resp_error_only_on_nack.2 SimState (simHal 100) 40 0x01 0 ⟨5, 6, 7⟩
      ⟨5, 6, 7⟩ ⟨0, []⟩ ⟨1100, []⟩ h
    exact e ▸ h⟩

/-- C16: a structurally valid, checksum-correct NACK frame whose little-endian
parameter is a documented device error code `E`, `0x1000 ≤ E ≤ 0x1012`, has a
zero byte 6; `finger_parseResponse` answers it with `None`, stores `E` as the
parameter and leaves the device error field as it was. -/
theorem finger_parseResponse_documented_code (buff : Buffer) (resp : finger_resp_t) (E : Nat)
    (hbuf : IsPacketBuffer buff) (hv : StructurallyValid buff) (hc : ChecksumCorrect buff)
    (h8 : buff.getD 8 0 = 0x31) (hE : 0x1000 ≤ E ∧ E ≤ 0x1012)
    (hp : buff.getD 4 0 + 2 ^ 8 * buff.getD 5 0 + 2 ^ 16 * buff.getD 6 0
            + 2 ^ 24 * buff.getD 7 0 = E) :
    buff.getD 6 0 = 0
    ∧ (finger_parseResponse buff resp).1 = FINGER_ERROR_NONE
    ∧ (finger_parseResponse buff resp).2.param = E
    ∧ (finger_parseResponse buff resp).2.error = resp.error := by
  rw [finger_parseResponse_valid buff resp hbuf.1 hv, if_neg (not_not.mpr hc)]
  obtain ⟨b0, b1, b2, b3, b4, b5, b6, b7, b8, b9, b10, b11, rest, rfl, -, -, -, -, h4, h5, h6,
    h7, -, -, -, -⟩ := packetBuffer_cells buff hbuf
  simp only [List.getD_cons_zero, List.getD_cons_succ] at h8 hp ⊢
  have h6z : b6 = 0 := by omega
  have h5n : b5 ≠ 0 := by omega
  rw [if_pos ⟨h8, h5n⟩, if_pos h6z]
  refine ⟨h6z, rfl, ?_, rfl⟩
  show (b4 + 2 ^ 8 * b5 + 2 ^ 16 * b6 + 2 ^ 24 * b7) % 2 ^ 32 = E
  omega

/-- Witness of C16: the NACK frame `55 AA 01 00 12 10 00 00 31 00 53 01`, whose
parameter is FingerIsNotPressed (`0x1012`). -/
theorem finger_parseResponse_documented_code_witness :
    [0x55, 0xAA, 0x01, 0x00, 0x12, 0x10, 0x00, 0x00, 0x31, 0x00, 0x53, 0x01].getD 6 0 = 0
    ∧ (finger_parseResponse
        [0x55, 0xAA, 0x01, 0x00, 0x12, 0x10, 0x00, 0x00, 0x31, 0x00, 0x53, 0x01] ⟨0, 0, 9⟩).1
        = FINGER_ERROR_NONE
    ∧ (finger_parseResponse
        [0x55, 0xAA, 0x01, 0x00, 0x12, 0x10, 0x00, 0x00, 0x31, 0x00, 0x53, 0x01] ⟨0, 0, 9⟩).2.param
        = 0x1012
    ∧ (finger_parseResponse
        [0x55, 0xAA, 0x01, 0x00, 0x12, 0x10, 0x00, 0x00, 0x31, 0x00, 0x53, 0x01] ⟨0, 0, 9⟩).2.error
        = (⟨0, 0, 9⟩ : finger_resp_t).error :=
  finger_parseResponse_documented_code
    [0x55, 0xAA, 0x01, 0x00, 0x12, 0x10, 0x00, 0x00, 0x31, 0x00, 0x53, 0x01] ⟨0, 0, 9⟩ 0x1012
    (by decide) (by decide) (by decide) (by decide) (by decide) (by decide)

/-- C17 (counterexample): on the NACK frame
`55 AA 01 00 12 10 01 00 31 00 54 01` the answer is `Nack`, the parameter
stored is `0x11012` and the device error field is `0x1012`: the two differ. -/
theorem finger_parseResponse_nack_error_ne_param :
    (finger_parseResponse
        [0x55, 0xAA, 0x01, 0x00, 0x12, 0x10, 0x01, 0x00, 0x31, 0x00, 0x54, 0x01] ⟨0, 0, 0⟩).1
        = FINGER_ERROR_NACK
    ∧ (finger_parseResponse
        [0x55, 0xAA, 0x01, 0x00, 0x12, 0x10, 0x01, 0x00, 0x31, 0x00, 0x54, 0x01] ⟨0, 0, 0⟩).2.param
        = 0x12 + 2 ^ 8 * 0x10 + 2 ^ 16 * 0x01 + 2 ^ 24 * 0x00
    ∧ (finger_parseResponse
        [0x55, 0xAA, 0x01, 0x00, 0x12, 0x10, 0x01, 0x00, 0x31, 0x00, 0x54, 0x01] ⟨0, 0, 0⟩).2.error
        ≠ (finger_parseResponse
        [0x55, 0xAA, 0x01, 0x00, 0x12, 0x10, 0x01, 0x00, 0x31, 0x00, 0x54, 0x01]
          ⟨0, 0, 0⟩).2.param := by
  decide

/-- C17 (amended): whenever `finger_parseResponse` returns `Nack`, the
parameter stored is the little-endian value of the bytes 4 to 7 and the device
error field is that parameter reduced to the 16 bits of the field, which is
`byte4 + 2^8 * byte5`. -/
theorem finger_parseResponse_nack_error_low16 (buff : Buffer) (resp : finger_resp_t)
    (hbuf : IsPacketBuffer buff)
    (h : (finger_parseResponse buff resp).1 = FINGER_ERROR_NACK) :
    (finger_parseResponse buff resp).2.param
        = buff.getD 4 0 + 2 ^ 8 * buff.getD 5 0 + 2 ^ 16 * buff.getD 6 0 + 2 ^ 24 * buff.getD 7 0
    ∧ (finger_parseResponse buff resp).2.error = (finger_parseResponse buff resp).2.param % 2 ^ 16
    ∧ (finger_parseResponse buff resp).2.error = buff.getD 4 0 + 2 ^ 8 * buff.getD 5 0 := by
  obtain ⟨-, -, -, -, -, -, hparam, herror⟩ := finger_parseResponse_nack_record buff resp h
  rw [herror, hparam]
  obtain ⟨b0, b1, b2, b3, b4, b5, b6, b7, b8, b9, b10, b11, rest, rfl, -, -, -, -, h4, h5, h6,
    h7, -, -, -, -⟩ := packetBuffer_cells buff hbuf
  simp only [List.getD_cons_zero, List.getD_cons_succ]
  refine ⟨?_, trivial, ?_⟩ <;> omega

/-- Witness of the amended C17: the NACK frame
`55 AA 01 00 12 10 01 00 31 00 54 01`. -/
theorem finger_parseResponse_nack_error_low16_witness :
    (finger_parseResponse
        [0x55, 0xAA, 0x01, 0x00, 0x12, 0x10, 0x01, 0x00, 0x31, 0x00, 0x54, 0x01] ⟨0, 0, 0⟩).2.error
      = [0x55, 0xAA, 0x01, 0x00, 0x12, 0x10, 0x01, 0x00, 0x31, 0x00, 0x54, 0x01].getD 4 0
        + 2 ^ 8 * [0x55, 0xAA, 0x01, 0x00, 0x12, 0x10, 0x01, 0x00, 0x31, 0x00, 0x54, 0x01].getD 5 0 :=
  (finger_parseResponse_nack_error_low16
    [0x55, 0xAA, 0x01, 0x00, 0x12, 0x10, 0x01, 0x00, 0x31, 0x00, 0x54, 0x01] ⟨0, 0, 0⟩
    (by decide) (by decide)).2.2

/-! ## Image capture -/

/-- C18: `finger_captureFinger` returns `BadFinger` exactly when its raw
exchange ends in `Nack` with the device error field equal to BadFinger
(`0x100C`); a raw `None` with a nonzero parameter is returned as `NoFinger`
and a raw `None` with a zero parameter as `None`. -/
theorem finger_captureFinger_badfinger {σ : Type} (hal : FingerHal σ) (fuel : Nat) (hq : Int)
    (resp resp1 : finger_resp_t) (s s1 : σ) (r : finger_err_t)
    (hraw : finger_sendCommandGetResponse hal fuel 0x60 (if hq ≠ 0 then 1 else 0) resp s
      = some (r, resp1, s1)) :
    (finger_captureFinger hal fuel hq resp s = some (FINGER_ERROR_BADFINGER, resp1, s1)
        ↔ r = FINGER_ERROR_NACK ∧ resp1.error = 0x100C)
    ∧ (r = FINGER_ERROR_NONE → resp1.param ≠ 0 →
        finger_captureFinger hal fuel hq resp s = some (FINGER_ERROR_NOFINGER, resp1, s1))
    ∧ (r = FINGER_ERROR_NONE → resp1.param = 0 →
        finger_captureFinger hal fuel hq resp s = some (FINGER_ERROR_NONE, resp1, s1)) := by
  have hout := finger_sendCommandGetResponse_outcome hal fuel 0x60 (if hq ≠ 0 then 1 else 0)
    resp resp1 s s1 r hraw
  rw [finger_captureFinger_of_raw hal fuel hq resp resp1 s s1 r hraw]
  simp only [FINGER_ERRCODE_FINGER_IS_NOT_PRESSED, FINGER_ERRCODE_BAD_FINGER]
  refine ⟨⟨?_, ?_⟩, ?_, ?_⟩
  · intro h
    split_ifs at h with h1 h2
    · simp only [Option.some.injEq, Prod.mk.injEq] at h
      cases h.1
    · rcases h2 with h2 | h2
      · exact absurd (Or.inl h2) h1
      · exact h2
    · simp only [Option.some.injEq, Prod.mk.injEq] at h
      rw [h.1] at hout
      rcases hout with ho | ho | ho | ho | ho <;> cases ho
  · rintro ⟨hr, he⟩
    subst hr
    have h1 : ¬ ((FINGER_ERROR_NACK = FINGER_ERROR_NONE ∧ resp1.param ≠ 0)
        ∨ (FINGER_ERROR_NACK = FINGER_ERROR_NACK ∧ resp1.error = 0x1012)) := by
      rintro (⟨hx, -⟩ | ⟨-, hx⟩)
      · cases hx
      · omega
    rw [if_neg h1, if_pos (Or.inr ⟨rfl, he⟩)]
  · intro hr hp
    rw [if_pos (Or.inl ⟨hr, hp⟩)]
  · intro hr hp
    subst hr
    have h1 : ¬ ((FINGER_ERROR_NONE = FINGER_ERROR_NONE ∧ resp1.param ≠ 0)
        ∨ (FINGER_ERROR_NONE = FINGER_ERROR_NACK ∧ resp1.error = 0x1012)) := by
      rintro (⟨-, hx⟩ | ⟨hx, -⟩)
      · exact hx hp
      · cases hx
    have h2 : ¬ ((FINGER_ERROR_NONE = FINGER_ERROR_NONE ∧ resp1.param ≠ 0)
        ∨ (FINGER_ERROR_NONE = FINGER_ERROR_NACK ∧ resp1.error = 0x100C)) := by
      rintro (⟨-, hx⟩ | ⟨hx, -⟩)
      · exact hx hp
      · cases hx
    rw [if_neg h1, if_neg h2]

/-- Witness of C18: the capture over the simulated transport, with the device
answering the NACK frame `55 AA 01 00 0C 10 01 00 31 00 4E 01`, which
`finger_parseResponse` turns into `Nack` with device error field `0x100C`, and
with the device answering an ACK frame of parameter 1. -/
theorem finger_captureFinger_badfinger_witness :
    finger_captureFinger (simHal 1) 40 1 ⟨0, 0, 0⟩
        ⟨0, [0x55, 0xAA, 0x01, 0x00, 0x0C, 0x10, 0x01, 0x00, 0x31, 0x00, 0x4E, 0x01]⟩
      = some (FINGER_ERROR_BADFINGER, ⟨0x1100C, 0x31, 0x100C⟩, ⟨13, []⟩)
    ∧ finger_captureFinger (simHal 1) 40 0 ⟨0, 0, 0⟩
        ⟨0, [0x55, 0xAA, 0x01, 0x00, 0x01, 0x00, 0x00, 0x00, 0x30, 0x00, 0x31, 0x01]⟩
      = some (FINGER_ERROR_NOFINGER, ⟨1, 0x30, 0⟩, ⟨13, []⟩) :=
  ⟨(finger_captureFinger_badfinger (simHal 1) 40 1 ⟨0, 0, 0⟩ ⟨0x1100C, 0x31, 0x100C⟩
      ⟨0, [0x55, 0xAA, 0x01, 0x00, 0x0C, 0x10, 0x01, 0x00, 0x31, 0x00, 0x4E, 0x01]⟩ ⟨13, []⟩
      FINGER_ERROR_NACK (by decide)).1.mpr (by decide),
   (finger_captureFinger_badfinger (simHal 1) 40 0 ⟨0, 0, 0⟩ ⟨1, 0x30, 0⟩
      ⟨0, [0x55, 0xAA, 0x01, 0x00, 0x01, 0x00, 0x00, 0x00, 0x30, 0x00, 0x31, 0x01]⟩ ⟨13, []⟩
      FINGER_ERROR_NONE (by decide)).2.1 rfl (by decide)⟩

/-! ## Construction against validation -/

/-- The frame `finger_makePacket` builds is checksum-correct. -/
theorem finger_makePacket_checksumCorrect (buff : Buffer) (cmd param : Nat)
    (hlen : FINGER_PKT_LEN ≤ buff.length) :
    ChecksumCorrect (finger_makePacket buff cmd param) := by
  obtain ⟨b0, b1, b2, b3, b4, b5, b6, b7, b8, b9, b10, b11, rest, rfl⟩ := buffer_cells buff hlen
  rw [makePacket_cells]
  unfold ChecksumCorrect
  rw [wireChecksum_cells]
  simp only [List.getD_cons_zero, List.getD_cons_succ]
  have h0 := Nat.mod_lt param (show 0 < 256 by decide)
  have h1 := Nat.mod_lt (param / 2 ^ 8) (show 0 < 256 by decide)
  have h2 := Nat.mod_lt (param / 2 ^ 16) (show 0 < 256 by decide)
  have h3 := Nat.mod_lt (param / 2 ^ 24) (show 0 < 256 by decide)
  have h4 := Nat.mod_lt cmd (show 0 < 256 by decide)
  have h5 := Nat.mod_lt (cmd / 2 ^ 8) (show 0 < 256 by decide)
  generalize param % 256 = p0 at *
  generalize param / 2 ^ 8 % 256 = p1 at *
  generalize param / 2 ^ 16 % 256 = p2 at *
  generalize param / 2 ^ 24 % 256 = p3 at *
  generalize cmd % 256 = c0 at *
  generalize cmd / 2 ^ 8 % 256 = c1 at *
  constructor <;> omega

/-- C20: parsing the frame that `finger_makePacket` builds for the code `0x30`
and a 32-bit parameter `P` returns `None` with the parameter `P` and the
status word `0x0030` in the record; and parsing the frame built for any command
code and parameter never returns `Checksum`. -/
theorem finger_makePacket_parse_roundtrip (buff : Buffer) (resp : finger_resp_t)
    (hlen : FINGER_PKT_LEN ≤ buff.length) :
    (∀ P : Nat, P < 2 ^ 32 →
        finger_parseResponse (finger_makePacket buff 0x30 P) resp
          = (FINGER_ERROR_NONE, { resp with param := P, resp := 0x0030 }))
    ∧ (∀ cmd P : Nat,
        (finger_parseResponse (finger_makePacket buff cmd P) resp).1 ≠ FINGER_ERROR_CHECKSUM) := by
  have hlen1 : ∀ cmd P, FINGER_PKT_LEN ≤ (finger_makePacket buff cmd P).length := by
    intro cmd P
    rw [finger_makePacket_length]
    exact hlen
  constructor
  · intro P hP
    have hc := finger_makePacket_checksumCorrect buff 0x30 P hlen
    have hl := hlen1 0x30 P
    obtain ⟨b0, b1, b2, b3, b4, b5, b6, b7, b8, b9, b10, b11, rest, rfl⟩ := buffer_cells buff hlen
    rw [makePacket_cells] at hc hl ⊢
    have hv : StructurallyValid (0x55 :: 0xAA :: 0x01 :: 0x00 :: P % 256 :: P / 2 ^ 8 % 256
        :: P / 2 ^ 16 % 256 :: P / 2 ^ 24 % 256 :: 0x30 % 256 :: 0x30 / 2 ^ 8 % 256
        :: (0x55 + 0xAA + 0x01 + 0x00 + P % 256 + P / 2 ^ 8 % 256 + P / 2 ^ 16 % 256
              + P / 2 ^ 24 % 256 + 0x30 % 256 + 0x30 / 2 ^ 8 % 256) % 256
        :: (0x55 + 0xAA + 0x01 + 0x00 + P % 256 + P / 2 ^ 8 % 256 + P / 2 ^ 16 % 256
              + P / 2 ^ 24 % 256 + 0x30 % 256 + 0x30 / 2 ^ 8 % 256) / 256
        :: rest) := by
      unfold StructurallyValid
      simp only [List.getD_cons_zero, List.getD_cons_succ]
      decide
    rw [finger_parseResponse_valid _ resp hl hv, if_neg (not_not.mpr hc)]
    simp only [List.getD_cons_zero, List.getD_cons_succ]
    have hn : ¬ (0x30 % 256 = 0x31 ∧ P / 2 ^ 8 % 256 ≠ 0) := by omega
    rw [if_neg hn]
    have e1 : (P % 256 + 2 ^ 8 * (P / 2 ^ 8 % 256) + 2 ^ 16 * (P / 2 ^ 16 % 256)
        + 2 ^ 24 * (P / 2 ^ 24 % 256)) % 2 ^ 32 = P := by omega
    rw [e1]
    rfl
  · intro cmd P
    have hc := finger_makePacket_checksumCorrect buff cmd P hlen
    by_cases hv : StructurallyValid (finger_makePacket buff cmd P)
    · rw [finger_parseResponse_valid _ resp (hlen1 cmd P) hv, if_neg (not_not.mpr hc)]
      split_ifs <;> exact fun h => by cases h
    · rw [finger_parseResponse_of_malformed _ resp (not_structurallyValid _ hv)]
      exact fun h => by cases h

/-- Witness of C20: the frame built for the code `0x30` and the parameter
`0x12345678` on a 12-cell buffer parses to `None` with that parameter. -/
theorem finger_makePacket_parse_roundtrip_witness :
    finger_parseResponse (finger_makePacket (List.replicate 12 0) 0x30 0x12345678) ⟨0, 0, 0⟩
      = (FINGER_ERROR_NONE, ⟨0x12345678, 0x0030, 0⟩) :=
  (finger_makePacket_parse_roundtrip (List.replicate 12 0) ⟨0, 0, 0⟩ (by decide)).1
    0x12345678 (by decide)

/-! ## The wait loops over the transport of clock and byte queue -/

theorem finger_elapsed_eq_sub {σ : Type} (hal : FingerHal σ) (t sw : Nat) (h1 : sw ≤ t)
    (h2 : t < 2 ^ hal.ulongBits) : finger_elapsed hal t sw = t - sw := by
  unfold finger_elapsed
  have e1 : t % 2 ^ hal.ulongBits = t := Nat.mod_eq_of_lt h2
  have e2 : sw % 2 ^ hal.ulongBits = sw := Nat.mod_eq_of_lt (Nat.lt_of_le_of_lt h1 h2)
  have e3 : t + 2 ^ hal.ulongBits - sw = (t - sw) + 2 ^ hal.ulongBits := by omega
  rw [e1, e2, e3, Nat.add_mod_right]
  exact Nat.mod_eq_of_lt (by omega)

theorem wireHal_elapsed (bits : Nat) (hbits : 32 ≤ bits) (clock : Nat → Nat)
    (ready : Nat → Bool) (t sw : Nat) (h1 : sw ≤ t) (h2 : t < 2 ^ bits) :
    finger_elapsed (wireHal bits hbits clock ready) t sw = t - sw :=
  finger_elapsed_eq_sub (wireHal bits hbits clock ready) t sw h1 h2

theorem wireByte_neg_one : wireByte (-1) ≠ 0x55 := by decide

/-- One iteration of the first loop that finds the time budget used up. -/
theorem wire_sync_timeout (bits : Nat) (hbits : 32 ≤ bits) (clock : Nat → Nat)
    (ready : Nat → Bool) (sw fuel first : Nat) (s : WireState)
    (h : ¬ finger_elapsed (wireHal bits hbits clock ready) (clock s.reads) sw
          < FINGER_RESPONSE_TIMEOUT) :
    finger_getResponse_sync (wireHal bits hbits clock ready) sw (fuel + 1) first s
      = some (0, first, ⟨s.reads + 1, s.rx⟩) := by
  show (if finger_elapsed (wireHal bits hbits clock ready) (clock s.reads) sw
          < FINGER_RESPONSE_TIMEOUT then _ else _) = _
  rw [if_neg h]
  rfl

/-- One iteration of the first loop that finds no byte available. -/
theorem wire_sync_idle (bits : Nat) (hbits : 32 ≤ bits) (clock : Nat → Nat)
    (ready : Nat → Bool) (sw fuel first : Nat) (s : WireState)
    (h : finger_elapsed (wireHal bits hbits clock ready) (clock s.reads) sw
          < FINGER_RESPONSE_TIMEOUT)
    (ha : ¬ (if ready (s.reads + 1) then min s.rx.length 255 else 0) % 256 > 0) :
    finger_getResponse_sync (wireHal bits hbits clock ready) sw (fuel + 1) first s
      = finger_getResponse_sync (wireHal bits hbits clock ready) sw fuel first
          ⟨s.reads + 1, s.rx⟩ := by
  show (if finger_elapsed (wireHal bits hbits clock ready) (clock s.reads) sw
          < FINGER_RESPONSE_TIMEOUT then
          (if (if ready (s.reads + 1) then min s.rx.length 255 else 0) % 256 > 0 then _ else _)
        else _) = _
  rw [if_pos h, if_neg ha]
  rfl

/-- One iteration of the first loop that reads the byte `b`. -/
theorem wire_sync_read (bits : Nat) (hbits : 32 ≤ bits) (clock : Nat → Nat)
    (ready : Nat → Bool) (sw fuel first r : Nat) (b : Int) (rest : List Int)
    (h : finger_elapsed (wireHal bits hbits clock ready) (clock r) sw
          < FINGER_RESPONSE_TIMEOUT)
    (ha : (if ready (r + 1) then min (b :: rest).length 255 else 0) % 256 > 0) :
    finger_getResponse_sync (wireHal bits hbits clock ready) sw (fuel + 1) first ⟨r, b :: rest⟩
      = if wireByte b = FINGER_CMD_START_CODE_1 then some (1, wireByte b, ⟨r + 1, rest⟩)
        else finger_getResponse_sync (wireHal bits hbits clock ready) sw fuel (wireByte b)
          ⟨r + 1, rest⟩ := by
  show (if finger_elapsed (wireHal bits hbits clock ready) (clock r) sw
          < FINGER_RESPONSE_TIMEOUT then
          (if (if ready (r + 1) then min (b :: rest).length 255 else 0) % 256 > 0 then _ else _)
        else _) = _
  rw [if_pos h, if_pos ha]
  rfl

/-- The receiver, once the first loop has given up. -/
theorem finger_getResponse_of_sync_timeout {σ : Type} (hal : FingerHal σ) (fuel : Nat)
    (buff : Buffer) (s s1 : σ) (first : Nat)
    (h : finger_getResponse_sync hal ((hal.millis s).1 % 2 ^ hal.ulongBits) fuel 0
        (hal.millis s).2 = some (0, first, s1)) :
    finger_getResponse hal fuel buff s = some (0, buff, s1) := by
  unfold finger_getResponse
  simp only [h]
  rfl

/-- The exchange, once the receiver has given up. -/
theorem finger_sendCommandGetResponse_of_timeout {σ : Type} (hal : FingerHal σ) (fuel : Nat)
    (cmd param : Nat) (resp : finger_resp_t) (s s2 : σ) (buff1 : Buffer)
    (h : finger_getResponse hal fuel
        (finger_makePacket (List.replicate FINGER_BUFF_LEN 0) cmd param)
        (hal.sendPacket (finger_makePacket (List.replicate FINGER_BUFF_LEN 0) cmd param)
          FINGER_PKT_LEN s) = some (0, buff1, s2)) :
    finger_sendCommandGetResponse hal fuel cmd param resp s
      = some (FINGER_ERROR_TIMEOUT, resp, s2) := by
  unfold finger_sendCommandGetResponse
  simp only [h]
  rfl

/-- The first loop over a queue without sync byte: it runs until the first
clock reading that shows the budget used up, and then gives up. -/
theorem wire_sync_without_sync (bits : Nat) (hbits : 32 ≤ bits) (clock : Nat → Nat)
    (ready : Nat → Bool) (sw : Nat) (d : Nat) :
    ∀ (s : WireState) (first : Nat),
      (∀ v ∈ s.rx, wireByte v ≠ 0x55) →
      (∀ k, s.reads ≤ k → k < s.reads + d →
        finger_elapsed (wireHal bits hbits clock ready) (clock k) sw < FINGER_RESPONSE_TIMEOUT) →
      ¬ finger_elapsed (wireHal bits hbits clock ready) (clock (s.reads + d)) sw
          < FINGER_RESPONSE_TIMEOUT →
      ∃ first1 rx1, ∀ fuel, d + 1 ≤ fuel →
        finger_getResponse_sync (wireHal bits hbits clock ready) sw fuel first s
          = some (0, first1, ⟨s.reads + d + 1, rx1⟩) := by
  induction d with
  | zero =>
    intro s first _ _ hge
    refine ⟨first, s.rx, ?_⟩
    intro fuel hf
    obtain ⟨f, rfl⟩ : ∃ f, fuel = f + 1 := ⟨fuel - 1, by omega⟩
    exact wire_sync_timeout bits hbits clock ready sw f first s hge
  | succ d ih =>
    intro s first hns hlt hge
    obtain ⟨r, rx⟩ := s
    dsimp only at hns hlt hge ⊢
    have h0 : finger_elapsed (wireHal bits hbits clock ready) (clock r) sw
        < FINGER_RESPONSE_TIMEOUT := hlt r (Nat.le_refl r) (by omega)
    have hlt1 : ∀ k, r + 1 ≤ k → k < r + 1 + d →
        finger_elapsed (wireHal bits hbits clock ready) (clock k) sw
          < FINGER_RESPONSE_TIMEOUT := fun k h1 h2 => hlt k (by omega) (by omega)
    have e : r + (d + 1) = r + 1 + d := by omega
    have hge1 : ¬ finger_elapsed (wireHal bits hbits clock ready) (clock (r + 1 + d)) sw
        < FINGER_RESPONSE_TIMEOUT := by
      rw [← e]
      exact hge
    by_cases ha : (if ready (r + 1) then min rx.length 255 else 0) % 256 > 0
    · cases rx with
      | nil =>
        exfalso
        have : (if ready (r + 1) then min ([] : List Int).length 255 else 0) % 256 = 0 := by
          split_ifs <;> rfl
        omega
      | cons b rest =>
        have hb : ¬ wireByte b = FINGER_CMD_START_CODE_1 := hns b (List.mem_cons_self b rest)
        obtain ⟨first1, rx1, hrun⟩ := ih ⟨r + 1, rest⟩ (wireByte b)
          (fun v hv => hns v (List.mem_cons_of_mem b hv)) hlt1 hge1
        refine ⟨first1, rx1, ?_⟩
        intro fuel hf
        obtain ⟨f, rfl⟩ : ∃ f, fuel = f + 1 := ⟨fuel - 1, by omega⟩
        rw [wire_sync_read bits hbits clock ready sw f first r b rest h0 ha, if_neg hb,
          hrun f (by omega)]
        simp only [e]
    · obtain ⟨first1, rx1, hrun⟩ := ih ⟨r + 1, rx⟩ first hns hlt1 hge1
      refine ⟨first1, rx1, ?_⟩
      intro fuel hf
      obtain ⟨f, rfl⟩ : ∃ f, fuel = f + 1 := ⟨fuel - 1, by omega⟩
      rw [wire_sync_idle bits hbits clock ready sw f first ⟨r, rx⟩ h0 ha, hrun f (by omega)]
      simp only [e]

/-- C13: over the transport of clock and byte queue, with a monotone clock
that reaches `start + 1000` and a queue that holds no byte equal to `0x55`,
`finger_getResponse` returns 0 and `finger_sendCommandGetResponse` returns
`Timeout` (record unchanged) for every fuel from `K - reads` on, where `K` is
the number of the first clock reading with `clock K ≥ start + 1000`: that
reading is the last one taken, and every earlier one is below `start + 1000`. -/
theorem wire_timeout_without_sync (bits : Nat) (hbits : 32 ≤ bits) (clock : Nat → Nat)
    (ready : Nat → Bool) (buff : Buffer) (cmd param : Nat) (resp : finger_resp_t)
    (s : WireState)
    (hns : ∀ v ∈ s.rx, wireByte v ≠ 0x55)
    (hmono : Monotone clock) (hrange : ∀ k, clock k < 2 ^ bits)
    (hreach : ∃ K, clock s.reads + 1000 ≤ clock K) :
    ∃ K rx1, s.reads < K ∧ clock s.reads + 1000 ≤ clock K
      ∧ (∀ j, j < K → clock j < clock s.reads + 1000)
      ∧ ∀ fuel, K - s.reads ≤ fuel →
          finger_getResponse (wireHal bits hbits clock ready) fuel buff s
            = some (0, buff, ⟨K + 1, rx1⟩)
          ∧ finger_sendCommandGetResponse (wireHal bits hbits clock ready) fuel cmd param resp s
            = some (FINGER_ERROR_TIMEOUT, resp, ⟨K + 1, rx1⟩) := by
  obtain ⟨r, rx⟩ := s
  dsimp only at hns hreach ⊢
  have hK : clock r + 1000 ≤ clock (Nat.find hreach) := Nat.find_spec hreach
  have hmin : ∀ j, j < Nat.find hreach → clock j < clock r + 1000 := by
    intro j hj
    have := Nat.find_min hreach hj
    simpa using this
  generalize Nat.find hreach = K at hK hmin
  have hrK : r < K := by
    by_contra hle
    have := hmono (Nat.le_of_not_lt hle)
    omega
  have hsw : clock r % 2 ^ bits = clock r := Nat.mod_eq_of_lt (hrange r)
  have hel : ∀ k, r ≤ k →
      finger_elapsed (wireHal bits hbits clock ready) (clock k) (clock r) = clock k - clock r :=
    fun k hk => wireHal_elapsed bits hbits clock ready (clock k) (clock r) (hmono hk) (hrange k)
  obtain ⟨d, rfl⟩ : ∃ d, K = r + 1 + d := ⟨K - (r + 1), by omega⟩
  obtain ⟨first1, rx1, hrun⟩ := wire_sync_without_sync bits hbits clock ready (clock r) d
    ⟨r + 1, rx⟩ 0 hns
    (by
      intro k h1 h2
      dsimp only at h1 h2
      rw [hel k (by omega)]
      have := hmin k h2
      simp only [FINGER_RESPONSE_TIMEOUT]
      omega)
    (by
      dsimp only
      rw [hel (r + 1 + d) (by omega)]
      simp only [FINGER_RESPONSE_TIMEOUT]
      omega)
  refine ⟨r + 1 + d, rx1, hrK, hK, hmin, ?_⟩
  intro fuel hf
  have hsync : finger_getResponse_sync (wireHal bits hbits clock ready)
      (((wireHal bits hbits clock ready).millis ⟨r, rx⟩).1
        % 2 ^ (wireHal bits hbits clock ready).ulongBits) fuel 0
      ((wireHal bits hbits clock ready).millis ⟨r, rx⟩).2
      = some (0, first1, ⟨r + 1 + d + 1, rx1⟩) := by
    show finger_getResponse_sync (wireHal bits hbits clock ready) (clock r % 2 ^ bits) fuel 0
      ⟨r + 1, rx⟩ = _
    rw [hsw]
    exact hrun fuel (by omega)
  have hget : ∀ b : Buffer, finger_getResponse (wireHal bits hbits clock ready) fuel b ⟨r, rx⟩
      = some (0, b, ⟨r + 1 + d + 1, rx1⟩) :=
    fun b => finger_getResponse_of_sync_timeout _ fuel b (WireState.mk r rx) _ first1 hsync
  exact ⟨hget buff,
    finger_sendCommandGetResponse_of_timeout _ fuel cmd param resp (WireState.mk r rx) _ _
      (hget _)⟩

/-- Witness of C13: a clock that advances by 100 ms at every reading (and
stops at 2000), a queue of three bytes without sync byte; the exchange with
fuel 10 ends in `Timeout` after the reading number 10. -/
theorem wire_timeout_without_sync_witness :
    finger_sendCommandGetResponse
        (wireHal 32 (by decide) (fun k => min (100 * k) 2000) (fun _ => true)) 10 0x01 0
        ⟨0, 0, 0⟩ ⟨0, [1, 2, 3]⟩
      = some (FINGER_ERROR_TIMEOUT, ⟨0, 0, 0⟩, ⟨11, []⟩)
    ∧ ∃ K rx1, 0 < K ∧ min (100 * 0) 2000 + 1000 ≤ min (100 * K) 2000
      ∧ (∀ j, j < K → min (100 * j) 2000 < min (100 * 0) 2000 + 1000)
      ∧ ∀ fuel, K - 0 ≤ fuel →
          finger_getResponse
              (wireHal 32 (by decide) (fun k => min (100 * k) 2000) (fun _ => true)) fuel
              (List.replicate 12 0) ⟨0, [1, 2, 3]⟩
            = some (0, List.replicate 12 0, ⟨K + 1, rx1⟩)
          ∧ finger_sendCommandGetResponse
              (wireHal 32 (by decide) (fun k => min (100 * k) 2000) (fun _ => true)) fuel 0x01 0
              ⟨0, 0, 0⟩ ⟨0, [1, 2, 3]⟩
            = some (FINGER_ERROR_TIMEOUT, ⟨0, 0, 0⟩, ⟨K + 1, rx1⟩) :=
  ⟨by decide,
   wire_timeout_without_sync 32 (by decide) (fun k => min (100 * k) 2000) (fun _ => true)
     (List.replicate 12 0) 0x01 0 ⟨0, 0, 0⟩ ⟨0, [1, 2, 3]⟩ (by decide)
     (fun a b h => by
       show min (100 * a) 2000 ≤ min (100 * b) 2000
       omega)
     (fun k => by
       show min (100 * k) 2000 < 2 ^ 32
       have : (2 : Nat) ^ 32 = 4294967296 := by decide
       omega)
     ⟨10, by decide⟩⟩

/-- The first loop over a queue that holds `junk` without sync byte and then a
byte `f0` that is one, all within the time budget: the junk is read and
dropped, and the loop ends with `f0` in `first`. -/
theorem wire_sync_junk (bits : Nat) (hbits : 32 ≤ bits) (clock : Nat → Nat)
    (ready : Nat → Bool) (sw : Nat) (f0 : Int) (rem : List Int)
    (hf0 : wireByte f0 = 0x55) (hready : ∀ k, ready k = true) (junk : List Int) :
    ∀ (r first fuel : Nat),
      (∀ v ∈ junk, wireByte v ≠ 0x55) →
      (∀ k, r ≤ k → k ≤ r + junk.length →
        finger_elapsed (wireHal bits hbits clock ready) (clock k) sw < FINGER_RESPONSE_TIMEOUT) →
      junk.length + 1 ≤ fuel →
      finger_getResponse_sync (wireHal bits hbits clock ready) sw fuel first
          ⟨r, junk ++ f0 :: rem⟩
        = some (1, wireByte f0, ⟨r + junk.length + 1, rem⟩) := by
  induction junk with
  | nil =>
    intro r first fuel _ hT hf
    obtain ⟨f, rfl⟩ : ∃ f, fuel = f + 1 := ⟨fuel - 1, by omega⟩
    have ha : (if ready (r + 1) then min (f0 :: rem).length 255 else 0) % 256 > 0 := by
      rw [hready, if_pos rfl, List.length_cons]
      omega
    have hf1 : wireByte f0 = FINGER_CMD_START_CODE_1 := hf0
    rw [List.nil_append, wire_sync_read bits hbits clock ready sw f first r f0 rem
      (hT r (Nat.le_refl r) (by omega)) ha, if_pos hf1]
    rfl
  | cons j js ih =>
    intro r first fuel hj hT hf
    obtain ⟨f, rfl⟩ : ∃ f, fuel = f + 1 := ⟨fuel - 1, by omega⟩
    have hlen : (j :: js).length = js.length + 1 := List.length_cons j js
    have ha : (if ready (r + 1) then min (j :: (js ++ f0 :: rem)).length 255 else 0) % 256
        > 0 := by
      rw [hready, if_pos rfl, List.length_cons]
      omega
    have hjn : ¬ wireByte j = FINGER_CMD_START_CODE_1 := hj j (List.mem_cons_self j js)
    rw [List.cons_append, wire_sync_read bits hbits clock ready sw f first r j
      (js ++ f0 :: rem) (hT r (Nat.le_refl r) (by omega)) ha, if_neg hjn,
      ih (r + 1) (wireByte j) f (fun v hv => hj v (List.mem_cons_of_mem j hv))
        (fun k h1 h2 => hT k (by omega) (by omega)) (by omega)]
    have e : r + 1 + js.length + 1 = r + (j :: js).length + 1 := by omega
    rw [e]

/-- The second loop with the frame complete. -/
theorem wire_rest_done (bits : Nat) (hbits : 32 ≤ bits) (clock : Nat → Nat)
    (ready : Nat → Bool) (sw fuel i : Nat) (buff : Buffer) (s : WireState)
    (h : ¬ i < FINGER_PKT_LEN) :
    finger_getResponse_rest (wireHal bits hbits clock ready) sw (fuel + 1) i buff s
      = some (i, buff, s) := by
  show (if i < FINGER_PKT_LEN then _ else _) = _
  rw [if_neg h]

/-- One iteration of the second loop that reads the byte `b`. -/
theorem wire_rest_read (bits : Nat) (hbits : 32 ≤ bits) (clock : Nat → Nat)
    (ready : Nat → Bool) (sw fuel i r : Nat) (buff : Buffer) (b : Int) (rest : List Int)
    (hi : i < FINGER_PKT_LEN)
    (h : finger_elapsed (wireHal bits hbits clock ready) (clock r) sw
          < FINGER_RESPONSE_TIMEOUT)
    (ha : (if ready (r + 1) then min (b :: rest).length 255 else 0) % 256 > 0) :
    finger_getResponse_rest (wireHal bits hbits clock ready) sw (fuel + 1) i buff
        ⟨r, b :: rest⟩
      = finger_getResponse_rest (wireHal bits hbits clock ready) sw fuel (i + 1)
          (buff.set i (wireByte b)) ⟨r + 1, rest⟩ := by
  show (if i < FINGER_PKT_LEN then
          (if finger_elapsed (wireHal bits hbits clock ready) (clock r) sw
              < FINGER_RESPONSE_TIMEOUT then
            (if (if ready (r + 1) then min (b :: rest).length 255 else 0) % 256 > 0 then _
              else _)
          else _)
        else _) = _
  rw [if_pos hi, if_pos h, if_pos ha]
  rfl

theorem set_append_cons (pre : List Nat) (m x : Nat) (rest : List Nat) :
    (pre ++ m :: rest).set pre.length x = pre ++ x :: rest := by
  induction pre with
  | nil => rfl
  | cons p ps ih =>
    rw [List.cons_append, List.length_cons, List.set_cons_succ, ih, List.cons_append]

/-- The second loop over a queue that holds the remaining bytes of the frame,
all within the time budget: the bytes are stored from cell `i` on. -/
theorem wire_rest_bytes (bits : Nat) (hbits : 32 ≤ bits) (clock : Nat → Nat)
    (ready : Nat → Bool) (sw : Nat) (tail : List Int) (post : List Nat)
    (hready : ∀ k, ready k = true) (bytes : List Int) :
    ∀ (pre mid : List Nat) (r fuel : Nat),
      mid.length = bytes.length →
      pre.length + bytes.length = FINGER_PKT_LEN →
      (∀ k, r ≤ k → k < r + bytes.length →
        finger_elapsed (wireHal bits hbits clock ready) (clock k) sw < FINGER_RESPONSE_TIMEOUT) →
      bytes.length + 1 ≤ fuel →
      finger_getResponse_rest (wireHal bits hbits clock ready) sw fuel pre.length
          (pre ++ mid ++ post) ⟨r, bytes ++ tail⟩
        = some (FINGER_PKT_LEN, pre ++ bytes.map wireByte ++ post,
            ⟨r + bytes.length, tail⟩) := by
  induction bytes with
  | nil =>
    intro pre mid r fuel hmid hpre _ hf
    obtain ⟨f, rfl⟩ : ∃ f, fuel = f + 1 := ⟨fuel - 1, by omega⟩
    have hm : mid = [] := List.length_eq_zero.mp hmid
    have hp : pre.length = FINGER_PKT_LEN := by simpa using hpre
    subst hm
    rw [wire_rest_done bits hbits clock ready sw f pre.length _ _ (by omega), hp]
    rfl
  | cons b bs ih =>
    intro pre mid r fuel hmid hpre hT hf
    obtain ⟨f, rfl⟩ : ∃ f, fuel = f + 1 := ⟨fuel - 1, by omega⟩
    have hlen : (b :: bs).length = bs.length + 1 := List.length_cons b bs
    obtain ⟨m, ms, rfl⟩ : ∃ m ms, mid = m :: ms := by
      cases mid with
      | nil => rw [hlen] at hmid; cases hmid
      | cons m ms => exact ⟨m, ms, rfl⟩
    have hms : ms.length = bs.length := by
      rw [List.length_cons, hlen] at hmid
      omega
    have ha : (if ready (r + 1) then min (b :: (bs ++ tail)).length 255 else 0) % 256 > 0 := by
      rw [hready, if_pos rfl, List.length_cons]
      omega
    have hset : (pre ++ (m :: ms) ++ post).set pre.length (wireByte b)
        = (pre ++ [wireByte b]) ++ ms ++ post := by
      rw [List.append_assoc, List.cons_append, set_append_cons]
      simp only [List.append_assoc, List.cons_append, List.nil_append]
    have hpl : (pre ++ [wireByte b]).length = pre.length + 1 := by
      rw [List.length_append]
      rfl
    rw [List.cons_append, wire_rest_read bits hbits clock ready sw f pre.length r _ b
      (bs ++ tail) (by omega) (hT r (Nat.le_refl r) (by omega)) ha, hset, ← hpl,
      ih (pre ++ [wireByte b]) ms (r + 1) f hms (by omega)
        (fun k h1 h2 => hT k (by omega) (by omega)) (by omega)]
    have e : r + 1 + bs.length = r + (b :: bs).length := by omega
    rw [e]
    simp only [List.map_cons, List.append_assoc, List.cons_append, List.nil_append]

/-- The receiver, once the first loop has found the sync byte and the second
loop has stored the other eleven bytes. -/
theorem finger_getResponse_of_loops {σ : Type} (hal : FingerHal σ) (fuel : Nat)
    (buff buff1 : Buffer) (s s1 s2 : σ) (first : Nat)
    (h1 : finger_getResponse_sync hal ((hal.millis s).1 % 2 ^ hal.ulongBits) fuel 0
        (hal.millis s).2 = some (1, first, s1))
    (h2 : finger_getResponse_rest hal ((hal.millis s).1 % 2 ^ hal.ulongBits) fuel 1
        (buff.set 0 first) s1 = some (FINGER_PKT_LEN, buff1, s2)) :
    finger_getResponse hal fuel buff s = some (1, buff1, s2) := by
  unfold finger_getResponse
  simp only [h1, h2]
  rfl

/-- The parser reads the first twelve cells only. -/
theorem finger_parseResponse_first_cells (frame rest : List Nat) (resp : finger_resp_t)
    (h : frame.length = FINGER_PKT_LEN) :
    finger_parseResponse (frame ++ rest) resp = finger_parseResponse frame resp := by
  obtain ⟨b0, b1, b2, b3, b4, b5, b6, b7, b8, b9, b10, b11, rest1, rfl⟩ :=
    buffer_cells frame (Nat.le_of_eq h.symm)
  simp only [finger_parseResponse, calcChecksum_cells, List.cons_append, List.getD_cons_zero,
    List.getD_cons_succ]

/-- C19: over the transport of clock and byte queue, with a queue that holds
`junk` without sync byte, then the twelve bytes `F` whose first is the sync
byte, then `tail`, all reported available, and with every clock reading of the
call below `start + 1000`: `finger_getResponse` drops the junk, stores `F` in
the cells 0 to 11, leaves the other cells and `tail` alone and returns 1, and
`finger_sendCommandGetResponse` returns the code and record of
`finger_parseResponse` on `F`. -/
theorem wire_frame_received (bits : Nat) (hbits : 32 ≤ bits) (clock : Nat → Nat)
    (ready : Nat → Bool) (buff : Buffer) (cmd param : Nat) (resp : finger_resp_t)
    (r0 : Nat) (junk F tail : List Int)
    (hbuff : FINGER_PKT_LEN ≤ buff.length)
    (hjunk : ∀ v ∈ junk, wireByte v ≠ 0x55)
    (hF : F.length = 12) (hF0 : wireByte (F.getD 0 0) = 0x55)
    (hready : ∀ k, ready k = true)
    (hmono : Monotone clock) (hrange : ∀ k, clock k < 2 ^ bits)
    (hbefore : ∀ k, r0 ≤ k → k ≤ r0 + junk.length + 12 → clock k < clock r0 + 1000) :
    ∀ fuel, junk.length + 12 ≤ fuel →
      finger_getResponse (wireHal bits hbits clock ready) fuel buff ⟨r0, junk ++ F ++ tail⟩
        = some (1, F.map wireByte ++ buff.drop 12, ⟨r0 + junk.length + 13, tail⟩)
      ∧ finger_sendCommandGetResponse (wireHal bits hbits clock ready) fuel cmd param resp
          ⟨r0, junk ++ F ++ tail⟩
        = some ((finger_parseResponse (F.map wireByte) resp).1,
                (finger_parseResponse (F.map wireByte) resp).2,
                ⟨r0 + junk.length + 13, tail⟩) := by
  intro fuel hfuel
  obtain ⟨f0, frest, rfl⟩ : ∃ f0 frest, F = f0 :: frest := by
    cases F with
    | nil => cases hF
    | cons f0 frest => exact ⟨f0, frest, rfl⟩
  have hfr : frest.length = 11 := by
    rw [List.length_cons] at hF
    omega
  have hf0 : wireByte f0 = 0x55 := hF0
  have hsw : clock r0 % 2 ^ bits = clock r0 := Nat.mod_eq_of_lt (hrange r0)
  have hT : ∀ k, r0 ≤ k → k ≤ r0 + junk.length + 12 →
      finger_elapsed (wireHal bits hbits clock ready) (clock k) (clock r0)
        < FINGER_RESPONSE_TIMEOUT := by
    intro k h1 h2
    rw [wireHal_elapsed bits hbits clock ready (clock k) (clock r0) (hmono h1) (hrange k)]
    have := hbefore k h1 h2
    simp only [FINGER_RESPONSE_TIMEOUT]
    omega
  have hq : junk ++ f0 :: frest ++ tail = junk ++ f0 :: (frest ++ tail) := by
    simp only [List.append_assoc, List.cons_append]
  have hget : ∀ b : Buffer, FINGER_PKT_LEN ≤ b.length →
      finger_getResponse (wireHal bits hbits clock ready) fuel b
          ⟨r0, junk ++ f0 :: frest ++ tail⟩
        = some (1, (f0 :: frest).map wireByte ++ b.drop 12,
            ⟨r0 + junk.length + 13, tail⟩) := by
    intro b hb
    obtain ⟨c0, crest, rfl⟩ : ∃ c0 crest, b = c0 :: crest := by
      cases b with
      | nil => exact absurd hb (by decide)
      | cons c0 crest => exact ⟨c0, crest, rfl⟩
    have hcr : 11 ≤ crest.length := by
      rw [List.length_cons] at hb
      simp only [FINGER_PKT_LEN] at hb
      omega
    have hsync : finger_getResponse_sync (wireHal bits hbits clock ready)
        (((wireHal bits hbits clock ready).millis ⟨r0, junk ++ f0 :: frest ++ tail⟩).1
          % 2 ^ (wireHal bits hbits clock ready).ulongBits) fuel 0
        ((wireHal bits hbits clock ready).millis ⟨r0, junk ++ f0 :: frest ++ tail⟩).2
        = some (1, wireByte f0, ⟨r0 + 1 + junk.length + 1, frest ++ tail⟩) := by
      show finger_getResponse_sync (wireHal bits hbits clock ready) (clock r0 % 2 ^ bits) fuel 0
        ⟨r0 + 1, junk ++ f0 :: frest ++ tail⟩ = _
      rw [hsw, hq]
      exact wire_sync_junk bits hbits clock ready (clock r0) f0 (frest ++ tail) hf0 hready junk
        (r0 + 1) 0 fuel hjunk (fun k h1 h2 => hT k (by omega) (by omega)) (by omega)
    have hmid : (crest.take 11).length = frest.length := by
      rw [List.length_take, hfr]
      omega
    have hrest : finger_getResponse_rest (wireHal bits hbits clock ready)
        (((wireHal bits hbits clock ready).millis ⟨r0, junk ++ f0 :: frest ++ tail⟩).1
          % 2 ^ (wireHal bits hbits clock ready).ulongBits) fuel 1
        ((c0 :: crest).set 0 (wireByte f0)) ⟨r0 + 1 + junk.length + 1, frest ++ tail⟩
        = some (FINGER_PKT_LEN, [wireByte f0] ++ frest.map wireByte ++ crest.drop 11,
            ⟨r0 + 1 + junk.length + 1 + frest.length, tail⟩) := by
      show finger_getResponse_rest (wireHal bits hbits clock ready) (clock r0 % 2 ^ bits) fuel
        [wireByte f0].length (wireByte f0 :: crest) _ = _
      have hb1 : wireByte f0 :: crest = [wireByte f0] ++ crest.take 11 ++ crest.drop 11 := by
        rw [List.append_assoc, List.take_append_drop]
        rfl
      rw [hsw, hb1]
      exact wire_rest_bytes bits hbits clock ready (clock r0) tail (crest.drop 11) hready frest
        [wireByte f0] (crest.take 11) (r0 + 1 + junk.length + 1) fuel hmid
        (by rw [hfr]; rfl) (fun k h1 h2 => hT k (by omega) (by omega)) (by omega)
    rw [finger_getResponse_of_loops _ fuel (c0 :: crest) _ _ _ _ _ hsync hrest]
    have e : r0 + 1 + junk.length + 1 + frest.length = r0 + junk.length + 13 := by omega
    rw [e]
    simp only [List.map_cons, List.cons_append, List.nil_append, List.drop_succ_cons]
  refine ⟨hget buff hbuff, ?_⟩
  have hmk : FINGER_PKT_LEN
      ≤ (finger_makePacket (List.replicate FINGER_BUFF_LEN 0) cmd param).length := by
    rw [finger_makePacket_length]
    decide
  rw [finger_sendCommandGetResponse_of_frame (wireHal bits hbits clock ready) fuel cmd param
    resp (WireState.mk r0 (junk ++ f0 :: frest ++ tail)) _ _ (hget _ hmk),
    finger_parseResponse_first_cells _ _ resp (by rw [List.length_map]; exact hF)]

/-- Witness of C19: a clock that advances by 1 ms at every reading (and stops
at 500), a queue of two junk bytes, an ACK frame and one more byte; with fuel
14 the frame is stored, the junk dropped, the last byte left in the queue. -/
theorem wire_frame_received_witness :
    finger_getResponse (wireHal 32 (by decide) (fun k => min k 500) (fun _ => true)) 14
        (List.replicate 12 0)
        ⟨0, [1, 2] ++ [0x55, 0xAA, 0x01, 0x00, 0, 0, 0, 0, 0x30, 0, 0x30, 0x01] ++ [7]⟩
      = some (1, List.map wireByte [0x55, 0xAA, 0x01, 0x00, 0, 0, 0, 0, 0x30, 0, 0x30, 0x01]
                  ++ (List.replicate 12 0).drop 12,
              ⟨0 + [(1 : Int), 2].length + 13, [7]⟩)
    ∧ finger_sendCommandGetResponse
        (wireHal 32 (by decide) (fun k => min k 500) (fun _ => true)) 14 0x01 0 ⟨0, 0, 0⟩
        ⟨0, [1, 2] ++ [0x55, 0xAA, 0x01, 0x00, 0, 0, 0, 0, 0x30, 0, 0x30, 0x01] ++ [7]⟩
      = some ((finger_parseResponse
                (List.map wireByte [0x55, 0xAA, 0x01, 0x00, 0, 0, 0, 0, 0x30, 0, 0x30, 0x01])
                ⟨0, 0, 0⟩).1,
              (finger_parseResponse
                (List.map wireByte [0x55, 0xAA, 0x01, 0x00, 0, 0, 0, 0, 0x30, 0, 0x30, 0x01])
                ⟨0, 0, 0⟩).2,
              ⟨0 + [(1 : Int), 2].length + 13, [7]⟩) :=
  wire_frame_received 32 (by decide) (fun k => min k 500) (fun _ => true) (List.replicate 12 0)
    0x01 0 ⟨0, 0, 0⟩ 0 [1, 2] [0x55, 0xAA, 0x01, 0x00, 0, 0, 0, 0, 0x30, 0, 0x30, 0x01] [7]
    (by decide) (by decide) (by decide) (by decide) (fun _ => rfl)
    (fun a b h => by
      show min a 500 ≤ min b 500
      omega)
    (fun k => by
      show min k 500 < 2 ^ 32
      have : (2 : Nat) ^ 32 = 4294967296 := by decide
      omega)
    (fun k _ _ => by
      show min k 500 < min 0 500 + 1000
      omega)
    14 (by decide)

/-! ## Every public call returns and transmits once -/

/-- One iteration of the second loop that finds the time budget used up. -/
theorem wire_rest_timeout (bits : Nat) (hbits : 32 ≤ bits) (clock : Nat → Nat)
    (ready : Nat → Bool) (sw fuel i : Nat) (buff : Buffer) (s : WireState)
    (hi : i < FINGER_PKT_LEN)
    (h : ¬ finger_elapsed (wireHal bits hbits clock ready) (clock s.reads) sw
          < FINGER_RESPONSE_TIMEOUT) :
    finger_getResponse_rest (wireHal bits hbits clock ready) sw (fuel + 1) i buff s
      = some (i, buff, ⟨s.reads + 1, s.rx⟩) := by
  show (if i < FINGER_PKT_LEN then
          (if finger_elapsed (wireHal bits hbits clock ready) (clock s.reads) sw
              < FINGER_RESPONSE_TIMEOUT then _ else _)
        else _) = _
  rw [if_pos hi, if_neg h]
  rfl

/-- One iteration of the second loop that finds no byte available. -/
theorem wire_rest_idle (bits : Nat) (hbits : 32 ≤ bits) (clock : Nat → Nat)
    (ready : Nat → Bool) (sw fuel i : Nat) (buff : Buffer) (s : WireState)
    (hi : i < FINGER_PKT_LEN)
    (h : finger_elapsed (wireHal bits hbits clock ready) (clock s.reads) sw
          < FINGER_RESPONSE_TIMEOUT)
    (ha : ¬ (if ready (s.reads + 1) then min s.rx.length 255 else 0) % 256 > 0) :
    finger_getResponse_rest (wireHal bits hbits clock ready) sw (fuel + 1) i buff s
      = finger_getResponse_rest (wireHal bits hbits clock ready) sw fuel i buff
          ⟨s.reads + 1, s.rx⟩ := by
  show (if i < FINGER_PKT_LEN then
          (if finger_elapsed (wireHal bits hbits clock ready) (clock s.reads) sw
              < FINGER_RESPONSE_TIMEOUT then
            (if (if ready (s.reads + 1) then min s.rx.length 255 else 0) % 256 > 0 then _
              else _)
          else _)
        else _) = _
  rw [if_pos hi, if_pos h, if_neg ha]
  rfl

theorem wire_avail_nil (ready : Nat → Bool) (k : Nat) :
    ¬ (if ready k then min ([] : List Int).length 255 else 0) % 256 > 0 := by
  have : (if ready k then min ([] : List Int).length 255 else 0) % 256 = 0 := by
    split_ifs <;> rfl
  omega

/-- The first loop ends, whatever the queue holds, once the clock readings
from number `K` on show the time budget used up. -/
theorem wire_sync_terminates (bits : Nat) (hbits : 32 ≤ bits) (clock : Nat → Nat)
    (ready : Nat → Bool) (sw K : Nat)
    (hK : ∀ k, K ≤ k → ¬ finger_elapsed (wireHal bits hbits clock ready) (clock k) sw
            < FINGER_RESPONSE_TIMEOUT) (d : Nat) :
    ∀ (s : WireState) (first fuel : Nat), K ≤ s.reads + d → d + 1 ≤ fuel →
      (finger_getResponse_sync (wireHal bits hbits clock ready) sw fuel first s).isSome
        = true := by
  induction d with
  | zero =>
    intro s first fuel hs hf
    obtain ⟨f, rfl⟩ : ∃ f, fuel = f + 1 := ⟨fuel - 1, by omega⟩
    rw [wire_sync_timeout bits hbits clock ready sw f first s (hK s.reads (by omega))]
    rfl
  | succ d ih =>
    intro s first fuel hs hf
    obtain ⟨f, rfl⟩ : ∃ f, fuel = f + 1 := ⟨fuel - 1, by omega⟩
    obtain ⟨r, rx⟩ := s
    dsimp only at hs
    by_cases h : finger_elapsed (wireHal bits hbits clock ready) (clock r) sw
        < FINGER_RESPONSE_TIMEOUT
    · by_cases ha : (if ready (r + 1) then min rx.length 255 else 0) % 256 > 0
      · cases rx with
        | nil => exact absurd ha (wire_avail_nil ready (r + 1))
        | cons b rest =>
          rw [wire_sync_read bits hbits clock ready sw f first r b rest h ha]
          split_ifs
          · rfl
          · exact ih ⟨r + 1, rest⟩ (wireByte b) f (by dsimp only; omega) (by omega)
      · rw [wire_sync_idle bits hbits clock ready sw f first ⟨r, rx⟩ h ha]
        exact ih ⟨r + 1, rx⟩ first f (by dsimp only; omega) (by omega)
    · rw [wire_sync_timeout bits hbits clock ready sw f first ⟨r, rx⟩ h]
      rfl

/-- The second loop ends, whatever the queue holds, once the clock readings
from number `K` on show the time budget used up. -/
theorem wire_rest_terminates (bits : Nat) (hbits : 32 ≤ bits) (clock : Nat → Nat)
    (ready : Nat → Bool) (sw K : Nat)
    (hK : ∀ k, K ≤ k → ¬ finger_elapsed (wireHal bits hbits clock ready) (clock k) sw
            < FINGER_RESPONSE_TIMEOUT) (d : Nat) :
    ∀ (s : WireState) (i : Nat) (buff : Buffer) (fuel : Nat), K ≤ s.reads + d → d + 1 ≤ fuel →
      (finger_getResponse_rest (wireHal bits hbits clock ready) sw fuel i buff s).isSome
        = true := by
  induction d with
  | zero =>
    intro s i buff fuel hs hf
    obtain ⟨f, rfl⟩ : ∃ f, fuel = f + 1 := ⟨fuel - 1, by omega⟩
    by_cases hi : i < FINGER_PKT_LEN
    · rw [wire_rest_timeout bits hbits clock ready sw f i buff s hi (hK s.reads (by omega))]
      rfl
    · rw [wire_rest_done bits hbits clock ready sw f i buff s hi]
      rfl
  | succ d ih =>
    intro s i buff fuel hs hf
    obtain ⟨f, rfl⟩ : ∃ f, fuel = f + 1 := ⟨fuel - 1, by omega⟩
    obtain ⟨r, rx⟩ := s
    dsimp only at hs
    by_cases hi : i < FINGER_PKT_LEN
    · by_cases h : finger_elapsed (wireHal bits hbits clock ready) (clock r) sw
          < FINGER_RESPONSE_TIMEOUT
      · by_cases ha : (if ready (r + 1) then min rx.length 255 else 0) % 256 > 0
        · cases rx with
          | nil => exact absurd ha (wire_avail_nil ready (r + 1))
          | cons b rest =>
            rw [wire_rest_read bits hbits clock ready sw f i r buff b rest hi h ha]
            exact ih ⟨r + 1, rest⟩ (i + 1) _ f (by dsimp only; omega) (by omega)
        · rw [wire_rest_idle bits hbits clock ready sw f i buff ⟨r, rx⟩ hi h ha]
          exact ih ⟨r + 1, rx⟩ i buff f (by dsimp only; omega) (by omega)
      · rw [wire_rest_timeout bits hbits clock ready sw f i buff ⟨r, rx⟩ hi h]
        rfl
    · rw [wire_rest_done bits hbits clock ready sw f i buff ⟨r, rx⟩ hi]
      rfl

/-- The receiver returns when its two loops do. -/
theorem finger_getResponse_isSome_of_loops {σ : Type} (hal : FingerHal σ) (fuel : Nat)
    (buff : Buffer) (s : σ)
    (h1 : (finger_getResponse_sync hal ((hal.millis s).1 % 2 ^ hal.ulongBits) fuel 0
        (hal.millis s).2).isSome = true)
    (h2 : ∀ (first : Nat) (s1 : σ),
        (finger_getResponse_rest hal ((hal.millis s).1 % 2 ^ hal.ulongBits) fuel 1
          (buff.set 0 first) s1).isSome = true) :
    (finger_getResponse hal fuel buff s).isSome = true := by
  unfold finger_getResponse
  cases hx : finger_getResponse_sync hal ((hal.millis s).1 % 2 ^ hal.ulongBits) fuel 0
      (hal.millis s).2 with
  | none => rw [hx] at h1; cases h1
  | some x =>
    obtain ⟨hasSync, first, s1⟩ := x
    simp only [hx]
    split_ifs
    · rfl
    · have h3 := h2 first s1
      cases hy : finger_getResponse_rest hal ((hal.millis s).1 % 2 ^ hal.ulongBits) fuel 1
          (buff.set 0 first) s1 with
      | none => rw [hy] at h3; cases h3
      | some y => rfl

/-- The receiver over the transport of clock and byte queue returns for every
fuel from `K + 2` on, whatever the queue holds, when the monotone clock shows
`start + 1000` at its reading number `K`. -/
theorem wire_getResponse_terminates (bits : Nat) (hbits : 32 ≤ bits) (clock : Nat → Nat)
    (ready : Nat → Bool) (buff : Buffer) (s : WireState) (K : Nat)
    (hmono : Monotone clock) (hrange : ∀ k, clock k < 2 ^ bits)
    (hreach : clock s.reads + 1000 ≤ clock K) (fuel : Nat) (hf : K + 2 ≤ fuel) :
    (finger_getResponse (wireHal bits hbits clock ready) fuel buff s).isSome = true := by
  obtain ⟨r, rx⟩ := s
  dsimp only at hreach
  have hrK : r < K := by
    by_contra hle
    have := hmono (Nat.le_of_not_lt hle)
    omega
  have hsw : clock r % 2 ^ bits = clock r := Nat.mod_eq_of_lt (hrange r)
  have hK : ∀ k, K ≤ k → ¬ finger_elapsed (wireHal bits hbits clock ready) (clock k) (clock r)
      < FINGER_RESPONSE_TIMEOUT := by
    intro k hk
    rw [wireHal_elapsed bits hbits clock ready (clock k) (clock r) (hmono (by omega)) (hrange k)]
    have := hmono hk
    simp only [FINGER_RESPONSE_TIMEOUT]
    omega
  apply finger_getResponse_isSome_of_loops
  · show (finger_getResponse_sync (wireHal bits hbits clock ready) (clock r % 2 ^ bits) fuel 0
      ⟨r + 1, rx⟩).isSome = true
    rw [hsw]
    exact wire_sync_terminates bits hbits clock ready (clock r) K hK K ⟨r + 1, rx⟩ 0 fuel
      (by dsimp only; omega) (by omega)
  · intro first s1
    show (finger_getResponse_rest (wireHal bits hbits clock ready) (clock r % 2 ^ bits) fuel 1
      _ s1).isSome = true
    rw [hsw]
    exact wire_rest_terminates bits hbits clock ready (clock r) K hK K s1 1 _ fuel
      (by omega) (by omega)

/-- The exchange returns when the receiver does. -/
theorem finger_sendCommandGetResponse_isSome {σ : Type} (hal : FingerHal σ) (fuel : Nat)
    (cmd param : Nat) (resp : finger_resp_t) (s : σ)
    (h : (finger_getResponse hal fuel
        (finger_makePacket (List.replicate FINGER_BUFF_LEN 0) cmd param)
        (hal.sendPacket (finger_makePacket (List.replicate FINGER_BUFF_LEN 0) cmd param)
          FINGER_PKT_LEN s)).isSome = true) :
    (finger_sendCommandGetResponse hal fuel cmd param resp s).isSome = true := by
  unfold finger_sendCommandGetResponse
  cases hg : finger_getResponse hal fuel
      (finger_makePacket (List.replicate FINGER_BUFF_LEN 0) cmd param)
      (hal.sendPacket (finger_makePacket (List.replicate FINGER_BUFF_LEN 0) cmd param)
        FINGER_PKT_LEN s) with
  | none => rw [hg] at h; cases h
  | some x =>
    obtain ⟨ret, buff1, s2⟩ := x
    simp only [hg]
    split_ifs <;> rfl

/-- A public call of the command table returns when its exchange does. -/
theorem public_call_isSome {σ : Type} (hal : FingerHal σ) (fuel : Nat) (call : PublicCall)
    (cmd param : Nat) (resp : finger_resp_t) (s : σ)
    (hcmd : call.wireCommand = some (cmd, param))
    (h : (finger_sendCommandGetResponse hal fuel cmd param resp s).isSome = true) :
    (call.run hal fuel resp s).isSome = true := by
  obtain ⟨x, hx⟩ := Option.isSome_iff_exists.mp h
  obtain ⟨r0, resp0, s0⟩ := x
  cases call with
  | Open baud =>
    simp only [PublicCall.wireCommand, Option.some.injEq, Prod.mk.injEq] at hcmd
    obtain ⟨rfl, rfl⟩ := hcmd
    exact h
  | Close =>
    simp only [PublicCall.wireCommand, Option.some.injEq, Prod.mk.injEq] at hcmd
    obtain ⟨rfl, rfl⟩ := hcmd
    exact h
  | CaptureFinger hq =>
    simp only [PublicCall.wireCommand, Option.some.injEq, Prod.mk.injEq] at hcmd
    obtain ⟨rfl, rfl⟩ := hcmd
    show (finger_captureFinger hal fuel hq resp s).isSome = true
    rw [finger_captureFinger_of_raw hal fuel hq resp resp0 s s0 r0 hx]
    split_ifs <;> rfl
  | SetLed led =>
    simp only [PublicCall.wireCommand, Option.some.injEq, Prod.mk.injEq] at hcmd
    obtain ⟨rfl, rfl⟩ := hcmd
    exact h
  | GetEnrollCount =>
    simp only [PublicCall.wireCommand, Option.some.injEq, Prod.mk.injEq] at hcmd
    obtain ⟨rfl, rfl⟩ := hcmd
    exact h
  | CheckEnrolled id =>
    simp only [PublicCall.wireCommand, Option.some.injEq, Prod.mk.injEq] at hcmd
    obtain ⟨rfl, rfl⟩ := hcmd
    show (finger_checkEnrolled hal fuel id resp s).isSome = true
    rw [finger_checkEnrolled_of_raw hal fuel id resp resp0 s s0 r0 hx]
    split_ifs <;> rfl
  | EnrollStart id =>
    simp only [PublicCall.wireCommand, Option.some.injEq, Prod.mk.injEq] at hcmd
    obtain ⟨rfl, rfl⟩ := hcmd
    exact h
  | EnrollStage stage =>
    simp only [PublicCall.wireCommand] at hcmd
    split_ifs at hcmd with hst
    simp only [Option.some.injEq, Prod.mk.injEq] at hcmd
    obtain ⟨rfl, rfl⟩ := hcmd
    have h3 : ¬ stage ≥ 3 := by omega
    show (finger_enrollStage hal fuel stage resp s).isSome = true
    unfold finger_enrollStage
    rw [if_neg h3]
    match stage, hst, h with
    | 0, _, h => exact h
    | 1, _, h => exact h
    | 2, _, h => exact h
  | IsFingerPressed =>
    simp only [PublicCall.wireCommand, Option.some.injEq, Prod.mk.injEq] at hcmd
    obtain ⟨rfl, rfl⟩ := hcmd
    show (finger_isFingerPressed hal fuel resp s).isSome = true
    rw [finger_isFingerPressed_of_raw hal fuel resp resp0 s s0 r0 hx]
    split_ifs <;> rfl
  | DeleteId id =>
    simp only [PublicCall.wireCommand, Option.some.injEq, Prod.mk.injEq] at hcmd
    obtain ⟨rfl, rfl⟩ := hcmd
    exact h
  | DeleteAll =>
    simp only [PublicCall.wireCommand, Option.some.injEq, Prod.mk.injEq] at hcmd
    obtain ⟨rfl, rfl⟩ := hcmd
    exact h
  | Verify_1_1 id =>
    simp only [PublicCall.wireCommand, Option.some.injEq, Prod.mk.injEq] at hcmd
    obtain ⟨rfl, rfl⟩ := hcmd
    show (finger_verify_1_1 hal fuel id resp s).isSome = true
    rw [finger_verify_1_1_of_raw hal fuel id resp resp0 s s0 r0 hx]
    rfl
  | Identify_1_N =>
    simp only [PublicCall.wireCommand, Option.some.injEq, Prod.mk.injEq] at hcmd
    obtain ⟨rfl, rfl⟩ := hcmd
    show (finger_identify_1_N hal fuel resp s).isSome = true
    rw [finger_identify_1_N_of_raw hal fuel resp resp0 s s0 r0 hx]
    split_ifs <;> rfl

/-- A public call of the command table, over a recording transport on which
the wait of the receiver ends within the fuel: the call returns, and the record
has grown by the one frame of the call. -/
theorem public_call_returns_logged {σ : Type} (hal : FingerHal σ) (fuel : Nat)
    (call : PublicCall) (cmd param : Nat) (resp : finger_resp_t) (s : σ)
    (log : List (List Nat))
    (hcmd : call.wireCommand = some (cmd, param))
    (hwait : (finger_getResponse hal fuel
        (finger_makePacket (List.replicate FINGER_BUFF_LEN 0) cmd param)
        (hal.sendPacket (finger_makePacket (List.replicate FINGER_BUFF_LEN 0) cmd param)
          FINGER_PKT_LEN s)).isSome = true) :
    ∃ r resp1 s1, call.run hal.recording fuel resp (s, log)
      = some (r, resp1,
          (s1, log ++ [(finger_makePacket (List.replicate FINGER_BUFF_LEN 0) cmd param).take
            12])) := by
  have hrec : (finger_getResponse hal.recording fuel
      (finger_makePacket (List.replicate FINGER_BUFF_LEN 0) cmd param)
      (hal.recording.sendPacket (finger_makePacket (List.replicate FINGER_BUFF_LEN 0) cmd param)
        FINGER_PKT_LEN (s, log))).isSome = true := by
    show (finger_getResponse hal.recording fuel
      (finger_makePacket (List.replicate FINGER_BUFF_LEN 0) cmd param)
      (hal.sendPacket (finger_makePacket (List.replicate FINGER_BUFF_LEN 0) cmd param)
        FINGER_PKT_LEN s,
       log ++ [(finger_makePacket (List.replicate FINGER_BUFF_LEN 0) cmd param).take
        FINGER_PKT_LEN])).isSome = true
    rw [finger_getResponse_recording, Option.isSome_map']
    exact hwait
  have hrun := public_call_isSome hal.recording fuel call cmd param resp (s, log) hcmd
    (finger_sendCommandGetResponse_isSome hal.recording fuel cmd param resp (s, log) hrec)
  obtain ⟨x, hx⟩ := Option.isSome_iff_exists.mp hrun
  obtain ⟨r, resp1, s1, log1⟩ := x
  have hlog := (public_call_log_of_result hal fuel call cmd param resp resp1 s s1 log log1 r
    hcmd hx (List.replicate FINGER_BUFF_LEN 0) (by decide)).1
  exact ⟨r, resp1, s1, by rw [hx, hlog]⟩

/-- C2: every public call that reaches the exchange performs exactly one
transmission, of the 12 bytes `finger_makePacket` builds for the command code
and parameter of the command table. Over a recording transport: (1) for any
transport and fuel within which the wait of the receiver ends, the call
returns and the record has grown by that one frame; (2) over the transport of
clock and byte queue, with a monotone clock that reaches `start + 1000` and
any queue, the call returns so for every fuel from some bound on; (3) whenever
the call returns, the record has grown by that one frame, whichever buffer
of at least 12 cells the frame is built in. -/
theorem public_call_transmits_one_frame :
    (∀ (σ : Type) (hal : FingerHal σ) (fuel : Nat) (call : PublicCall) (cmd param : Nat)
        (resp : finger_resp_t) (s : σ) (log : List (List Nat)),
        call.wireCommand = some (cmd, param) →
        (finger_getResponse hal fuel
          (finger_makePacket (List.replicate FINGER_BUFF_LEN 0) cmd param)
          (hal.sendPacket (finger_makePacket (List.replicate FINGER_BUFF_LEN 0) cmd param)
            FINGER_PKT_LEN s)).isSome = true →
        ∃ r resp1 s1, call.run hal.recording fuel resp (s, log)
          = some (r, resp1,
              (s1, log ++ [(finger_makePacket (List.replicate FINGER_BUFF_LEN 0) cmd param).take
                12])))
    ∧ (∀ (bits : Nat) (hbits : 32 ≤ bits) (clock : Nat → Nat) (ready : Nat → Bool)
        (call : PublicCall) (cmd param : Nat) (resp : finger_resp_t) (s : WireState)
        (log : List (List Nat)),
        call.wireCommand = some (cmd, param) →
        Monotone clock → (∀ k, clock k < 2 ^ bits) →
        (∃ K, clock s.reads + 1000 ≤ clock K) →
        ∃ fuel0, ∀ fuel, fuel0 ≤ fuel →
          ∃ r resp1 s1, call.run (wireHal bits hbits clock ready).recording fuel resp (s, log)
            = some (r, resp1,
                (s1, log ++ [(finger_makePacket (List.replicate FINGER_BUFF_LEN 0) cmd
                  param).take 12])))
    ∧ (∀ (σ : Type) (hal : FingerHal σ) (fuel : Nat) (call : PublicCall) (cmd param : Nat)
        (resp resp1 : finger_resp_t) (s s1 : σ) (log log1 : List (List Nat))
        (r : finger_err_t),
        call.wireCommand = some (cmd, param) →
        call.run hal.recording fuel resp (s, log) = some (r, resp1, (s1, log1)) →
        ∀ buff : Buffer, FINGER_PKT_LEN ≤ buff.length →
          log1 = log ++ [(finger_makePacket buff cmd param).take 12]
          ∧ ((finger_makePacket buff cmd param).take 12).length = 12) := by
  refine ⟨?_, ?_, ?_⟩
  · intro σ hal fuel call cmd param resp s log hcmd hwait
    exact public_call_returns_logged hal fuel call cmd param resp s log hcmd hwait
  · intro bits hbits clock ready call cmd param resp s log hcmd hmono hrange hreach
    obtain ⟨K, hK⟩ := hreach
    refine ⟨K + 2, ?_⟩
    intro fuel hf
    exact public_call_returns_logged (wireHal bits hbits clock ready) fuel call cmd param resp s
      log hcmd
      (wire_getResponse_terminates bits hbits clock ready _ s K hmono hrange hK fuel hf)
  · intro σ hal fuel call cmd param resp resp1 s s1 log log1 r hcmd hrun
    exact public_call_log_of_result hal fuel call cmd param resp resp1 s s1 log log1 r hcmd hrun

/-- Witness of C2: `finger_open(9600)` over the simulated transport, with the
device answering an ACK frame, returns with the one frame
`55 AA 01 00 80 25 00 00 01 00 A6 01` recorded; and `finger_verify_1_1(7)` over
the transport of clock and byte queue, with a silent device and a clock that
advances by 100 ms at every reading (and stops at 2000), returns with one frame
recorded for every fuel from some bound on. -/
theorem public_call_transmits_one_frame_witness :
    PublicCall.run (simHal 1).recording 40 (PublicCall.Open 9600) ⟨0, 0, 0⟩
        (⟨0, [0x55, 0xAA, 0x01, 0x00, 0, 0, 0, 0, 0x30, 0, 0x30, 0x01]⟩, [])
      = some (FINGER_ERROR_NONE, ⟨0, 0x30, 0⟩,
          (⟨13, []⟩, [[0x55, 0xAA, 0x01, 0x00, 0x80, 0x25, 0, 0, 0x01, 0, 0xA6, 0x01]]))
    ∧ (∃ r resp1 s1, PublicCall.run (simHal 1).recording 40 (PublicCall.Open 9600) ⟨0, 0, 0⟩
        (⟨0, [0x55, 0xAA, 0x01, 0x00, 0, 0, 0, 0, 0x30, 0, 0x30, 0x01]⟩, [])
      = some (r, resp1,
          (s1, [] ++ [(finger_makePacket (List.replicate FINGER_BUFF_LEN 0) 0x01 9600).take
            12])))
    ∧ (∃ fuel0, ∀ fuel, fuel0 ≤ fuel →
        ∃ r resp1 s1,
          PublicCall.run
              (wireHal 32 (by decide) (fun k => min (100 * k) 2000) (fun _ => true)).recording
              fuel (PublicCall.Verify_1_1 7) ⟨0, 0, 0⟩ (⟨0, []⟩, [])
            = some (r, resp1,
                (s1, [] ++ [(finger_makePacket (List.replicate FINGER_BUFF_LEN 0) 0x50 7).take
                  12]))) :=
  ⟨by decide,
   public_call_transmits_one_frame.1 SimState (simHal 1) 40 (PublicCall.Open 9600) 0x01 9600
     ⟨0, 0, 0⟩ ⟨0, [0x55, 0xAA, 0x01, 0x00, 0, 0, 0, 0, 0x30, 0, 0x30, 0x01]⟩ [] (by decide)
     (by decide),
   public_call_transmits_one_frame.2.1 32 (by decide) (fun k => min (100 * k) 2000)
     (fun _ => true) (PublicCall.Verify_1_1 7) 0x50 7 ⟨0, 0, 0⟩ ⟨0, []⟩ [] (by decide)
     (fun a b h => by
       show min (100 * a) 2000 ≤ min (100 * b) 2000
       omega)
     (fun k => by
       show min (100 * k) 2000 < 2 ^ 32
       have : (2 : Nat) ^ 32 = 4294967296 := by decide
       omega)
     ⟨10, by decide⟩⟩
